import Mathlib

/-!
Flair Furniture production optimiser: embedding of the numeric core.

Shallow embedding of `optimizacion.h` / `optimizacion.cpp`.

* A C++ `double` is read as an exact rational number (`ℚ`): every finite double
  is a rational, the arithmetic below is the exact arithmetic the source
  formulas denote, and rounding is not modelled. This describes the runs in which
  no operation overflows.
* Overflow is modelled by the type `Doble` (a finite value, `+∞`, `-∞` or NaN) and
  the versions of `interseccionRectas`, `encontrarPuntosInterseccion` and
  `configurarEscala` whose names end in `D`: an operation whose exact result
  reaches the overflow threshold of binary64 gives `±∞`, and `∞ - ∞`, `∞ / ∞`,
  `0 * ∞` give NaN. Rounding to 53 bits is still not modelled.
* The one non-finite value the solver manipulates, the initial
  `-numeric_limits<double>::infinity()` of `mejorGanancia`, is the bottom
  element of `WithBot ℚ`.
* `std::vector` is `List`; `std::pair<double, double>` is `ℚ × ℚ`.
* Console output is dropped; an exception caught by a method is recorded in the
  `Desenlace` returned next to the new session state.
-/

/-- Linear constraint `coeficienteX1 * x1 + coeficienteX2 * x2 operador valorConstante`
(struct `Restriccion` of `optimizacion.h`). -/
structure Restriccion where
  coeficienteX1 : ℚ
  coeficienteX2 : ℚ
  valorConstante : ℚ
  operador : String := "<="
  deriving DecidableEq, Repr

/-- Stored optimum (struct `SolucionOptima` of `optimizacion.h`); `gananciaMaxima` can
hold `-∞`, the value `⊥`. -/
structure SolucionOptima where
  x1 : ℚ := 0
  x2 : ℚ := 0
  gananciaMaxima : WithBot ℚ := ((0 : ℚ) : WithBot ℚ)
  solucionEncontrada : Bool := false
  deriving DecidableEq

/-- Session state: the private fields of class `SistemaOptimizacion`. -/
structure SistemaOptimizacion where
  precioMesa : ℚ
  precioSilla : ℚ
  restricciones : List Restriccion
  solucion : SolucionOptima
  preciosIngresados : Bool
  restriccionesIngresadas : Bool
  deriving DecidableEq

/-- How a run of `calcularSolucionOptima` ends: the early `return` after
`verificarDatosPrevios`, the `catch` branch with the message of the exception, or the
normal end of the `try` block. -/
inductive Desenlace where
  | datosFaltantes
  | errorCalculo (mensaje : String)
  | solucionGuardada
  deriving DecidableEq, Repr

/-- Running best of the evaluation loop: the locals `mejorGanancia`, `mejorX1`, `mejorX2`. -/
structure Mejor where
  mejorGanancia : WithBot ℚ
  mejorX1 : ℚ
  mejorX2 : ℚ
  deriving DecidableEq

/-- The comparison `operator<` of `std::pair<double, double>`, used by `std::sort`. -/
def menorPar (a b : ℚ × ℚ) : Prop :=
  a.1 < b.1 ∨ (¬ b.1 < a.1 ∧ a.2 < b.2)

instance menorParDecidable : DecidableRel menorPar :=
  fun a b => by unfold menorPar; exact inferInstance

/-- The order `std::sort` arranges a vector in: `a` may stand before `b` when `b < a` fails. -/
def noMayorPar (a b : ℚ × ℚ) : Prop := ¬ menorPar b a

instance noMayorParDecidable : DecidableRel noMayorPar :=
  fun a b => by unfold noMayorPar; exact inferInstance

/-- Model of `std::sort(puntos.begin(), puntos.end())`: the sorted rearrangement for
`operator<` of pairs. That order is total and only relates equal pairs both ways, so the
sorted rearrangement is unique and insertion sort computes it. -/
def ordenarPuntos (puntos : List (ℚ × ℚ)) : List (ℚ × ℚ) :=
  List.insertionSort noMayorPar puntos

/-- Loop of `std::unique` after the first element: `ultimo` is the last element kept and an
element is dropped when `pred ultimo elemento` holds. -/
def uniqueDesde {α : Type} (pred : α → α → Bool) (ultimo : α) : List α → List α
  | [] => []
  | y :: ys => if pred ultimo y then uniqueDesde pred ultimo ys
               else y :: uniqueDesde pred y ys

/-- Model of `v.erase(std::unique(v.begin(), v.end(), pred), v.end())`. -/
def unique {α : Type} (pred : α → α → Bool) : List α → List α
  | [] => []
  | x :: xs => x :: uniqueDesde pred x xs

/-- The lambda passed to `std::unique` in `encontrarPuntosInterseccion`. -/
def puntosCercanos (a b : ℚ × ℚ) : Bool :=
  decide (|a.1 - b.1| < 1e-6 ∧ |a.2 - b.2| < 1e-6)

namespace SistemaOptimizacion

/-- The constructor `SistemaOptimizacion::SistemaOptimizacion()`. -/
def inicial : SistemaOptimizacion :=
  { precioMesa := 0, precioSilla := 0, restricciones := [], solucion := {},
    preciosIngresados := false, restriccionesIngresadas := false }

/-- The constraints pushed by `ingresarRestricciones` when the user answers `s`
(optimizacion.cpp lines 198-202). -/
def restriccionesFlair : List Restriccion :=
  [ { coeficienteX1 := 4, coeficienteX2 := 3, valorConstante := 240 },
    { coeficienteX1 := 2, coeficienteX2 := 1, valorConstante := 100 },
    { coeficienteX1 := 0, coeficienteX2 := 1, valorConstante := 60 },
    { coeficienteX1 := 1, coeficienteX2 := 0, valorConstante := 0, operador := ">=" },
    { coeficienteX1 := 0, coeficienteX2 := 1, valorConstante := 0, operador := ">=" } ]

/-- Method `SistemaOptimizacion::interseccionRectas`: the rule of Cramer on the two boundary lines, with
the pair `(-1e9, -1e9)` returned when the determinant is below `1e-10` in absolute value.
Exact arithmetic: the runs in which a product overflows are described by
`interseccionRectasD`. -/
def interseccionRectas (r1 r2 : Restriccion) : ℚ × ℚ :=
  let a1 := r1.coeficienteX1
  let b1 := r1.coeficienteX2
  let c1 := r1.valorConstante
  let a2 := r2.coeficienteX1
  let b2 := r2.coeficienteX2
  let c2 := r2.valorConstante
  let determinante := a1 * b2 - a2 * b1
  if |determinante| < 1e-10 then (-1e9, -1e9)
  else ((c1 * b2 - c2 * b1) / determinante, (a1 * c2 - a2 * c1) / determinante)

/-- Method `SistemaOptimizacion::validarPrecio`. -/
def validarPrecio (precio : ℚ) : Bool := decide (precio > 0)

/-- Method `SistemaOptimizacion::validarRestriccion`. -/
def validarRestriccion (restriccion : Restriccion) : Bool :=
  if restriccion.coeficienteX1 = 0 ∧ restriccion.coeficienteX2 = 0 then false
  else decide (restriccion.operador = "<=" ∨ restriccion.operador = ">=" ∨
    restriccion.operador = "=")

/-- Method `SistemaOptimizacion::verificarDatosPrevios`. -/
def verificarDatosPrevios (s : SistemaOptimizacion) : Bool :=
  if !s.preciosIngresados then false
  else if !s.restriccionesIngresadas then false
  else true

/-- Method `SistemaOptimizacion::evaluarFuncionObjetivo`. -/
def evaluarFuncionObjetivo (s : SistemaOptimizacion) (x1 x2 : ℚ) : ℚ :=
  s.precioMesa * x1 + s.precioSilla * x2

/-- Body of the loop of `puntoEsFactible` for one constraint: `false` when the loop
returns `false` at this constraint, `true` when it moves on. -/
def restriccionAdmite (restriccion : Restriccion) (x1 x2 : ℚ) : Bool :=
  let valorIzquierdo := restriccion.coeficienteX1 * x1 + restriccion.coeficienteX2 * x2
  if restriccion.operador = "<=" then
    if valorIzquierdo > restriccion.valorConstante + 1e-6 then false else true
  else if restriccion.operador = ">=" then
    if valorIzquierdo < restriccion.valorConstante - 1e-6 then false else true
  else if restriccion.operador = "=" then
    if |valorIzquierdo - restriccion.valorConstante| > 1e-6 then false else true
  else true

/-- The loop of `puntoEsFactible` over a constraint vector. -/
def factibleEn : List Restriccion → ℚ → ℚ → Bool
  | [], _, _ => true
  | restriccion :: resto, x1, x2 =>
    if restriccionAdmite restriccion x1 x2 then factibleEn resto x1 x2 else false

/-- Method `SistemaOptimizacion::puntoEsFactible`. -/
def puntoEsFactible (s : SistemaOptimizacion) (x1 x2 : ℚ) : Bool :=
  factibleEn s.restricciones x1 x2

/-- Body of the first loop of `encontrarPuntosInterseccion`: the axis intercepts pushed
for one constraint. Exact arithmetic: the runs in which a quotient overflows are described
by `interseccionesEjesD`. -/
def interseccionesEjes (restriccion : Restriccion) : List (ℚ × ℚ) :=
  if restriccion.operador = "<=" ∨ restriccion.operador = "=" then
    (if restriccion.coeficienteX1 ≠ 0 then
      (if restriccion.valorConstante / restriccion.coeficienteX1 ≥ 0 then
        [(restriccion.valorConstante / restriccion.coeficienteX1, 0)] else [])
     else []) ++
    (if restriccion.coeficienteX2 ≠ 0 then
      (if restriccion.valorConstante / restriccion.coeficienteX2 ≥ 0 then
        [(0, restriccion.valorConstante / restriccion.coeficienteX2)] else [])
     else [])
  else []

/-- Body of the double loop of `encontrarPuntosInterseccion` for the pair `(ri, rj)`: the
points it pushes (at most one). -/
def interseccionPar (ri rj : Restriccion) : List (ℚ × ℚ) :=
  if ri.operador = "<=" ∨ ri.operador = "=" then
    if rj.operador = "<=" ∨ rj.operador = "=" then
      if (interseccionRectas ri rj).1 ≥ -1e-6 ∧ (interseccionRectas ri rj).2 ≥ -1e-6 then
        [interseccionRectas ri rj]
      else []
    else []
  else []

/-- The double loop `for i, for j = i + 1` of `encontrarPuntosInterseccion`, in push order. -/
def interseccionesPares : List Restriccion → List (ℚ × ℚ)
  | [] => []
  | ri :: resto => resto.flatMap (interseccionPar ri) ++ interseccionesPares resto

/-- The vector `puntos` of `encontrarPuntosInterseccion` just before the sort: the origin,
the axis intercepts, the pairwise intersections. -/
def puntosSinOrdenar (restricciones : List Restriccion) : List (ℚ × ℚ) :=
  (0, 0) :: (restricciones.flatMap interseccionesEjes ++ interseccionesPares restricciones)

/-- The computation of `encontrarPuntosInterseccion` on a constraint vector. -/
def puntosInterseccionDe (restricciones : List Restriccion) : List (ℚ × ℚ) :=
  unique puntosCercanos (ordenarPuntos (puntosSinOrdenar restricciones))

/-- Method `SistemaOptimizacion::encontrarPuntosInterseccion`. -/
def encontrarPuntosInterseccion (s : SistemaOptimizacion) : List (ℚ × ℚ) :=
  puntosInterseccionDe s.restricciones

/-- One iteration of the evaluation loop of `calcularSolucionOptima`. -/
def evaluarPunto (s : SistemaOptimizacion) (m : Mejor) (punto : ℚ × ℚ) : Mejor :=
  if s.puntoEsFactible punto.1 punto.2 then
    if m.mejorGanancia < ((s.evaluarFuncionObjetivo punto.1 punto.2 : ℚ) : WithBot ℚ) then
      { mejorGanancia := ((s.evaluarFuncionObjetivo punto.1 punto.2 : ℚ) : WithBot ℚ),
        mejorX1 := punto.1, mejorX2 := punto.2 }
    else m
  else m

/-- The evaluation loop of `calcularSolucionOptima`, from the initial `-∞`, `0`, `0`. -/
def evaluarCandidatos (s : SistemaOptimizacion) (puntos : List (ℚ × ℚ)) : Mejor :=
  puntos.foldl (evaluarPunto s) { mejorGanancia := ⊥, mejorX1 := 0, mejorX2 := 0 }

/-- Method `SistemaOptimizacion::calcularSolucionOptima`: the new session state and how the run
ended. -/
def calcularSolucionOptima (s : SistemaOptimizacion) : SistemaOptimizacion × Desenlace :=
  if !s.verificarDatosPrevios then (s, Desenlace.datosFaltantes)
  else
    if s.encontrarPuntosInterseccion.isEmpty then
      ({ s with solucion := { s.solucion with solucionEncontrada := false } },
        Desenlace.errorCalculo
          "No se encontraron puntos factibles. Verifique las restricciones.")
    else
      ({ s with solucion :=
          { x1 := (s.evaluarCandidatos s.encontrarPuntosInterseccion).mejorX1,
            x2 := (s.evaluarCandidatos s.encontrarPuntosInterseccion).mejorX2,
            gananciaMaxima :=
              (s.evaluarCandidatos s.encontrarPuntosInterseccion).mejorGanancia,
            solucionEncontrada := true } },
        Desenlace.solucionGuardada)

/-- Session with the given prices and constraints entered (the fields and flags that
`ingresarPrecios` and `ingresarRestricciones` leave behind when they succeed) and `previa`
as the stored solution. -/
def conDatos (precioMesa precioSilla : ℚ) (restricciones : List Restriccion)
    (previa : SolucionOptima) : SistemaOptimizacion :=
  { precioMesa := precioMesa, precioSilla := precioSilla, restricciones := restricciones,
    solucion := previa, preciosIngresados := true, restriccionesIngresadas := true }

end SistemaOptimizacion

open SistemaOptimizacion

/-! ## Reference notions taken from the specification -/

/-- Exact satisfaction of one constraint by a point, with no tolerance: the notion of a
point that "satisfies the constraint exactly" in the statement of true optimality. -/
def cumpleExacto (r : Restriccion) (x1 x2 : ℚ) : Prop :=
  (r.operador = "<=" → r.coeficienteX1 * x1 + r.coeficienteX2 * x2 ≤ r.valorConstante) ∧
  (r.operador = ">=" → r.coeficienteX1 * x1 + r.coeficienteX2 * x2 ≥ r.valorConstante) ∧
  (r.operador = "=" → r.coeficienteX1 * x1 + r.coeficienteX2 * x2 = r.valorConstante)

/-- The exact feasible region of a constraint list. -/
def factibleExacto (restricciones : List Restriccion) (x1 x2 : ℚ) : Prop :=
  ∀ r ∈ restricciones, cumpleExacto r x1 x2

/-- Input `[x1+x2<=10, x1>=5, x1>=0, x2>=0]`: a capacity bound with a minimum number of
tables. -/
def restriccionesMinimoMesas : List Restriccion :=
  [ Restriccion.mk 1 1 10 "<=", Restriccion.mk 1 0 5 ">=",
    Restriccion.mk 1 0 0 ">=", Restriccion.mk 0 1 0 ">=" ]

/-- Input `[x1+x2>=10, x1+x2<=5]`: two constraints no point satisfies together. -/
def restriccionesIncompatibles : List Restriccion :=
  [ Restriccion.mk 1 1 10 ">=", Restriccion.mk 1 1 5 "<=" ]

/-- Input of Scenario B: `[x1>=0, x2>=0]`. -/
def restriccionesSoloNoNegatividad : List Restriccion :=
  [ Restriccion.mk 1 0 0 ">=", Restriccion.mk 0 1 0 ">=" ]

/-- Input of Scenario C: `[x1+x2<=10, x1+x2<=10]`. -/
def restriccionesParalelasIguales : List Restriccion :=
  [ Restriccion.mk 1 1 10 "<=", Restriccion.mk 1 1 10 "<=" ]

/-- Input `[x1 <= 2^-21, x2 <= 5]`; the bound `2^-21 = 1/2097152` is below `1e-6` and is a
double. -/
def restriccionesCotaDiminuta : List Restriccion :=
  [ Restriccion.mk 1 0 (1 / 2097152) "<=", Restriccion.mk 0 1 5 "<=" ]

/-- Input `[2x1+x2<=100, 4x1+3x2<=240, x2<=60]`: with prices `(2, 1)` the candidates
`(30, 40)` and `(50, 0)` both reach the largest objective `100`. -/
def restriccionesEmpate : List Restriccion :=
  [ Restriccion.mk 2 1 100 "<=", Restriccion.mk 4 3 240 "<=", Restriccion.mk 0 1 60 "<=" ]

/-- Input `[x1 <= -2^-21, x2 <= 0]`; the bound `-2^-21 = -1/2097152` lies in `[-1e-6, 0)`
and is a double. -/
def restriccionesCotaNegativa : List Restriccion :=
  [ Restriccion.mk 1 0 (-1 / 2097152) "<=", Restriccion.mk 0 1 0 "<=" ]

/-- Strict lexicographic order on `(x1, x2)`. -/
def menorLexicografico (p q : ℚ × ℚ) : Prop :=
  p.1 < q.1 ∨ (p.1 = q.1 ∧ p.2 < q.2)

/-! ## Data entry: the session state machine -/

/-- One attempt to type a constraint in the manual branch of `ingresarRestricciones`: the
three numbers returned by `solicitarNumeroReal` and the line read by `getline` for the
operator. -/
structure EntradaRestriccion where
  coefX1 : ℚ
  coefX2 : ℚ
  constante : ℚ
  operador : String
  deriving DecidableEq, Repr

namespace SistemaOptimizacion

/-- Method `SistemaOptimizacion::ingresarPrecios` on the two numbers the user types; the
second is only read when the first is valid. The `catch` branch is the state with
`preciosIngresados = false`. -/
def ingresarPrecios (s : SistemaOptimizacion) (precioMesaTemp precioSillaTemp : ℚ) :
    SistemaOptimizacion :=
  if !validarPrecio precioMesaTemp then { s with preciosIngresados := false }
  else if !validarPrecio precioSillaTemp then { s with preciosIngresados := false }
  else
    { s with precioMesa := precioMesaTemp, precioSilla := precioSillaTemp,
             preciosIngresados := true,
             solucion := { s.solucion with solucionEncontrada := false } }

/-- The constraint built from one typed attempt: an empty operator line becomes `<=`. -/
def restriccionLeida (e : EntradaRestriccion) : Restriccion :=
  Restriccion.mk e.coefX1 e.coefX2 e.constante (if e.operador = "" then "<=" else e.operador)

/-- The loop `for (i = 0; i < numRestricciones; i++)` of `ingresarRestricciones`, with
`pendientes = numRestricciones - i`: a valid attempt is pushed, an invalid one is dropped
and the iteration repeated (`i--`). When the attempts run out before the loop ends, the
prompts never return: `none`. -/
def leerRestricciones :
    List EntradaRestriccion → ℕ → List Restriccion → Option (List Restriccion)
  | _, 0, acumuladas => some acumuladas
  | [], _ + 1, _ => none
  | e :: es, pendientes + 1, acumuladas =>
    if validarRestriccion (restriccionLeida e) then
      leerRestricciones es pendientes (acumuladas ++ [restriccionLeida e])
    else leerRestricciones es (pendientes + 1) acumuladas

/-- Method `SistemaOptimizacion::ingresarRestricciones` on the answer `opcion`, the number
typed for `numRestricciones` and the attempts typed in the manual loop. The vector is
cleared first; the `catch` branch (number out of `1..20`) only sets
`restriccionesIngresadas = false`. The result is `none` when the run never returns. -/
def ingresarRestricciones (s : SistemaOptimizacion) (opcion : Char) (numRestricciones : ℤ)
    (entradas : List EntradaRestriccion) : Option SistemaOptimizacion :=
  if opcion = 's' ∨ opcion = 'S' then
    some { s with restricciones := restriccionesFlair,
                  restriccionesIngresadas := !restriccionesFlair.isEmpty,
                  solucion := { s.solucion with solucionEncontrada := false } }
  else if numRestricciones ≤ 0 ∨ numRestricciones > 20 then
    some { s with restricciones := [], restriccionesIngresadas := false }
  else
    match leerRestricciones entradas numRestricciones.toNat [] with
    | none => none
    | some leidas =>
      some { s with restricciones := leidas,
                    restriccionesIngresadas := !leidas.isEmpty,
                    solucion := { s.solucion with solucionEncontrada := false } }

end SistemaOptimizacion

/-- Session states reachable from the constructor by the menu options that change the
state: `ingresarPrecios`, `ingresarRestricciones` and `calcularSolucionOptima`, with
arbitrary inputs. -/
inductive Alcanzable : SistemaOptimizacion → Prop where
  | inicial : Alcanzable SistemaOptimizacion.inicial
  | precios (s : SistemaOptimizacion) (precioMesaTemp precioSillaTemp : ℚ) :
      Alcanzable s → Alcanzable (s.ingresarPrecios precioMesaTemp precioSillaTemp)
  | restricciones (s t : SistemaOptimizacion) (opcion : Char) (numRestricciones : ℤ)
      (entradas : List EntradaRestriccion) :
      Alcanzable s → s.ingresarRestricciones opcion numRestricciones entradas = some t →
      Alcanzable t
  | calcular (s : SistemaOptimizacion) :
      Alcanzable s → Alcanzable s.calcularSolucionOptima.1

/-! ## The rendering adapter (`graficos.cpp`) -/

/-- Point of the plot (struct `PuntoGrafico`). -/
structure PuntoGrafico where
  x : ℚ
  y : ℚ
  deriving DecidableEq, Repr

/-- The numeric fields of class `VisualizadorGrafico`. -/
structure VisualizadorGrafico where
  escalaX : ℚ
  escalaY : ℚ
  maxX : ℚ
  maxY : ℚ
  origenX : ℚ
  origenY : ℚ
  deriving DecidableEq

/-- The comparator passed to `std::sort` in `encontrarVerticesAreaFactible`. -/
def compararVertices (a b : PuntoGrafico) : Bool :=
  if |a.x - b.x| < 1e-6 then decide (a.y < b.y) else decide (a.x < b.x)

/-- The order the sort arranges vertices in: `a` may stand before `b` when the comparator
does not put `b` before `a`. -/
def noDespues (a b : PuntoGrafico) : Prop := compararVertices b a = false

instance noDespuesDecidable : DecidableRel noDespues :=
  fun a b => by unfold noDespues; exact inferInstance

/-- Model of `std::sort(vertices.begin(), vertices.end(), comparator)`: insertion sort.
When the comparator is a strict weak ordering on the values sorted this is a sorted
rearrangement, as `std::sort` returns; otherwise `std::sort` promises no particular
result. -/
def ordenarVertices (vertices : List PuntoGrafico) : List PuntoGrafico :=
  List.insertionSort noDespues vertices

/-- The lambda passed to `std::unique` in `encontrarVerticesAreaFactible`. -/
def verticesCercanos (a b : PuntoGrafico) : Bool :=
  decide (|a.x - b.x| < 1e-6 ∧ |a.y - b.y| < 1e-6)

namespace VisualizadorGrafico

/-- The constructor `VisualizadorGrafico::VisualizadorGrafico()`, with `MARGEN = 80` and
`ALTO_VENTANA = 600`. -/
def nuevo : VisualizadorGrafico :=
  { escalaX := 1, escalaY := 1, maxX := 100, maxY := 100, origenX := 80,
    origenY := 600 - 80 }

/-- Body of the first loop of `configurarEscala` on the pair `(maxX, maxY)`. -/
def pasoEscala (m : ℚ × ℚ) (restriccion : Restriccion) : ℚ × ℚ :=
  if restriccion.operador = "<=" ∨ restriccion.operador = "=" then
    ((if restriccion.coeficienteX1 > 0 then
        max m.1 (restriccion.valorConstante / restriccion.coeficienteX1) else m.1),
     (if restriccion.coeficienteX2 > 0 then
        max m.2 (restriccion.valorConstante / restriccion.coeficienteX2) else m.2))
  else m

/-- The pair `(maxX, maxY)` of `configurarEscala` just before the rounding: the loop over
the constraints from `(0, 0)`, the optimum scaled by `1.2` when a solution is stored, and
the floor `10`. -/
def escalaSinRedondear (restricciones : List Restriccion) (solucion : SolucionOptima) :
    ℚ × ℚ :=
  let m := restricciones.foldl pasoEscala (0, 0)
  let conOptimo :=
    if solucion.solucionEncontrada then (max m.1 (solucion.x1 * 1.2), max m.2 (solucion.x2 * 1.2))
    else m
  (max conOptimo.1 10, max conOptimo.2 10)

/-- Method `VisualizadorGrafico::configurarEscala`, with `ANCHO_VENTANA = 800`,
`ALTO_VENTANA = 600`, `MARGEN = 80`. Exact arithmetic: the runs in which an intercept
overflows are described by `configurarEscalaD`. -/
def configurarEscala (v : VisualizadorGrafico) (restricciones : List Restriccion)
    (solucion : SolucionOptima) : VisualizadorGrafico :=
  { v with
    maxX := (Int.ceil ((escalaSinRedondear restricciones solucion).1 / 10) : ℚ) * 10,
    maxY := (Int.ceil ((escalaSinRedondear restricciones solucion).2 / 10) : ℚ) * 10,
    escalaX := (800 - 2 * 80) /
      ((Int.ceil ((escalaSinRedondear restricciones solucion).1 / 10) : ℚ) * 10),
    escalaY := (600 - 2 * 80) /
      ((Int.ceil ((escalaSinRedondear restricciones solucion).2 / 10) : ℚ) * 10) }

/-- Method `VisualizadorGrafico::calcularPuntosRecta`. -/
def calcularPuntosRecta (v : VisualizadorGrafico) (restriccion : Restriccion)
    (xMin xMax : ℚ) : List PuntoGrafico :=
  if restriccion.coeficienteX2 ≠ 0 then
    (if (restriccion.valorConstante - restriccion.coeficienteX1 * xMin) /
          restriccion.coeficienteX2 ≥ 0 ∧
        (restriccion.valorConstante - restriccion.coeficienteX1 * xMin) /
          restriccion.coeficienteX2 ≤ v.maxY then
      [PuntoGrafico.mk xMin ((restriccion.valorConstante - restriccion.coeficienteX1 * xMin) /
        restriccion.coeficienteX2)]
     else []) ++
    (if (restriccion.valorConstante - restriccion.coeficienteX1 * xMax) /
          restriccion.coeficienteX2 ≥ 0 ∧
        (restriccion.valorConstante - restriccion.coeficienteX1 * xMax) /
          restriccion.coeficienteX2 ≤ v.maxY then
      [PuntoGrafico.mk xMax ((restriccion.valorConstante - restriccion.coeficienteX1 * xMax) /
        restriccion.coeficienteX2)]
     else []) ++
    (if restriccion.coeficienteX1 ≠ 0 then
      (if restriccion.valorConstante / restriccion.coeficienteX1 ≥ xMin ∧
          restriccion.valorConstante / restriccion.coeficienteX1 ≤ xMax then
        [PuntoGrafico.mk (restriccion.valorConstante / restriccion.coeficienteX1) 0]
       else [])
     else []) ++
    (if restriccion.valorConstante / restriccion.coeficienteX2 ≥ 0 ∧
        restriccion.valorConstante / restriccion.coeficienteX2 ≤ v.maxY then
      [PuntoGrafico.mk 0 (restriccion.valorConstante / restriccion.coeficienteX2)]
     else [])
  else if restriccion.coeficienteX1 ≠ 0 then
    (if restriccion.valorConstante / restriccion.coeficienteX1 ≥ xMin ∧
        restriccion.valorConstante / restriccion.coeficienteX1 ≤ xMax then
      [PuntoGrafico.mk (restriccion.valorConstante / restriccion.coeficienteX1) 0,
       PuntoGrafico.mk (restriccion.valorConstante / restriccion.coeficienteX1) v.maxY]
     else [])
  else []

/-- The feasibility loop written inline in `encontrarVerticesAreaFactible` for the origin
and for a pairwise intersection: the flag starts `true` and is cleared by a violated `<=`
or `>=` constraint; constraints with operator `=` are not looked at. -/
def factibleGrafico (restricciones : List Restriccion) (x1 x2 : ℚ) : Bool :=
  restricciones.foldl
    (fun factible r =>
      let factible1 :=
        if r.operador = "<=" ∧
            r.coeficienteX1 * x1 + r.coeficienteX2 * x2 > r.valorConstante + 1e-6 then false
        else factible
      if r.operador = ">=" ∧
          r.coeficienteX1 * x1 + r.coeficienteX2 * x2 < r.valorConstante - 1e-6 then false
      else factible1)
    true

/-- The feasibility loop written inline for an intercept `(x1, 0)` on the X axis: only
`<=` constraints are looked at. -/
def factibleEjeX (restricciones : List Restriccion) (x1 : ℚ) : Bool :=
  restricciones.foldl
    (fun factible r =>
      if r.operador = "<=" ∧ r.coeficienteX1 * x1 > r.valorConstante + 1e-6 then false
      else factible)
    true

/-- The feasibility loop written inline for an intercept `(0, x2)` on the Y axis: only
`<=` constraints are looked at. -/
def factibleEjeY (restricciones : List Restriccion) (x2 : ℚ) : Bool :=
  restricciones.foldl
    (fun factible r =>
      if r.operador = "<=" ∧ r.coeficienteX2 * x2 > r.valorConstante + 1e-6 then false
      else factible)
    true

/-- Body of the pair loop of `encontrarVerticesAreaFactible` for the pair `(ri, rj)`: the
vertices it pushes (at most one). -/
def verticePar (v : VisualizadorGrafico) (restricciones : List Restriccion)
    (ri rj : Restriccion) : List PuntoGrafico :=
  if ri.operador = "<=" ∧ rj.operador = "<=" then
    if |ri.coeficienteX1 * rj.coeficienteX2 - rj.coeficienteX1 * ri.coeficienteX2| > 1e-10 then
      if (ri.valorConstante * rj.coeficienteX2 - rj.valorConstante * ri.coeficienteX2) /
            (ri.coeficienteX1 * rj.coeficienteX2 - rj.coeficienteX1 * ri.coeficienteX2) ≥ -1e-6 ∧
          (ri.coeficienteX1 * rj.valorConstante - rj.coeficienteX1 * ri.valorConstante) /
            (ri.coeficienteX1 * rj.coeficienteX2 - rj.coeficienteX1 * ri.coeficienteX2) ≥ -1e-6 ∧
          (ri.valorConstante * rj.coeficienteX2 - rj.valorConstante * ri.coeficienteX2) /
            (ri.coeficienteX1 * rj.coeficienteX2 - rj.coeficienteX1 * ri.coeficienteX2) ≤
              v.maxX + 1e-6 ∧
          (ri.coeficienteX1 * rj.valorConstante - rj.coeficienteX1 * ri.valorConstante) /
            (ri.coeficienteX1 * rj.coeficienteX2 - rj.coeficienteX1 * ri.coeficienteX2) ≤
              v.maxY + 1e-6 then
        if factibleGrafico restricciones
            ((ri.valorConstante * rj.coeficienteX2 - rj.valorConstante * ri.coeficienteX2) /
              (ri.coeficienteX1 * rj.coeficienteX2 - rj.coeficienteX1 * ri.coeficienteX2))
            ((ri.coeficienteX1 * rj.valorConstante - rj.coeficienteX1 * ri.valorConstante) /
              (ri.coeficienteX1 * rj.coeficienteX2 - rj.coeficienteX1 * ri.coeficienteX2)) then
          [PuntoGrafico.mk
            (max 0 ((ri.valorConstante * rj.coeficienteX2 -
                rj.valorConstante * ri.coeficienteX2) /
              (ri.coeficienteX1 * rj.coeficienteX2 - rj.coeficienteX1 * ri.coeficienteX2)))
            (max 0 ((ri.coeficienteX1 * rj.valorConstante -
                rj.coeficienteX1 * ri.valorConstante) /
              (ri.coeficienteX1 * rj.coeficienteX2 - rj.coeficienteX1 * ri.coeficienteX2)))]
        else []
      else []
    else []
  else []

/-- The double loop `for i, for j = i + 1` of `encontrarVerticesAreaFactible` over the
remaining constraints, with the whole vector at hand for the feasibility loop. -/
def verticesPares (v : VisualizadorGrafico) (restricciones : List Restriccion) :
    List Restriccion → List PuntoGrafico
  | [] => []
  | ri :: resto =>
    resto.flatMap (verticePar v restricciones ri) ++ verticesPares v restricciones resto

/-- Body of the axis loop of `encontrarVerticesAreaFactible` for one constraint. -/
def verticesEjes (v : VisualizadorGrafico) (restricciones : List Restriccion)
    (r : Restriccion) : List PuntoGrafico :=
  if r.operador = "<=" then
    (if r.coeficienteX1 > 0 then
      (if r.valorConstante / r.coeficienteX1 ≥ 0 ∧ r.valorConstante / r.coeficienteX1 ≤ v.maxX then
        (if factibleEjeX restricciones (r.valorConstante / r.coeficienteX1) then
          [PuntoGrafico.mk (r.valorConstante / r.coeficienteX1) 0] else [])
       else [])
     else []) ++
    (if r.coeficienteX2 > 0 then
      (if r.valorConstante / r.coeficienteX2 ≥ 0 ∧ r.valorConstante / r.coeficienteX2 ≤ v.maxY then
        (if factibleEjeY restricciones (r.valorConstante / r.coeficienteX2) then
          [PuntoGrafico.mk 0 (r.valorConstante / r.coeficienteX2)] else [])
       else [])
     else [])
  else []

/-- The vector `vertices` of `encontrarVerticesAreaFactible` just before the sort: the
origin when feasible, the pairwise intersections, the axis intercepts. -/
def verticesSinOrdenar (v : VisualizadorGrafico) (restricciones : List Restriccion) :
    List PuntoGrafico :=
  (if factibleGrafico restricciones 0 0 then [PuntoGrafico.mk 0 0] else []) ++
    verticesPares v restricciones restricciones ++
    restricciones.flatMap (verticesEjes v restricciones)

/-- Method `VisualizadorGrafico::encontrarVerticesAreaFactible`. -/
def encontrarVerticesAreaFactible (v : VisualizadorGrafico)
    (restricciones : List Restriccion) : List PuntoGrafico :=
  unique verticesCercanos (ordenarVertices (verticesSinOrdenar v restricciones))

/-- The scale `ejecutarVisualizacion` configures for a session: `configurarEscala` on the
constraints and the stored solution of the session, from a new visualiser. -/
def deSesion (s : SistemaOptimizacion) : VisualizadorGrafico :=
  nuevo.configurarEscala s.restricciones s.solucion

end VisualizadorGrafico

/-! ## More concrete inputs -/

/-- Input `[x1+x2<=10, x2>=5]`: a capacity bound with a minimum number of chairs. -/
def restriccionesMinimoSillas : List Restriccion :=
  [ Restriccion.mk 1 1 10 "<=", Restriccion.mk 0 1 5 ">=" ]

/-- Input `[2^21*x1 + x2 <= 1, -2^21*x1 - x2 <= -1/2]`: a narrow band whose corners on the
axes are `(2^-21, 0)` and `(0, 1)`. -/
def restriccionesBandaEstrecha : List Restriccion :=
  [ Restriccion.mk 2097152 1 1 "<=", Restriccion.mk (-2097152) (-1) (-1 / 2) "<=" ]

/-- Input `[3*2^20*x1 + 2*x2 <= 6, 2^20*x1 + 2*x2 <= 4]`: its feasible region has the
corners `(2^-19, 0)`, `(2^-20, 3/2)` and `(0, 2)`. -/
def restriccionesTresEsquinas : List Restriccion :=
  [ Restriccion.mk 3145728 2 6 "<=", Restriccion.mk 1048576 2 4 "<=" ]

/-! ## Doubles with overflow -/

/-- Value of a C++ `double`, rounding aside: a finite value, `+∞`, `-∞` or NaN. -/
inductive Doble where
  | finito (q : ℚ)
  | masInf
  | menosInf
  | nan
  deriving DecidableEq, Repr

namespace Doble

/-- Overflow threshold of binary64 in round-to-nearest: an exact result of magnitude at
least `2^1024 - 2^970` (the largest double plus half a unit in the last place) becomes `±∞`. -/
def umbral : ℚ := 2 ^ 1024 - 2 ^ 970

/-- The double an operation delivers for the exact result `q`: `±∞` on overflow, else `q`
itself. -/
def redondear (q : ℚ) : Doble :=
  if q ≥ umbral then masInf else if q ≤ -umbral then menosInf else finito q

/-- Whether the value is finite. -/
def esFinito : Doble → Bool
  | finito _ => true
  | _ => false

/-- The operator `*` of doubles. -/
def producto : Doble → Doble → Doble
  | finito a, finito b => redondear (a * b)
  | finito a, masInf => if a > 0 then masInf else if a < 0 then menosInf else nan
  | finito a, menosInf => if a > 0 then menosInf else if a < 0 then masInf else nan
  | masInf, finito b => if b > 0 then masInf else if b < 0 then menosInf else nan
  | menosInf, finito b => if b > 0 then menosInf else if b < 0 then masInf else nan
  | masInf, masInf => masInf
  | masInf, menosInf => menosInf
  | menosInf, masInf => menosInf
  | menosInf, menosInf => masInf
  | nan, _ => nan
  | finito _, nan => nan
  | masInf, nan => nan
  | menosInf, nan => nan

/-- The operator `-` of doubles. -/
def resta : Doble → Doble → Doble
  | finito a, finito b => redondear (a - b)
  | finito _, masInf => menosInf
  | finito _, menosInf => masInf
  | masInf, finito _ => masInf
  | menosInf, finito _ => menosInf
  | masInf, masInf => nan
  | masInf, menosInf => masInf
  | menosInf, masInf => menosInf
  | menosInf, menosInf => nan
  | nan, _ => nan
  | finito _, nan => nan
  | masInf, nan => nan
  | menosInf, nan => nan

/-- The operator `/` of doubles. The sign of a zero is not modelled: a zero divisor counts
as `+0`; no division of the modelled code has a zero divisor. -/
def cociente : Doble → Doble → Doble
  | finito a, finito b =>
    if b = 0 then (if a = 0 then nan else if a > 0 then masInf else menosInf)
    else redondear (a / b)
  | finito _, masInf => finito 0
  | finito _, menosInf => finito 0
  | masInf, finito b => if b ≥ 0 then masInf else menosInf
  | menosInf, finito b => if b ≥ 0 then menosInf else masInf
  | masInf, masInf => nan
  | masInf, menosInf => nan
  | menosInf, masInf => nan
  | menosInf, menosInf => nan
  | nan, _ => nan
  | finito _, nan => nan
  | masInf, nan => nan
  | menosInf, nan => nan

/-- The function `abs` on doubles. -/
def absoluto : Doble → Doble
  | finito a => finito |a|
  | masInf => masInf
  | menosInf => masInf
  | nan => nan

/-- The operator `<` of doubles: false as soon as one side is NaN. -/
def menor : Doble → Doble → Bool
  | finito a, finito b => decide (a < b)
  | finito _, masInf => true
  | menosInf, finito _ => true
  | menosInf, masInf => true
  | _, _ => false

/-- The operator `>=` of doubles: false as soon as one side is NaN. -/
def mayorIgual : Doble → Doble → Bool
  | finito a, finito b => decide (a ≥ b)
  | masInf, finito _ => true
  | masInf, masInf => true
  | masInf, menosInf => true
  | finito _, menosInf => true
  | menosInf, menosInf => true
  | _, _ => false

/-- The function `std::max(a, b)`, which is `(a < b) ? b : a`. -/
def maximo (a b : Doble) : Doble := if menor a b then b else a

/-- The function `ceil` on doubles. -/
def techo : Doble → Doble
  | finito a => finito (Int.ceil a : ℚ)
  | masInf => masInf
  | menosInf => menosInf
  | nan => nan

end Doble

/-- The comparison `operator<` of `std::pair<double, double>` on doubles with overflow. -/
def menorParD (a b : Doble × Doble) : Bool :=
  Doble.menor a.1 b.1 || (!Doble.menor b.1 a.1 && Doble.menor a.2 b.2)

/-- The order `std::sort` arranges the pairs in: `a` may stand before `b` when `b < a`
fails. -/
def noMayorParD (a b : Doble × Doble) : Prop := menorParD b a = false

instance noMayorParDDecidable : DecidableRel noMayorParD :=
  fun a b => by unfold noMayorParD; exact inferInstance

/-- Model of `std::sort(puntos.begin(), puntos.end())` on pairs of doubles with overflow:
insertion sort. When `operator<` is a strict weak ordering on the values sorted this is a
sorted rearrangement, as `std::sort` returns. -/
def ordenarPuntosD (puntos : List (Doble × Doble)) : List (Doble × Doble) :=
  List.insertionSort noMayorParD puntos

/-- The lambda passed to `std::unique` in `encontrarPuntosInterseccion`, on doubles with
overflow. -/
def puntosCercanosD (a b : Doble × Doble) : Bool :=
  Doble.menor (Doble.absoluto (Doble.resta a.1 b.1)) (Doble.finito 1e-6) &&
    Doble.menor (Doble.absoluto (Doble.resta a.2 b.2)) (Doble.finito 1e-6)

/-- Strict lexicographic order on pairs of doubles: `p.x1 < q.x1`, or `p.x1 = q.x1` and
`p.x2 < q.x2`. -/
def menorLexicograficoD (p q : Doble × Doble) : Prop :=
  Doble.menor p.1 q.1 = true ∨ (p.1 = q.1 ∧ Doble.menor p.2 q.2 = true)

instance menorLexicograficoDDecidable : DecidableRel menorLexicograficoD :=
  fun p q => by unfold menorLexicograficoD; exact inferInstance

/-- A point of the exact model read as a pair of finite doubles. -/
def comoDobles (p : ℚ × ℚ) : Doble × Doble := (Doble.finito p.1, Doble.finito p.2)

/-- The rational value of a finite double (`0` for the other values). -/
def Doble.valor : Doble → ℚ
  | Doble.finito q => q
  | _ => 0

/-- A pair of doubles read back as a point of the exact model. -/
def comoRacionales (p : Doble × Doble) : ℚ × ℚ := (p.1.valor, p.2.valor)

namespace SistemaOptimizacion

/-- Method `SistemaOptimizacion::interseccionRectas` on doubles with overflow; the
coefficients of the constraints are finite doubles. -/
def interseccionRectasD (r1 r2 : Restriccion) : Doble × Doble :=
  if Doble.menor
      (Doble.absoluto
        (Doble.resta
          (Doble.producto (Doble.finito r1.coeficienteX1) (Doble.finito r2.coeficienteX2))
          (Doble.producto (Doble.finito r2.coeficienteX1) (Doble.finito r1.coeficienteX2))))
      (Doble.finito 1e-10) then (Doble.finito (-1e9), Doble.finito (-1e9))
  else
    (Doble.cociente
      (Doble.resta
        (Doble.producto (Doble.finito r1.valorConstante) (Doble.finito r2.coeficienteX2))
        (Doble.producto (Doble.finito r2.valorConstante) (Doble.finito r1.coeficienteX2)))
      (Doble.resta
        (Doble.producto (Doble.finito r1.coeficienteX1) (Doble.finito r2.coeficienteX2))
        (Doble.producto (Doble.finito r2.coeficienteX1) (Doble.finito r1.coeficienteX2))),
     Doble.cociente
      (Doble.resta
        (Doble.producto (Doble.finito r1.coeficienteX1) (Doble.finito r2.valorConstante))
        (Doble.producto (Doble.finito r2.coeficienteX1) (Doble.finito r1.valorConstante)))
      (Doble.resta
        (Doble.producto (Doble.finito r1.coeficienteX1) (Doble.finito r2.coeficienteX2))
        (Doble.producto (Doble.finito r2.coeficienteX1) (Doble.finito r1.coeficienteX2))))

/-- Body of the first loop of `encontrarPuntosInterseccion` on doubles with overflow. -/
def interseccionesEjesD (restriccion : Restriccion) : List (Doble × Doble) :=
  if restriccion.operador = "<=" ∨ restriccion.operador = "=" then
    (if restriccion.coeficienteX1 ≠ 0 then
      (if Doble.mayorIgual
          (Doble.cociente (Doble.finito restriccion.valorConstante)
            (Doble.finito restriccion.coeficienteX1)) (Doble.finito 0) then
        [(Doble.cociente (Doble.finito restriccion.valorConstante)
            (Doble.finito restriccion.coeficienteX1), Doble.finito 0)] else [])
     else []) ++
    (if restriccion.coeficienteX2 ≠ 0 then
      (if Doble.mayorIgual
          (Doble.cociente (Doble.finito restriccion.valorConstante)
            (Doble.finito restriccion.coeficienteX2)) (Doble.finito 0) then
        [(Doble.finito 0, Doble.cociente (Doble.finito restriccion.valorConstante)
            (Doble.finito restriccion.coeficienteX2))] else [])
     else [])
  else []

/-- Body of the double loop of `encontrarPuntosInterseccion` for the pair `(ri, rj)`, on
doubles with overflow. -/
def interseccionParD (ri rj : Restriccion) : List (Doble × Doble) :=
  if ri.operador = "<=" ∨ ri.operador = "=" then
    if rj.operador = "<=" ∨ rj.operador = "=" then
      if Doble.mayorIgual (interseccionRectasD ri rj).1 (Doble.finito (-1e-6)) ∧
          Doble.mayorIgual (interseccionRectasD ri rj).2 (Doble.finito (-1e-6)) then
        [interseccionRectasD ri rj]
      else []
    else []
  else []

/-- The double loop `for i, for j = i + 1` of `encontrarPuntosInterseccion`, on doubles with
overflow. -/
def interseccionesParesD : List Restriccion → List (Doble × Doble)
  | [] => []
  | ri :: resto => resto.flatMap (interseccionParD ri) ++ interseccionesParesD resto

/-- The vector `puntos` of `encontrarPuntosInterseccion` just before the sort, on doubles
with overflow. -/
def puntosSinOrdenarD (restricciones : List Restriccion) : List (Doble × Doble) :=
  (Doble.finito 0, Doble.finito 0) ::
    (restricciones.flatMap interseccionesEjesD ++ interseccionesParesD restricciones)

/-- Method `SistemaOptimizacion::encontrarPuntosInterseccion` on doubles with overflow. -/
def encontrarPuntosInterseccionD (s : SistemaOptimizacion) : List (Doble × Doble) :=
  unique puntosCercanosD (ordenarPuntosD (puntosSinOrdenarD s.restricciones))

end SistemaOptimizacion

namespace VisualizadorGrafico

/-- Body of the first loop of `configurarEscala` on the pair `(maxX, maxY)`, on doubles with
overflow. -/
def pasoEscalaD (m : Doble × Doble) (restriccion : Restriccion) : Doble × Doble :=
  if restriccion.operador = "<=" ∨ restriccion.operador = "=" then
    ((if restriccion.coeficienteX1 > 0 then
        Doble.maximo m.1 (Doble.cociente (Doble.finito restriccion.valorConstante)
          (Doble.finito restriccion.coeficienteX1)) else m.1),
     (if restriccion.coeficienteX2 > 0 then
        Doble.maximo m.2 (Doble.cociente (Doble.finito restriccion.valorConstante)
          (Doble.finito restriccion.coeficienteX2)) else m.2))
  else m

/-- The pair `(maxX, maxY)` of `configurarEscala` just before the rounding, on doubles with
overflow; the stored optimum is taken finite. -/
def escalaSinRedondearD (restricciones : List Restriccion) (solucion : SolucionOptima) :
    Doble × Doble :=
  let m := restricciones.foldl pasoEscalaD (Doble.finito 0, Doble.finito 0)
  let conOptimo :=
    if solucion.solucionEncontrada then
      (Doble.maximo m.1 (Doble.producto (Doble.finito solucion.x1) (Doble.finito 1.2)),
       Doble.maximo m.2 (Doble.producto (Doble.finito solucion.x2) (Doble.finito 1.2)))
    else m
  (Doble.maximo conOptimo.1 (Doble.finito 10), Doble.maximo conOptimo.2 (Doble.finito 10))

/-- The statement `maxX = ceil(maxX / 10.0) * 10.0` of `configurarEscala`, on doubles with
overflow. -/
def redondearADiez (valor : Doble) : Doble :=
  Doble.producto (Doble.techo (Doble.cociente valor (Doble.finito 10))) (Doble.finito 10)

/-- The fields `(maxX, maxY)` that `configurarEscala` stores, on doubles with overflow. -/
def configurarEscalaD (restricciones : List Restriccion) (solucion : SolucionOptima) :
    Doble × Doble :=
  (redondearADiez (escalaSinRedondearD restricciones solucion).1,
   redondearADiez (escalaSinRedondearD restricciones solucion).2)

end VisualizadorGrafico

/-- Constraint `2^600*x1 + 2^600*x2 <= 1`: the coefficients are finite doubles and their
product `2^1200` overflows. -/
def restriccionCoeficientesEnormes : Restriccion :=
  Restriccion.mk (2 ^ 600) (2 ^ 600) 1 "<="

/-- Input `[2^-600*x1 <= 2^600]` twice: the coefficients are finite doubles and the
intercept `2^600 / 2^-600 = 2^1200` overflows. -/
def restriccionesInterceptoEnorme : List Restriccion :=
  [ Restriccion.mk (1 / 2 ^ 600) 0 (2 ^ 600) "<=", Restriccion.mk (1 / 2 ^ 600) 0 (2 ^ 600) "<=" ]

/-! ## The model of `std::sort` -/

theorem noMayorPar_iff (a b : ℚ × ℚ) :
    noMayorPar a b ↔ a.1 < b.1 ∨ (a.1 = b.1 ∧ a.2 ≤ b.2) := by
  unfold noMayorPar menorPar
  constructor
  · intro h
    rcases lt_trichotomy a.1 b.1 with h1 | h1 | h1
    · exact Or.inl h1
    · right
      refine ⟨h1, ?_⟩
      by_contra h2
      exact h (Or.inr ⟨by rw [h1]; exact lt_irrefl _, lt_of_not_le h2⟩)
    · exact absurd (Or.inl h1) h
  · rintro (h | ⟨h1, h2⟩) hc
    · rcases hc with hc | ⟨hc, _⟩
      · exact lt_asymm h hc
      · exact hc h
    · rcases hc with hc | ⟨_, hc⟩
      · rw [h1] at hc; exact lt_irrefl _ hc
      · exact absurd h2 (not_le.mpr hc)

theorem noMayorPar_total (a b : ℚ × ℚ) : noMayorPar a b ∨ noMayorPar b a := by
  rw [noMayorPar_iff, noMayorPar_iff]
  rcases lt_trichotomy a.1 b.1 with h1 | h1 | h1
  · exact Or.inl (Or.inl h1)
  · rcases le_total a.2 b.2 with h2 | h2
    · exact Or.inl (Or.inr ⟨h1, h2⟩)
    · exact Or.inr (Or.inr ⟨h1.symm, h2⟩)
  · exact Or.inr (Or.inl h1)

theorem noMayorPar_trans (a b c : ℚ × ℚ) (hab : noMayorPar a b) (hbc : noMayorPar b c) :
    noMayorPar a c := by
  rw [noMayorPar_iff] at hab hbc ⊢
  rcases hab with h | ⟨h1, h2⟩
  · rcases hbc with k | ⟨k1, _⟩
    · exact Or.inl (lt_trans h k)
    · exact Or.inl (k1 ▸ h)
  · rcases hbc with k | ⟨k1, k2⟩
    · exact Or.inl (h1 ▸ k)
    · exact Or.inr ⟨h1.trans k1, le_trans h2 k2⟩

theorem ordenarPuntos_perm (puntos : List (ℚ × ℚ)) :
    (ordenarPuntos puntos).Perm puntos :=
  List.perm_insertionSort noMayorPar puntos

theorem ordenarPuntos_sorted (puntos : List (ℚ × ℚ)) :
    (ordenarPuntos puntos).Pairwise noMayorPar := by
  haveI : IsTotal (ℚ × ℚ) noMayorPar := ⟨noMayorPar_total⟩
  haveI : IsTrans (ℚ × ℚ) noMayorPar := ⟨noMayorPar_trans⟩
  exact List.sorted_insertionSort noMayorPar puntos

theorem noMayorPar_antisymm (a b : ℚ × ℚ) (hab : noMayorPar a b) (hba : noMayorPar b a) :
    a = b := by
  rw [noMayorPar_iff] at hab hba
  rcases hab with h | ⟨h1, h2⟩
  · rcases hba with k | ⟨k1, _⟩
    · exact absurd k (lt_asymm h)
    · rw [k1] at h; exact absurd h (lt_irrefl _)
  · rcases hba with k | ⟨_, k2⟩
    · rw [h1] at k; exact absurd k (lt_irrefl _)
    · exact Prod.ext h1 (le_antisymm h2 k2)

/-- Uniqueness of the sorted rearrangement: whatever order `std::sort` leaves equal keys
in, its result is the list `ordenarPuntos` computes. -/
theorem ordenarPuntos_unico (puntos l : List (ℚ × ℚ)) (hperm : l.Perm puntos)
    (hsorted : l.Pairwise noMayorPar) : l = ordenarPuntos puntos := by
  haveI : IsAntisymm (ℚ × ℚ) noMayorPar := ⟨noMayorPar_antisymm⟩
  exact List.eq_of_perm_of_sorted (hperm.trans (ordenarPuntos_perm puntos).symm) hsorted
    (ordenarPuntos_sorted puntos)

/-! ## The evaluation loop -/

theorem evaluarPunto_casos (s : SistemaOptimizacion) (m : Mejor) (p : ℚ × ℚ) :
    (evaluarPunto s m p = m ∧
      (s.puntoEsFactible p.1 p.2 = true →
        ((s.evaluarFuncionObjetivo p.1 p.2 : ℚ) : WithBot ℚ) ≤ m.mejorGanancia)) ∨
    (s.puntoEsFactible p.1 p.2 = true ∧
      m.mejorGanancia < ((s.evaluarFuncionObjetivo p.1 p.2 : ℚ) : WithBot ℚ) ∧
      evaluarPunto s m p =
        { mejorGanancia := ((s.evaluarFuncionObjetivo p.1 p.2 : ℚ) : WithBot ℚ),
          mejorX1 := p.1, mejorX2 := p.2 }) := by
  unfold evaluarPunto
  by_cases hf : s.puntoEsFactible p.1 p.2 = true
  · by_cases hg : m.mejorGanancia < ((s.evaluarFuncionObjetivo p.1 p.2 : ℚ) : WithBot ℚ)
    · right
      simp [hf, hg]
    · left
      simp [hf, hg]
      exact not_lt.mp hg
  · left
    simp [hf]

theorem foldl_evaluarPunto (s : SistemaOptimizacion) (puntos : List (ℚ × ℚ)) :
    ∀ m0 : Mejor,
      m0.mejorGanancia ≤ (puntos.foldl (evaluarPunto s) m0).mejorGanancia ∧
      (∀ q ∈ puntos, s.puntoEsFactible q.1 q.2 = true →
        ((s.evaluarFuncionObjetivo q.1 q.2 : ℚ) : WithBot ℚ) ≤
          (puntos.foldl (evaluarPunto s) m0).mejorGanancia) ∧
      (puntos.foldl (evaluarPunto s) m0 = m0 ∨
        ∃ p ∈ puntos, s.puntoEsFactible p.1 p.2 = true ∧
          puntos.foldl (evaluarPunto s) m0 =
            { mejorGanancia := ((s.evaluarFuncionObjetivo p.1 p.2 : ℚ) : WithBot ℚ),
              mejorX1 := p.1, mejorX2 := p.2 }) := by
  induction puntos with
  | nil => intro m0; simp
  | cons p resto ih =>
    intro m0
    obtain ⟨hmono, hmax, hsel⟩ := ih (evaluarPunto s m0 p)
    have hpaso : m0.mejorGanancia ≤ (evaluarPunto s m0 p).mejorGanancia := by
      rcases evaluarPunto_casos s m0 p with ⟨h, _⟩ | ⟨_, hlt, h⟩
      · rw [h]
      · rw [h]; exact le_of_lt hlt
    have hp : s.puntoEsFactible p.1 p.2 = true →
        ((s.evaluarFuncionObjetivo p.1 p.2 : ℚ) : WithBot ℚ) ≤
          (evaluarPunto s m0 p).mejorGanancia := by
      intro hf
      rcases evaluarPunto_casos s m0 p with ⟨h, hle⟩ | ⟨_, _, h⟩
      · rw [h]; exact hle hf
      · rw [h]
    refine ⟨le_trans hpaso hmono, ?_, ?_⟩
    · intro q hq hf
      rcases List.mem_cons.mp hq with rfl | hq
      · exact le_trans (hp hf) hmono
      · exact hmax q hq hf
    · rcases hsel with h | ⟨q, hq, hf, h⟩
      · rcases evaluarPunto_casos s m0 p with ⟨h0, _⟩ | ⟨hf, _, h1⟩
        · left
          simp only [List.foldl_cons]
          rw [h, h0]
        · right
          refine ⟨p, List.mem_cons_self _ _, hf, ?_⟩
          simp only [List.foldl_cons]
          rw [h, h1]
      · right
        exact ⟨q, List.mem_cons_of_mem _ hq, hf, h⟩

theorem evaluarCandidatos_factible (s : SistemaOptimizacion) (puntos : List (ℚ × ℚ))
    (h : ∃ p ∈ puntos, s.puntoEsFactible p.1 p.2 = true) :
    ∃ p ∈ puntos, s.puntoEsFactible p.1 p.2 = true ∧
      s.evaluarCandidatos puntos =
        { mejorGanancia := ((s.evaluarFuncionObjetivo p.1 p.2 : ℚ) : WithBot ℚ),
          mejorX1 := p.1, mejorX2 := p.2 } := by
  obtain ⟨q, hq, hf⟩ := h
  obtain ⟨_, hmax, hsel⟩ :=
    foldl_evaluarPunto s puntos { mejorGanancia := ⊥, mejorX1 := 0, mejorX2 := 0 }
  rcases hsel with h0 | hex
  · exfalso
    have hle := hmax q hq hf
    rw [h0] at hle
    exact absurd hle (not_le.mpr (WithBot.bot_lt_coe _))
  · exact hex

theorem puntosInterseccionDe_ne_nil (restricciones : List Restriccion) :
    puntosInterseccionDe restricciones ≠ [] := by
  unfold puntosInterseccionDe
  have hperm := List.perm_insertionSort noMayorPar (puntosSinOrdenar restricciones)
  have hne : ordenarPuntos (puntosSinOrdenar restricciones) ≠ [] := by
    intro h
    unfold ordenarPuntos at h
    rw [h] at hperm
    have := hperm.length_eq
    simp [puntosSinOrdenar] at this
  cases hl : ordenarPuntos (puntosSinOrdenar restricciones) with
  | nil => exact absurd hl hne
  | cons x xs => simp [unique]

theorem calcularSolucionOptima_con_datos (s : SistemaOptimizacion)
    (hdatos : s.verificarDatosPrevios = true) :
    s.calcularSolucionOptima =
      ({ s with solucion :=
          { x1 := (s.evaluarCandidatos s.encontrarPuntosInterseccion).mejorX1,
            x2 := (s.evaluarCandidatos s.encontrarPuntosInterseccion).mejorX2,
            gananciaMaxima :=
              (s.evaluarCandidatos s.encontrarPuntosInterseccion).mejorGanancia,
            solucionEncontrada := true } },
        Desenlace.solucionGuardada) := by
  have hne : s.encontrarPuntosInterseccion.isEmpty = false := by
    cases h : s.encontrarPuntosInterseccion with
    | nil => exact absurd h (puntosInterseccionDe_ne_nil s.restricciones)
    | cons x xs => rfl
  unfold calcularSolucionOptima
  simp [hdatos, hne]

theorem evaluarCandidatos_congr (s t : SistemaOptimizacion)
    (hmesa : s.precioMesa = t.precioMesa) (hsilla : s.precioSilla = t.precioSilla)
    (hrest : s.restricciones = t.restricciones) (puntos : List (ℚ × ℚ)) :
    s.evaluarCandidatos puntos = t.evaluarCandidatos puntos := by
  have hpaso : evaluarPunto s = evaluarPunto t := by
    funext m p
    simp only [evaluarPunto, puntoEsFactible, evaluarFuncionObjetivo, hmesa, hsilla, hrest]
  unfold evaluarCandidatos
  rw [hpaso]

/-! ## Scenarios and the optimiser -/

/-- C1 (Scenario A). With the Flair Furniture constraint list
`[4x1+3x2<=240, 2x1+x2<=100, x2<=60, x1>=0, x2>=0]` (the list `ingresarRestricciones`
loads) and prices `(7, 5)` entered, whatever solution was stored before,
`calcularSolucionOptima` ends normally and stores `x1 = 30`, `x2 = 40`,
`gananciaMaxima = 410`, `solucionEncontrada = true`. -/
theorem escenarioA_optimo (previa : SolucionOptima) :
    restriccionesFlair =
      [ Restriccion.mk 4 3 240 "<=", Restriccion.mk 2 1 100 "<=", Restriccion.mk 0 1 60 "<=",
        Restriccion.mk 1 0 0 ">=", Restriccion.mk 0 1 0 ">=" ] ∧
    calcularSolucionOptima (conDatos 7 5 restriccionesFlair previa) =
      (conDatos 7 5 restriccionesFlair
         { x1 := 30, x2 := 40, gananciaMaxima := ((410 : ℚ) : WithBot ℚ),
           solucionEncontrada := true },
       Desenlace.solucionGuardada) := by
  refine ⟨rfl, ?_⟩
  have hmejor : (conDatos 7 5 restriccionesFlair {}).evaluarCandidatos
      (puntosInterseccionDe restriccionesFlair) =
      { mejorGanancia := ((410 : ℚ) : WithBot ℚ), mejorX1 := 30, mejorX2 := 40 } := by
    decide!
  have hcongr := evaluarCandidatos_congr (conDatos 7 5 restriccionesFlair previa)
    (conDatos 7 5 restriccionesFlair {}) rfl rfl rfl (puntosInterseccionDe restriccionesFlair)
  have hprevios : (conDatos 7 5 restriccionesFlair previa).verificarDatosPrevios = true := rfl
  rw [calcularSolucionOptima_con_datos _ hprevios]
  have hpuntos : (conDatos 7 5 restriccionesFlair previa).encontrarPuntosInterseccion =
      puntosInterseccionDe restriccionesFlair := rfl
  rw [hpuntos, hcongr, hmejor]
  rfl

/-- C3 (argmax over the feasible candidates). In a session with prices and constraints
entered where some point returned by `encontrarPuntosInterseccion` passes
`puntoEsFactible`, `calcularSolucionOptima` ends normally with `solucionEncontrada = true`,
leaves prices and constraints as they were, and the stored point is one of the candidates
passing `puntoEsFactible`, `gananciaMaxima` is the objective at the stored point, and no
feasible candidate has a larger objective. -/
theorem calcularSolucionOptima_argmax (s : SistemaOptimizacion)
    (hdatos : s.preciosIngresados = true ∧ s.restriccionesIngresadas = true)
    (hfactible : ∃ p ∈ s.encontrarPuntosInterseccion, s.puntoEsFactible p.1 p.2 = true) :
    s.calcularSolucionOptima.2 = Desenlace.solucionGuardada ∧
    s.calcularSolucionOptima.1.solucion.solucionEncontrada = true ∧
    s.calcularSolucionOptima.1.precioMesa = s.precioMesa ∧
    s.calcularSolucionOptima.1.precioSilla = s.precioSilla ∧
    s.calcularSolucionOptima.1.restricciones = s.restricciones ∧
    (s.calcularSolucionOptima.1.solucion.x1, s.calcularSolucionOptima.1.solucion.x2) ∈
      s.encontrarPuntosInterseccion ∧
    s.puntoEsFactible s.calcularSolucionOptima.1.solucion.x1
      s.calcularSolucionOptima.1.solucion.x2 = true ∧
    s.calcularSolucionOptima.1.solucion.gananciaMaxima =
      ((s.precioMesa * s.calcularSolucionOptima.1.solucion.x1 +
        s.precioSilla * s.calcularSolucionOptima.1.solucion.x2 : ℚ) : WithBot ℚ) ∧
    ∀ q ∈ s.encontrarPuntosInterseccion, s.puntoEsFactible q.1 q.2 = true →
      ((s.precioMesa * q.1 + s.precioSilla * q.2 : ℚ) : WithBot ℚ) ≤
        s.calcularSolucionOptima.1.solucion.gananciaMaxima := by
  have hprevios : s.verificarDatosPrevios = true := by
    simp [verificarDatosPrevios, hdatos.1, hdatos.2]
  obtain ⟨p, hp, hpf, hsel⟩ := evaluarCandidatos_factible s _ hfactible
  obtain ⟨_, hmax, _⟩ := foldl_evaluarPunto s s.encontrarPuntosInterseccion
    { mejorGanancia := ⊥, mejorX1 := 0, mejorX2 := 0 }
  rw [calcularSolucionOptima_con_datos s hprevios]
  refine ⟨rfl, rfl, rfl, rfl, rfl, ?_, ?_, ?_, ?_⟩
  · simp only [hsel]
    exact hp
  · simp only [hsel]
    exact hpf
  · simp only [hsel]
    rfl
  · intro q hq hqf
    exact hmax q hq hqf

/-- Witness for C3: the Flair Furniture session with prices `(7, 5)`; the candidate
`(30, 40)` passes `puntoEsFactible`. -/
theorem calcularSolucionOptima_argmax_witness :
    (conDatos 7 5 restriccionesFlair {}).calcularSolucionOptima.1.solucion.gananciaMaxima =
      (((conDatos 7 5 restriccionesFlair {}).precioMesa *
          (conDatos 7 5 restriccionesFlair {}).calcularSolucionOptima.1.solucion.x1 +
        (conDatos 7 5 restriccionesFlair {}).precioSilla *
          (conDatos 7 5 restriccionesFlair {}).calcularSolucionOptima.1.solucion.x2 : ℚ) :
        WithBot ℚ) :=
  (calcularSolucionOptima_argmax (conDatos 7 5 restriccionesFlair {}) ⟨rfl, rfl⟩
    ⟨(30, 40), by decide!, by decide!⟩).2.2.2.2.2.2.2.1

/-- C4 (no feasible candidate), evaluated on the session with constraints
`[x1+x2>=10, x1+x2<=5]` and prices `(1, 1)` entered: none of the candidates
`(0,0), (0,5), (5,0)` passes `puntoEsFactible`, yet the run ends normally, with
`solucionEncontrada = true`, the point `(0, 0)` and `gananciaMaxima = -∞` stored. -/
theorem sinCandidatoFactible_guarda_origen :
    encontrarPuntosInterseccion
        (conDatos 1 1 restriccionesIncompatibles {}) =
      [(0, 0), (0, 5), (5, 0)] ∧
    (∀ p ∈ encontrarPuntosInterseccion
        (conDatos 1 1 restriccionesIncompatibles {}),
      puntoEsFactible (conDatos 1 1 restriccionesIncompatibles {})
        p.1 p.2 = false) ∧
    calcularSolucionOptima
        (conDatos 1 1 restriccionesIncompatibles {}) =
      (conDatos 1 1 restriccionesIncompatibles
         { x1 := 0, x2 := 0, gananciaMaxima := ⊥, solucionEncontrada := true },
       Desenlace.solucionGuardada) := by
  decide!


/-- C2 (true optimality), evaluated on `[x1+x2<=10, x1>=5, x1>=0, x2>=0]` with prices
`(1, 2)`: every constraint passes `validarRestriccion`, the exact feasible region is
non-empty and bounded (it lies in `[5, 10] × [0, 5]` and contains `(5, 5)`), the run
stores `(10, 0)` with `gananciaMaxima = 10`, and the exactly feasible point `(5, 5)` has
the larger objective `1 * 5 + 2 * 5 = 15`. The vertex `(5, 5)` lies on the boundary of the
`>=` constraint `x1 >= 5`, which `encontrarPuntosInterseccion` never intersects. -/
theorem optimo_omite_vertice_de_mayorIgual :
    (∀ r ∈ restriccionesMinimoMesas, validarRestriccion r = true) ∧
    factibleExacto restriccionesMinimoMesas 5 5 ∧
    (∀ x1 x2 : ℚ, factibleExacto restriccionesMinimoMesas x1 x2 →
      5 ≤ x1 ∧ x1 ≤ 10 ∧ 0 ≤ x2 ∧ x2 ≤ 5) ∧
    encontrarPuntosInterseccion (conDatos 1 2 restriccionesMinimoMesas {}) =
      [(0, 0), (0, 10), (10, 0)] ∧
    calcularSolucionOptima (conDatos 1 2 restriccionesMinimoMesas {}) =
      (conDatos 1 2 restriccionesMinimoMesas
         { x1 := 10, x2 := 0, gananciaMaxima := ((10 : ℚ) : WithBot ℚ),
           solucionEncontrada := true },
       Desenlace.solucionGuardada) ∧
    (calcularSolucionOptima (conDatos 1 2 restriccionesMinimoMesas {})).1.solucion.gananciaMaxima <
      (((conDatos 1 2 restriccionesMinimoMesas {}).precioMesa * 5 +
        (conDatos 1 2 restriccionesMinimoMesas {}).precioSilla * 5 : ℚ) : WithBot ℚ) := by
  refine ⟨by decide!, ?_, ?_, by decide!, by decide!, by decide!⟩
  · intro r hr
    simp only [restriccionesMinimoMesas, List.mem_cons, List.mem_singleton,
      List.not_mem_nil, or_false] at hr
    rcases hr with rfl | rfl | rfl | rfl
    · simp [cumpleExacto]; norm_num
    · simp [cumpleExacto]
    · simp [cumpleExacto]
    · simp [cumpleExacto]
  · intro x1 x2 h
    have h1 := (h (Restriccion.mk 1 1 10 "<=") (by simp [restriccionesMinimoMesas])).1 rfl
    have h2 := (h (Restriccion.mk 1 0 5 ">=") (by simp [restriccionesMinimoMesas])).2.1 rfl
    have h3 := (h (Restriccion.mk 0 1 0 ">=") (by simp [restriccionesMinimoMesas])).2.1 rfl
    simp only at h1 h2 h3
    refine ⟨?_, ?_, ?_, ?_⟩ <;> linarith

/-- Counterexample to C5 (Scenario B) as stated: with `[x1>=0, x2>=0]` and prices `(1, 1)`
it is false that the run avoids ending with `solucionEncontrada = true` and `(0, 0)` stored
and reports an error instead. -/
theorem escenarioB_contraejemplo :
    ¬ (¬ ((calcularSolucionOptima
              (conDatos 1 1 restriccionesSoloNoNegatividad {})).1.solucion.solucionEncontrada
            = true ∧
          (calcularSolucionOptima
              (conDatos 1 1 restriccionesSoloNoNegatividad {})).1.solucion.x1 = 0 ∧
          (calcularSolucionOptima
              (conDatos 1 1 restriccionesSoloNoNegatividad {})).1.solucion.x2 = 0) ∧
       ∃ mensaje, (calcularSolucionOptima
              (conDatos 1 1 restriccionesSoloNoNegatividad {})).2 =
            Desenlace.errorCalculo mensaje) := by
  intro h
  exact h.1 (by decide!)

/-- C5 as amended (Scenario B): with `[x1>=0, x2>=0]` and prices `(1, 1)` entered, whatever
solution was stored before, the only candidate is the origin and `calcularSolucionOptima`
ends normally with `solucionEncontrada = true`, storing `(0, 0)` and `gananciaMaxima = 0`;
no error and no unbounded-region signal is produced. -/
theorem escenarioB_guarda_origen (previa : SolucionOptima) :
    restriccionesSoloNoNegatividad =
      [Restriccion.mk 1 0 0 ">=", Restriccion.mk 0 1 0 ">="] ∧
    encontrarPuntosInterseccion (conDatos 1 1 restriccionesSoloNoNegatividad previa) =
      [(0, 0)] ∧
    calcularSolucionOptima (conDatos 1 1 restriccionesSoloNoNegatividad previa) =
      (conDatos 1 1 restriccionesSoloNoNegatividad
         { x1 := 0, x2 := 0, gananciaMaxima := ((0 : ℚ) : WithBot ℚ),
           solucionEncontrada := true },
       Desenlace.solucionGuardada) := by
  have hlista : puntosInterseccionDe restriccionesSoloNoNegatividad = [(0, 0)] := by
    decide!
  refine ⟨rfl, hlista, ?_⟩
  have hmejor : (conDatos 1 1 restriccionesSoloNoNegatividad {}).evaluarCandidatos
      (puntosInterseccionDe restriccionesSoloNoNegatividad) =
      { mejorGanancia := ((0 : ℚ) : WithBot ℚ), mejorX1 := 0, mejorX2 := 0 } := by
    decide!
  have hcongr := evaluarCandidatos_congr (conDatos 1 1 restriccionesSoloNoNegatividad previa)
    (conDatos 1 1 restriccionesSoloNoNegatividad {}) rfl rfl rfl
    (puntosInterseccionDe restriccionesSoloNoNegatividad)
  have hprevios :
      (conDatos 1 1 restriccionesSoloNoNegatividad previa).verificarDatosPrevios = true := rfl
  rw [calcularSolucionOptima_con_datos _ hprevios]
  have hpuntos :
      (conDatos 1 1 restriccionesSoloNoNegatividad previa).encontrarPuntosInterseccion =
      puntosInterseccionDe restriccionesSoloNoNegatividad := rfl
  rw [hpuntos, hcongr, hmejor]
  rfl

/-! ## Feasibility predicate -/

theorem restriccionAdmite_iff (r : Restriccion) (x1 x2 : ℚ) :
    restriccionAdmite r x1 x2 = true ↔
      (r.operador = "<=" →
        r.coeficienteX1 * x1 + r.coeficienteX2 * x2 ≤ r.valorConstante + 1e-6) ∧
      (r.operador = ">=" →
        r.coeficienteX1 * x1 + r.coeficienteX2 * x2 ≥ r.valorConstante - 1e-6) ∧
      (r.operador = "=" →
        |r.coeficienteX1 * x1 + r.coeficienteX2 * x2 - r.valorConstante| ≤ 1e-6) := by
  unfold restriccionAdmite
  dsimp only
  by_cases hle : r.operador = "<="
  · have h1 : ¬ r.operador = ">=" := by rw [hle]; decide
    have h2 : ¬ r.operador = "=" := by rw [hle]; decide
    rw [if_pos hle]
    by_cases hv : r.coeficienteX1 * x1 + r.coeficienteX2 * x2 > r.valorConstante + 1e-6
    · rw [if_pos hv]
      simp only [Bool.false_eq_true, false_iff]
      intro h
      exact absurd (h.1 hle) (not_le.mpr hv)
    · rw [if_neg hv]
      simp only [true_iff]
      exact ⟨fun _ => not_lt.mp hv, fun h => absurd h h1, fun h => absurd h h2⟩
  · rw [if_neg hle]
    by_cases hge : r.operador = ">="
    · have h2 : ¬ r.operador = "=" := by rw [hge]; decide
      rw [if_pos hge]
      by_cases hv : r.coeficienteX1 * x1 + r.coeficienteX2 * x2 < r.valorConstante - 1e-6
      · rw [if_pos hv]
        simp only [Bool.false_eq_true, false_iff]
        intro h
        exact absurd (h.2.1 hge) (not_le.mpr hv)
      · rw [if_neg hv]
        simp only [true_iff]
        exact ⟨fun h => absurd h hle, fun _ => not_lt.mp hv, fun h => absurd h h2⟩
    · rw [if_neg hge]
      by_cases heq : r.operador = "="
      · rw [if_pos heq]
        by_cases hv : |r.coeficienteX1 * x1 + r.coeficienteX2 * x2 - r.valorConstante| > 1e-6
        · rw [if_pos hv]
          simp only [Bool.false_eq_true, false_iff]
          intro h
          exact absurd (h.2.2 heq) (not_le.mpr hv)
        · rw [if_neg hv]
          simp only [true_iff]
          exact ⟨fun h => absurd h hle, fun h => absurd h hge, fun _ => not_lt.mp hv⟩
      · rw [if_neg heq]
        simp only [true_iff]
        exact ⟨fun h => absurd h hle, fun h => absurd h hge, fun h => absurd h heq⟩

theorem factibleEn_iff (restricciones : List Restriccion) (x1 x2 : ℚ) :
    factibleEn restricciones x1 x2 = true ↔
      ∀ r ∈ restricciones, restriccionAdmite r x1 x2 = true := by
  induction restricciones with
  | nil => simp [factibleEn]
  | cons r resto ih =>
    simp only [factibleEn, List.mem_cons, forall_eq_or_imp]
    by_cases h : restriccionAdmite r x1 x2 = true
    · simp [h, ih]
    · simp [h]

/-- C7 (the 2x2 system is solved, operators ignored). For every two constraints whose
determinant `a1*b2 - a2*b1` has absolute value at least `1e-10`, the point returned by
`interseccionRectas` satisfies `a1*x1 + b1*x2 = c1` and `a2*x1 + b2*x2 = c2` exactly, and
replacing the operators of the two constraints by any others does not change the
result. -/
theorem interseccionRectas_resuelve_sistema (r1 r2 : Restriccion)
    (hdet : |r1.coeficienteX1 * r2.coeficienteX2 - r2.coeficienteX1 * r1.coeficienteX2| ≥
      1e-10) :
    r1.coeficienteX1 * (interseccionRectas r1 r2).1 +
        r1.coeficienteX2 * (interseccionRectas r1 r2).2 = r1.valorConstante ∧
    r2.coeficienteX1 * (interseccionRectas r1 r2).1 +
        r2.coeficienteX2 * (interseccionRectas r1 r2).2 = r2.valorConstante ∧
    ∀ op1 op2 : String,
      interseccionRectas { r1 with operador := op1 } { r2 with operador := op2 } =
        interseccionRectas r1 r2 := by
  have hno : ¬ |r1.coeficienteX1 * r2.coeficienteX2 - r2.coeficienteX1 * r1.coeficienteX2| <
      1e-10 := not_lt.mpr hdet
  have hne : r1.coeficienteX1 * r2.coeficienteX2 - r2.coeficienteX1 * r1.coeficienteX2 ≠ 0 := by
    intro h0
    rw [h0] at hdet
    norm_num at hdet
  refine ⟨?_, ?_, ?_⟩
  · simp only [interseccionRectas, hno, if_false]
    field_simp
    ring
  · simp only [interseccionRectas, hno, if_false]
    field_simp
    ring
  · intro op1 op2
    rfl

/-- Witness for C7: the carpentry and painting constraints of Flair Furniture, with
determinant `4*1 - 2*3 = -2`. -/
theorem interseccionRectas_resuelve_sistema_witness :
    (4 : ℚ) * (interseccionRectas (Restriccion.mk 4 3 240 "<=")
        (Restriccion.mk 2 1 100 "<=")).1 +
      3 * (interseccionRectas (Restriccion.mk 4 3 240 "<=")
        (Restriccion.mk 2 1 100 "<=")).2 = 240 :=
  (interseccionRectas_resuelve_sistema (Restriccion.mk 4 3 240 "<=")
    (Restriccion.mk 2 1 100 "<=") (by decide!)).1

theorem uniqueDesde_subset {α : Type} (pred : α → α → Bool) (l : List α) :
    ∀ (ultimo x : α), x ∈ uniqueDesde pred ultimo l → x ∈ l := by
  induction l with
  | nil => intro ultimo x h; simp [uniqueDesde] at h
  | cons y ys ih =>
    intro ultimo x h
    unfold uniqueDesde at h
    split_ifs at h with hp
    · exact List.mem_cons_of_mem _ (ih ultimo x h)
    · rcases List.mem_cons.mp h with rfl | h
      · exact List.mem_cons_self _ _
      · exact List.mem_cons_of_mem _ (ih y x h)

theorem unique_subset {α : Type} (pred : α → α → Bool) (l : List α) (x : α)
    (h : x ∈ unique pred l) : x ∈ l := by
  cases l with
  | nil => simp [unique] at h
  | cons y ys =>
    unfold unique at h
    rcases List.mem_cons.mp h with rfl | h
    · exact List.mem_cons_self _ _
    · exact List.mem_cons_of_mem _ (uniqueDesde_subset pred ys y x h)

theorem mem_ordenarPuntos (puntos : List (ℚ × ℚ)) (x : ℚ × ℚ) :
    x ∈ ordenarPuntos puntos ↔ x ∈ puntos :=
  (List.perm_insertionSort noMayorPar puntos).mem_iff

theorem mem_puntosInterseccionDe (restricciones : List Restriccion) (x : ℚ × ℚ)
    (h : x ∈ puntosInterseccionDe restricciones) : x ∈ puntosSinOrdenar restricciones :=
  (mem_ordenarPuntos _ x).mp (unique_subset puntosCercanos _ x h)

theorem interseccionesEjes_cota (r : Restriccion) (p : ℚ × ℚ)
    (h : p ∈ interseccionesEjes r) : 0 ≤ p.1 ∧ 0 ≤ p.2 := by
  unfold interseccionesEjes at h
  split_ifs at h <;> simp at h <;> try (rcases h with rfl | rfl) <;>
    first
      | exact ⟨by assumption, le_refl _⟩
      | exact ⟨le_refl _, by assumption⟩

theorem interseccionPar_cota (ri rj : Restriccion) (p : ℚ × ℚ)
    (h : p ∈ interseccionPar ri rj) : -1e-6 ≤ p.1 ∧ -1e-6 ≤ p.2 := by
  unfold interseccionPar at h
  split_ifs at h with h1 h2 h3
  · rw [List.mem_singleton] at h
    rw [h]
    exact h3
  · simp at h
  · simp at h
  · simp at h

theorem interseccionesPares_origen (restricciones : List Restriccion) :
    ∀ p ∈ interseccionesPares restricciones,
      ∃ ri ∈ restricciones, ∃ rj ∈ restricciones, p ∈ interseccionPar ri rj := by
  induction restricciones with
  | nil => intro p h; simp [interseccionesPares] at h
  | cons ri resto ih =>
    intro p h
    unfold interseccionesPares at h
    rcases List.mem_append.mp h with h | h
    · obtain ⟨rj, hrj, hp⟩ := List.mem_flatMap.mp h
      exact ⟨ri, List.mem_cons_self _ _, rj, List.mem_cons_of_mem _ hrj, hp⟩
    · obtain ⟨ra, hra, rb, hrb, hp⟩ := ih p h
      exact ⟨ra, List.mem_cons_of_mem _ hra, rb, List.mem_cons_of_mem _ hrb, hp⟩

theorem puntosSinOrdenar_cota (restricciones : List Restriccion) (p : ℚ × ℚ)
    (h : p ∈ puntosSinOrdenar restricciones) : -1e-6 ≤ p.1 ∧ -1e-6 ≤ p.2 := by
  have hneg : (-1e-6 : ℚ) ≤ 0 := by norm_num
  unfold puntosSinOrdenar at h
  rcases List.mem_cons.mp h with rfl | h
  · exact ⟨hneg, hneg⟩
  · rcases List.mem_append.mp h with h | h
    · obtain ⟨r, _, hp⟩ := List.mem_flatMap.mp h
      have := interseccionesEjes_cota r p hp
      exact ⟨le_trans hneg this.1, le_trans hneg this.2⟩
    · obtain ⟨ri, _, rj, _, hp⟩ := interseccionesPares_origen restricciones p h
      exact interseccionPar_cota ri rj p hp

/-- C9 (a parallel pair is never registered as a vertex). For every session the list
returned by `encontrarPuntosInterseccion` does not contain the pair `(-1e9, -1e9)`; for
every pair of constraints with `|a1*b2 - a2*b1| < 1e-10` the body of the pair loop pushes
no point; and for `[x1+x2<=10, x1+x2<=10]` (Scenario C) the result is exactly
`[(0,0), (0,10), (10,0)]`. -/
theorem paralelas_no_registran_vertice :
    (∀ s : SistemaOptimizacion, ((-1e9, -1e9) : ℚ × ℚ) ∉ s.encontrarPuntosInterseccion) ∧
    (∀ ri rj : Restriccion,
      |ri.coeficienteX1 * rj.coeficienteX2 - rj.coeficienteX1 * ri.coeficienteX2| < 1e-10 →
        interseccionPar ri rj = []) ∧
    restriccionesParalelasIguales =
      [Restriccion.mk 1 1 10 "<=", Restriccion.mk 1 1 10 "<="] ∧
    ∀ (precioMesa precioSilla : ℚ) (previa : SolucionOptima),
      (conDatos precioMesa precioSilla restriccionesParalelasIguales
        previa).encontrarPuntosInterseccion = [(0, 0), (0, 10), (10, 0)] := by
  refine ⟨?_, ?_, rfl, ?_⟩
  · intro s h
    have hcota := puntosSinOrdenar_cota s.restricciones _
      (mem_puntosInterseccionDe s.restricciones _ h)
    have h1 := hcota.1
    norm_num at h1
  · intro ri rj hdet
    have hsent : interseccionRectas ri rj = (-1e9, -1e9) := by
      simp only [interseccionRectas, hdet, if_true]
    unfold interseccionPar
    rw [hsent]
    have hno : ¬ ((-1e9 : ℚ) ≥ -1e-6 ∧ (-1e9 : ℚ) ≥ -1e-6) := by norm_num
    simp only [hno, if_false, ite_self]
  · intro precioMesa precioSilla previa
    have hlista : puntosInterseccionDe restriccionesParalelasIguales =
        [(0, 0), (0, 10), (10, 0)] := by decide!
    exact hlista

/-- Witness for C9: the two identical constraints of Scenario C, with determinant `0`,
push no point in the pair loop. -/
theorem paralelas_no_registran_vertice_witness :
    interseccionPar (Restriccion.mk 1 1 10 "<=") (Restriccion.mk 1 1 10 "<=") = [] :=
  paralelas_no_registran_vertice.2.1 (Restriccion.mk 1 1 10 "<=")
    (Restriccion.mk 1 1 10 "<=") (by decide!)

/-- C10 (dedup), evaluated on `[x1 <= 2^-21, x2 <= 5]`: both constraints pass
`validarRestriccion`, the list returned by `encontrarPuntosInterseccion` is
`[(0,0), (0,5), (2^-21,0), (2^-21,5)]`, and its distinct entries `(0,0)` and `(2^-21,0)`
differ by less than `1e-6` in both coordinates. The sort places `(0,5)` between them and
`std::unique` only compares an entry with the last entry kept. -/
theorem unique_conserva_puntos_cercanos :
    (∀ r ∈ restriccionesCotaDiminuta, validarRestriccion r = true) ∧
    encontrarPuntosInterseccion (conDatos 1 1 restriccionesCotaDiminuta {}) =
      [(0, 0), (0, 5), (1 / 2097152, 0), (1 / 2097152, 5)] ∧
    ∃ a ∈ encontrarPuntosInterseccion (conDatos 1 1 restriccionesCotaDiminuta {}),
      ∃ b ∈ encontrarPuntosInterseccion (conDatos 1 1 restriccionesCotaDiminuta {}),
        a ≠ b ∧ |a.1 - b.1| < 1e-6 ∧ |a.2 - b.2| < 1e-6 := by
  refine ⟨by decide!, by decide!, (0, 0), by decide!, (1 / 2097152, 0), by decide!,
    by decide!, by decide!, by decide!⟩


/-! ## Where candidates are filtered -/

theorem foldl_evaluarPunto_filter (s : SistemaOptimizacion) (puntos : List (ℚ × ℚ)) :
    ∀ m0 : Mejor,
      puntos.foldl (evaluarPunto s) m0 =
        (puntos.filter (fun p => s.puntoEsFactible p.1 p.2)).foldl (evaluarPunto s) m0 := by
  induction puntos with
  | nil => intro m0; rfl
  | cons p resto ih =>
    intro m0
    by_cases hf : s.puntoEsFactible p.1 p.2 = true
    · rw [List.filter_cons, if_pos hf, List.foldl_cons, List.foldl_cons]
      exact ih _
    · have hpaso : evaluarPunto s m0 p = m0 := by
        unfold evaluarPunto
        rw [if_neg hf]
      rw [List.filter_cons, if_neg hf, List.foldl_cons, hpaso]
      exact ih _

/-- Counterexample to C11 as stated: for the Flair Furniture constraints the list returned
by `encontrarPuntosInterseccion` contains the axis intercept `(0, 80)` of
`4x1+3x2<=240`, which fails `puntoEsFactible` (it violates `x2<=60`). -/
theorem candidatos_sin_filtrar_contraejemplo :
    ¬ ∀ p ∈ (conDatos 7 5 restriccionesFlair {}).encontrarPuntosInterseccion,
        (conDatos 7 5 restriccionesFlair {}).puntoEsFactible p.1 p.2 = true := by
  intro h
  have h80 := h (0, 80) (by decide!)
  exact absurd h80 (by decide!)

/-- C11 as amended (candidates are filtered when they are evaluated). In a session with
prices and constraints entered, `calcularSolucionOptima` skips every point of the list
returned by `encontrarPuntosInterseccion` that fails `puntoEsFactible`: the solution it
stores is the one the evaluation loop computes from the sublist of the candidates that
pass `puntoEsFactible`, each of which is a returned candidate. -/
theorem calcularSolucionOptima_filtra_candidatos (s : SistemaOptimizacion)
    (hdatos : s.preciosIngresados = true ∧ s.restriccionesIngresadas = true) :
    (∀ p ∈ s.encontrarPuntosInterseccion.filter (fun p => s.puntoEsFactible p.1 p.2),
      p ∈ s.encontrarPuntosInterseccion ∧ s.puntoEsFactible p.1 p.2 = true) ∧
    s.calcularSolucionOptima.1.solucion =
      { x1 := (s.evaluarCandidatos
          (s.encontrarPuntosInterseccion.filter (fun p => s.puntoEsFactible p.1 p.2))).mejorX1,
        x2 := (s.evaluarCandidatos
          (s.encontrarPuntosInterseccion.filter (fun p => s.puntoEsFactible p.1 p.2))).mejorX2,
        gananciaMaxima := (s.evaluarCandidatos
          (s.encontrarPuntosInterseccion.filter
            (fun p => s.puntoEsFactible p.1 p.2))).mejorGanancia,
        solucionEncontrada := true } := by
  have hprevios : s.verificarDatosPrevios = true := by
    simp [verificarDatosPrevios, hdatos.1, hdatos.2]
  have hfiltro : s.evaluarCandidatos s.encontrarPuntosInterseccion =
      s.evaluarCandidatos
        (s.encontrarPuntosInterseccion.filter (fun p => s.puntoEsFactible p.1 p.2)) :=
    foldl_evaluarPunto_filter s _ _
  refine ⟨?_, ?_⟩
  · intro p hp
    exact ⟨List.mem_of_mem_filter hp, (List.mem_filter.mp hp).2⟩
  · rw [calcularSolucionOptima_con_datos s hprevios, hfiltro]

/-- Witness for C11 as amended: the Flair Furniture session with prices `(7, 5)`. -/
theorem calcularSolucionOptima_filtra_candidatos_witness :
    (conDatos 7 5 restriccionesFlair {}).calcularSolucionOptima.1.solucion =
      { x1 := ((conDatos 7 5 restriccionesFlair {}).evaluarCandidatos
          ((conDatos 7 5 restriccionesFlair {}).encontrarPuntosInterseccion.filter
            (fun p => (conDatos 7 5 restriccionesFlair {}).puntoEsFactible p.1 p.2))).mejorX1,
        x2 := ((conDatos 7 5 restriccionesFlair {}).evaluarCandidatos
          ((conDatos 7 5 restriccionesFlair {}).encontrarPuntosInterseccion.filter
            (fun p => (conDatos 7 5 restriccionesFlair {}).puntoEsFactible p.1 p.2))).mejorX2,
        gananciaMaxima := ((conDatos 7 5 restriccionesFlair {}).evaluarCandidatos
          ((conDatos 7 5 restriccionesFlair {}).encontrarPuntosInterseccion.filter
            (fun p =>
              (conDatos 7 5 restriccionesFlair {}).puntoEsFactible p.1 p.2))).mejorGanancia,
        solucionEncontrada := true } :=
  (calcularSolucionOptima_filtra_candidatos (conDatos 7 5 restriccionesFlair {})
    ⟨rfl, rfl⟩).2

/-! ## What sort and unique keep -/

theorem puntosCercanos_refl (p : ℚ × ℚ) : puntosCercanos p p = true := by
  unfold puntosCercanos
  simp only [sub_self, abs_zero, decide_eq_true_eq]
  norm_num

theorem menorLexicografico_of_noMayorPar (p q : ℚ × ℚ) (h : noMayorPar p q)
    (hne : p ≠ q) : menorLexicografico p q := by
  rw [noMayorPar_iff] at h
  rcases h with h | ⟨h1, h2⟩
  · exact Or.inl h
  · refine Or.inr ⟨h1, lt_of_le_of_ne h2 ?_⟩
    intro h3
    exact hne (Prod.ext h1 h3)

theorem menorLexicografico_trans (p q r : ℚ × ℚ) (hpq : menorLexicografico p q)
    (hqr : menorLexicografico q r) : menorLexicografico p r := by
  unfold menorLexicografico at *
  rcases hpq with h | ⟨h1, h2⟩
  · rcases hqr with k | ⟨k1, _⟩
    · exact Or.inl (lt_trans h k)
    · exact Or.inl (k1 ▸ h)
  · rcases hqr with k | ⟨k1, k2⟩
    · exact Or.inl (h1 ▸ k)
    · exact Or.inr ⟨h1.trans k1, lt_trans h2 k2⟩

theorem uniqueDesde_estricto (l : List (ℚ × ℚ)) :
    ∀ ultimo : ℚ × ℚ, (ultimo :: l).Pairwise noMayorPar →
      (ultimo :: uniqueDesde puntosCercanos ultimo l).Pairwise menorLexicografico := by
  induction l with
  | nil =>
    intro ultimo _
    simp [uniqueDesde]
  | cons y ys ih =>
    intro ultimo h
    obtain ⟨hcabeza, hresto⟩ := List.pairwise_cons.mp h
    unfold uniqueDesde
    by_cases hp : puntosCercanos ultimo y = true
    · rw [if_pos hp]
      apply ih ultimo
      refine List.pairwise_cons.mpr ⟨fun z hz => hcabeza z (List.mem_cons_of_mem _ hz), ?_⟩
      exact (List.pairwise_cons.mp hresto).2
    · rw [if_neg hp]
      have hy := ih y hresto
      have hne : ultimo ≠ y := by
        intro heq
        rw [heq] at hp
        exact hp (puntosCercanos_refl y)
      have hprimero : menorLexicografico ultimo y :=
        menorLexicografico_of_noMayorPar ultimo y (hcabeza y (List.mem_cons_self _ _)) hne
      refine List.pairwise_cons.mpr ⟨?_, hy⟩
      intro z hz
      rcases List.mem_cons.mp hz with rfl | hz
      · exact hprimero
      · exact menorLexicografico_trans ultimo y z hprimero
          ((List.pairwise_cons.mp hy).1 z hz)

theorem puntosInterseccionDe_estricto (restricciones : List Restriccion) :
    (puntosInterseccionDe restricciones).Pairwise menorLexicografico := by
  unfold puntosInterseccionDe
  have hsorted := ordenarPuntos_sorted (puntosSinOrdenar restricciones)
  cases hl : ordenarPuntos (puntosSinOrdenar restricciones) with
  | nil => simp [unique]
  | cons a resto =>
    rw [hl] at hsorted
    unfold unique
    exact uniqueDesde_estricto resto a hsorted

/-! ## Ties, price changes and repeated runs -/

theorem evaluarPunto_mono (s : SistemaOptimizacion) (m : Mejor) (p : ℚ × ℚ) :
    m.mejorGanancia ≤ (evaluarPunto s m p).mejorGanancia := by
  rcases evaluarPunto_casos s m p with ⟨h, _⟩ | ⟨_, hlt, h⟩
  · rw [h]
  · rw [h]; exact le_of_lt hlt

theorem evaluarPunto_cota (s : SistemaOptimizacion) (m : Mejor) (p : ℚ × ℚ)
    (hf : s.puntoEsFactible p.1 p.2 = true) :
    ((s.evaluarFuncionObjetivo p.1 p.2 : ℚ) : WithBot ℚ) ≤
      (evaluarPunto s m p).mejorGanancia := by
  rcases evaluarPunto_casos s m p with ⟨h, hle⟩ | ⟨_, _, h⟩
  · rw [h]; exact hle hf
  · rw [h]

theorem foldl_evaluarPunto_primero (s : SistemaOptimizacion) (puntos : List (ℚ × ℚ)) :
    ∀ m0 : Mejor,
      (puntos.foldl (evaluarPunto s) m0 = m0 ∧
        ∀ q ∈ puntos, s.puntoEsFactible q.1 q.2 = true →
          ((s.evaluarFuncionObjetivo q.1 q.2 : ℚ) : WithBot ℚ) ≤ m0.mejorGanancia) ∨
      ∃ pre p post, puntos = pre ++ p :: post ∧ s.puntoEsFactible p.1 p.2 = true ∧
        puntos.foldl (evaluarPunto s) m0 =
          { mejorGanancia := ((s.evaluarFuncionObjetivo p.1 p.2 : ℚ) : WithBot ℚ),
            mejorX1 := p.1, mejorX2 := p.2 } ∧
        m0.mejorGanancia < ((s.evaluarFuncionObjetivo p.1 p.2 : ℚ) : WithBot ℚ) ∧
        (∀ q ∈ pre, s.puntoEsFactible q.1 q.2 = true →
          s.evaluarFuncionObjetivo q.1 q.2 < s.evaluarFuncionObjetivo p.1 p.2) ∧
        (∀ q ∈ post, s.puntoEsFactible q.1 q.2 = true →
          s.evaluarFuncionObjetivo q.1 q.2 ≤ s.evaluarFuncionObjetivo p.1 p.2) := by
  induction puntos with
  | nil => intro m0; left; simp
  | cons a resto ih =>
    intro m0
    rcases ih (evaluarPunto s m0 a) with ⟨hfijo, hmax⟩ | ⟨pre, p, post, hl, hpf, hres, hlt, hpre, hpost⟩
    · rcases evaluarPunto_casos s m0 a with ⟨h0, hle⟩ | ⟨hf, hlt, h1⟩
      · left
        refine ⟨?_, ?_⟩
        · rw [List.foldl_cons, hfijo, h0]
        · intro q hq hqf
          rcases List.mem_cons.mp hq with rfl | hq
          · exact hle hqf
          · have := hmax q hq hqf
            rw [h0] at this
            exact this
      · right
        refine ⟨[], a, resto, rfl, hf, ?_, hlt, ?_, ?_⟩
        · rw [List.foldl_cons, hfijo, h1]
        · intro q hq; simp at hq
        · intro q hq hqf
          have := hmax q hq hqf
          rw [h1] at this
          exact WithBot.coe_le_coe.mp this
    · right
      refine ⟨a :: pre, p, post, ?_, hpf, ?_, ?_, ?_, hpost⟩
      · rw [hl]; rfl
      · rw [List.foldl_cons, hres]
      · exact lt_of_le_of_lt (evaluarPunto_mono s m0 a) hlt
      · intro q hq hqf
        rcases List.mem_cons.mp hq with rfl | hq
        · exact WithBot.coe_lt_coe.mp (lt_of_le_of_lt (evaluarPunto_cota s m0 q hqf) hlt)
        · exact hpre q hq hqf

theorem calcularSolucionOptima_conDatos (precioMesa precioSilla : ℚ)
    (restricciones : List Restriccion) (previa : SolucionOptima) :
    calcularSolucionOptima (conDatos precioMesa precioSilla restricciones previa) =
      (conDatos precioMesa precioSilla restricciones
        { x1 := ((conDatos precioMesa precioSilla restricciones {}).evaluarCandidatos
            (puntosInterseccionDe restricciones)).mejorX1,
          x2 := ((conDatos precioMesa precioSilla restricciones {}).evaluarCandidatos
            (puntosInterseccionDe restricciones)).mejorX2,
          gananciaMaxima :=
            ((conDatos precioMesa precioSilla restricciones {}).evaluarCandidatos
              (puntosInterseccionDe restricciones)).mejorGanancia,
          solucionEncontrada := true },
       Desenlace.solucionGuardada) := by
  have hcongr := evaluarCandidatos_congr
    (conDatos precioMesa precioSilla restricciones previa)
    (conDatos precioMesa precioSilla restricciones {}) rfl rfl rfl
    (puntosInterseccionDe restricciones)
  have hprevios :
      (conDatos precioMesa precioSilla restricciones previa).verificarDatosPrevios = true :=
    rfl
  have hpuntos :
      (conDatos precioMesa precioSilla restricciones previa).encontrarPuntosInterseccion =
      puntosInterseccionDe restricciones := rfl
  rw [calcularSolucionOptima_con_datos _ hprevios, hpuntos, hcongr]
  rfl

/-- C13 (tie-breaking). In a session with prices and constraints entered and some feasible
candidate, the point stored by `calcularSolucionOptima` splits the list returned by
`encontrarPuntosInterseccion` so that every feasible candidate before it has a strictly
smaller objective and every feasible candidate after it has an objective that is not
larger: among the candidates reaching the maximum the first one is stored, and one step of
the loop leaves the current best unchanged at a candidate of equal value. With
`[2x1+x2<=100, 4x1+3x2<=240, x2<=60]` and prices `(2, 1)` the candidates `(30, 40)` and
`(50, 0)` both reach `100`, `(30, 40)` comes first, and `(30, 40)` is stored. -/
theorem calcularSolucionOptima_desempate :
    (∀ s : SistemaOptimizacion,
      s.preciosIngresados = true ∧ s.restriccionesIngresadas = true →
      (∃ p ∈ s.encontrarPuntosInterseccion, s.puntoEsFactible p.1 p.2 = true) →
      ∃ pre post,
        s.encontrarPuntosInterseccion =
          pre ++ (s.calcularSolucionOptima.1.solucion.x1,
                  s.calcularSolucionOptima.1.solucion.x2) :: post ∧
        s.puntoEsFactible s.calcularSolucionOptima.1.solucion.x1
          s.calcularSolucionOptima.1.solucion.x2 = true ∧
        (∀ q ∈ pre, s.puntoEsFactible q.1 q.2 = true →
          s.evaluarFuncionObjetivo q.1 q.2 <
            s.evaluarFuncionObjetivo s.calcularSolucionOptima.1.solucion.x1
              s.calcularSolucionOptima.1.solucion.x2) ∧
        (∀ q ∈ post, s.puntoEsFactible q.1 q.2 = true →
          s.evaluarFuncionObjetivo q.1 q.2 ≤
            s.evaluarFuncionObjetivo s.calcularSolucionOptima.1.solucion.x1
              s.calcularSolucionOptima.1.solucion.x2)) ∧
    restriccionesEmpate =
      [Restriccion.mk 2 1 100 "<=", Restriccion.mk 4 3 240 "<=", Restriccion.mk 0 1 60 "<="] ∧
    (∀ previa : SolucionOptima,
      (conDatos 2 1 restriccionesEmpate previa).encontrarPuntosInterseccion =
        [(0, 0), (0, 60), (0, 80), (0, 100), (15, 60), (20, 60)] ++ (30, 40) ::
          [(50, 0), (60, 0)] ∧
      (conDatos 2 1 restriccionesEmpate previa).puntoEsFactible 30 40 = true ∧
      (conDatos 2 1 restriccionesEmpate previa).puntoEsFactible 50 0 = true ∧
      (conDatos 2 1 restriccionesEmpate previa).evaluarFuncionObjetivo 30 40 = 100 ∧
      (conDatos 2 1 restriccionesEmpate previa).evaluarFuncionObjetivo 50 0 = 100 ∧
      calcularSolucionOptima (conDatos 2 1 restriccionesEmpate previa) =
        (conDatos 2 1 restriccionesEmpate
           { x1 := 30, x2 := 40, gananciaMaxima := ((100 : ℚ) : WithBot ℚ),
             solucionEncontrada := true },
         Desenlace.solucionGuardada)) ∧
    (∀ (s : SistemaOptimizacion) (m : Mejor) (p : ℚ × ℚ),
      ((s.evaluarFuncionObjetivo p.1 p.2 : ℚ) : WithBot ℚ) = m.mejorGanancia →
        evaluarPunto s m p = m) := by
  refine ⟨?_, rfl, ?_, ?_⟩
  · intro s hdatos hfactible
    have hprevios : s.verificarDatosPrevios = true := by
      simp [verificarDatosPrevios, hdatos.1, hdatos.2]
    rw [calcularSolucionOptima_con_datos s hprevios]
    rcases foldl_evaluarPunto_primero s s.encontrarPuntosInterseccion
      { mejorGanancia := ⊥, mejorX1 := 0, mejorX2 := 0 } with
      ⟨_, hmax⟩ | ⟨pre, p, post, hl, hpf, hres, _, hpre, hpost⟩
    · exfalso
      obtain ⟨q, hq, hqf⟩ := hfactible
      exact absurd (hmax q hq hqf) (not_le.mpr (WithBot.bot_lt_coe _))
    · have hsel : s.evaluarCandidatos s.encontrarPuntosInterseccion =
          { mejorGanancia := ((s.evaluarFuncionObjetivo p.1 p.2 : ℚ) : WithBot ℚ),
            mejorX1 := p.1, mejorX2 := p.2 } := hres
      simp only [hsel]
      exact ⟨pre, post, hl, hpf, hpre, hpost⟩
  · intro previa
    have hlista : puntosInterseccionDe restriccionesEmpate =
        [(0, 0), (0, 60), (0, 80), (0, 100), (15, 60), (20, 60)] ++ (30, 40) ::
          [(50, 0), (60, 0)] := by decide!
    have hf1 : factibleEn restriccionesEmpate 30 40 = true := by decide!
    have hf2 : factibleEn restriccionesEmpate 50 0 = true := by decide!
    have hmejor : (conDatos 2 1 restriccionesEmpate {}).evaluarCandidatos
        (puntosInterseccionDe restriccionesEmpate) =
        { mejorGanancia := ((100 : ℚ) : WithBot ℚ), mejorX1 := 30, mejorX2 := 40 } := by
      decide!
    refine ⟨hlista, hf1, hf2, ?_, ?_, ?_⟩
    · simp only [evaluarFuncionObjetivo, conDatos]; norm_num
    · simp only [evaluarFuncionObjetivo, conDatos]; norm_num
    · rw [calcularSolucionOptima_conDatos, hmejor]
  · intro s m p higual
    rcases evaluarPunto_casos s m p with ⟨h, _⟩ | ⟨_, hlt, _⟩
    · exact h
    · rw [higual] at hlt
      exact absurd hlt (lt_irrefl _)

/-- Witness for C13: the session with `[2x1+x2<=100, 4x1+3x2<=240, x2<=60]` and prices
`(2, 1)`, where the candidate `(30, 40)` is feasible. -/
theorem calcularSolucionOptima_desempate_witness :
    ∃ pre post,
      (conDatos 2 1 restriccionesEmpate {}).encontrarPuntosInterseccion =
        pre ++ ((conDatos 2 1 restriccionesEmpate {}).calcularSolucionOptima.1.solucion.x1,
                (conDatos 2 1 restriccionesEmpate {}).calcularSolucionOptima.1.solucion.x2)
          :: post ∧
      (conDatos 2 1 restriccionesEmpate {}).puntoEsFactible
        (conDatos 2 1 restriccionesEmpate {}).calcularSolucionOptima.1.solucion.x1
        (conDatos 2 1 restriccionesEmpate {}).calcularSolucionOptima.1.solucion.x2 = true ∧
      (∀ q ∈ pre, (conDatos 2 1 restriccionesEmpate {}).puntoEsFactible q.1 q.2 = true →
        (conDatos 2 1 restriccionesEmpate {}).evaluarFuncionObjetivo q.1 q.2 <
          (conDatos 2 1 restriccionesEmpate {}).evaluarFuncionObjetivo
            (conDatos 2 1 restriccionesEmpate {}).calcularSolucionOptima.1.solucion.x1
            (conDatos 2 1 restriccionesEmpate {}).calcularSolucionOptima.1.solucion.x2) ∧
      (∀ q ∈ post, (conDatos 2 1 restriccionesEmpate {}).puntoEsFactible q.1 q.2 = true →
        (conDatos 2 1 restriccionesEmpate {}).evaluarFuncionObjetivo q.1 q.2 ≤
          (conDatos 2 1 restriccionesEmpate {}).evaluarFuncionObjetivo
            (conDatos 2 1 restriccionesEmpate {}).calcularSolucionOptima.1.solucion.x1
            (conDatos 2 1 restriccionesEmpate {}).calcularSolucionOptima.1.solucion.x2) :=
  calcularSolucionOptima_desempate.1 (conDatos 2 1 restriccionesEmpate {}) ⟨rfl, rfl⟩
    ⟨(30, 40), by decide!, by decide!⟩

/-- C15 (monotonicity in the table price), evaluated on `[x1 <= -2^-21, x2 <= 0]` with
`precioSilla = 1`: both constraints pass `validarRestriccion`, the prices `1` and `2` pass
`validarPrecio`, the only candidate returned is `(-2^-21, 0)`, it is feasible, and the
stored `gananciaMaxima` is `-2^-21` with `precioMesa = 1` but the smaller `-2^-20` with
`precioMesa = 2`. The candidate keeps the negative coordinate the pair loop accepts
(`>= -1e-6`) without replacing it by `0`. -/
theorem ganancia_decrece_con_coordenada_negativa :
    (∀ r ∈ restriccionesCotaNegativa, validarRestriccion r = true) ∧
    validarPrecio 1 = true ∧ validarPrecio 2 = true ∧
    encontrarPuntosInterseccion (conDatos 1 1 restriccionesCotaNegativa {}) =
      [(-1 / 2097152, 0)] ∧
    (calcularSolucionOptima (conDatos 1 1 restriccionesCotaNegativa {})).1.solucion =
      { x1 := -1 / 2097152, x2 := 0, gananciaMaxima := ((-1 / 2097152 : ℚ) : WithBot ℚ),
        solucionEncontrada := true } ∧
    (calcularSolucionOptima (conDatos 2 1 restriccionesCotaNegativa {})).1.solucion =
      { x1 := -1 / 2097152, x2 := 0, gananciaMaxima := ((-1 / 1048576 : ℚ) : WithBot ℚ),
        solucionEncontrada := true } ∧
    (calcularSolucionOptima
        (conDatos 2 1 restriccionesCotaNegativa {})).1.solucion.gananciaMaxima <
      (calcularSolucionOptima
        (conDatos 1 1 restriccionesCotaNegativa {})).1.solucion.gananciaMaxima := by
  refine ⟨by decide!, by decide!, by decide!, by decide!, by decide!, by decide!,
    by decide!⟩

/-- C16 (idempotence of solving). For every session state, in particular one with prices
and constraints entered, a second run of `calcularSolucionOptima` ends the same way as the
first and leaves the session state (prices, constraints, flags, stored solution) equal to
the state after the first run. -/
theorem calcularSolucionOptima_idempotente (s : SistemaOptimizacion) :
    calcularSolucionOptima (calcularSolucionOptima s).1 = calcularSolucionOptima s := by
  by_cases hprevios : s.verificarDatosPrevios = true
  · have hsegundo : ∀ sol : SolucionOptima,
        ({ s with solucion := sol } : SistemaOptimizacion).verificarDatosPrevios = true := by
      intro sol
      exact hprevios
    rw [calcularSolucionOptima_con_datos s hprevios]
    rw [calcularSolucionOptima_con_datos _ (hsegundo _)]
    have hcongr := evaluarCandidatos_congr
      ({ s with solucion :=
          { x1 := (s.evaluarCandidatos s.encontrarPuntosInterseccion).mejorX1,
            x2 := (s.evaluarCandidatos s.encontrarPuntosInterseccion).mejorX2,
            gananciaMaxima :=
              (s.evaluarCandidatos s.encontrarPuntosInterseccion).mejorGanancia,
            solucionEncontrada := true } } : SistemaOptimizacion) s rfl rfl rfl
      s.encontrarPuntosInterseccion
    simp only [encontrarPuntosInterseccion] at hcongr ⊢
    rw [hcongr]
  · have hsin : s.calcularSolucionOptima = (s, Desenlace.datosFaltantes) := by
      unfold calcularSolucionOptima
      simp [hprevios]
    rw [hsin]
    exact hsin

/-- Counterexample to C19 as stated: with the single constraint `x1+x2<=10` the point
`(-5, -5)` passes `puntoEsFactible` although both coordinates are below `-1e-6`. -/
theorem puntoEsFactible_negativo_contraejemplo :
    ¬ ((conDatos 1 1 [Restriccion.mk 1 1 10 "<="] {}).puntoEsFactible (-5) (-5) = true →
        (-5 : ℚ) ≥ -1e-6 ∧ (-5 : ℚ) ≥ -1e-6) := by
  intro h
  have h5 := (h (by decide!)).1
  norm_num at h5

/-- C19 as amended (non-negativity comes from explicit constraints). For every point and
every session whose constraint list contains the two non-negativity constraints
`x1 >= 0` and `x2 >= 0`, if `puntoEsFactible` returns `true` then `x1 ≥ -1e-6` and
`x2 ≥ -1e-6`. -/
theorem puntoEsFactible_no_negatividad (s : SistemaOptimizacion) (x1 x2 : ℚ)
    (hx1 : Restriccion.mk 1 0 0 ">=" ∈ s.restricciones)
    (hx2 : Restriccion.mk 0 1 0 ">=" ∈ s.restricciones)
    (hf : s.puntoEsFactible x1 x2 = true) :
    x1 ≥ -1e-6 ∧ x2 ≥ -1e-6 := by
  unfold puntoEsFactible at hf
  rw [factibleEn_iff] at hf
  have h1 := ((restriccionAdmite_iff _ x1 x2).mp (hf _ hx1)).2.1 rfl
  have h2 := ((restriccionAdmite_iff _ x1 x2).mp (hf _ hx2)).2.1 rfl
  simp only at h1 h2
  constructor
  · linarith
  · linarith

/-- Witness for C19 as amended: the Flair Furniture list, which holds `x1 >= 0` and
`x2 >= 0`, at the feasible point `(30, 40)`. -/
theorem puntoEsFactible_no_negatividad_witness :
    (30 : ℚ) ≥ -1e-6 ∧ (40 : ℚ) ≥ -1e-6 :=
  puntoEsFactible_no_negatividad (conDatos 7 5 restriccionesFlair {}) 30 40
    (by decide) (by decide) (by decide!)

/-- C20 (clamping of negative noise), evaluated on `[x1 <= -2^-21, x2 <= 0]`: both
constraints pass `validarRestriccion`, their boundary lines meet at `(-2^-21, 0)` with
`-1e-6 ≤ -2^-21 < 0`, and the list returned by `encontrarPuntosInterseccion` is
`[(-2^-21, 0)]`: the coordinate is stored as it is, negative, not as `0`. -/
theorem encontrarPuntosInterseccion_no_recorta :
    (∀ r ∈ restriccionesCotaNegativa, validarRestriccion r = true) ∧
    interseccionRectas (Restriccion.mk 1 0 (-1 / 2097152) "<=") (Restriccion.mk 0 1 0 "<=") =
      (-1 / 2097152, 0) ∧
    (-1e-6 : ℚ) ≤ -1 / 2097152 ∧ (-1 / 2097152 : ℚ) < 0 ∧
    encontrarPuntosInterseccion (conDatos 1 1 restriccionesCotaNegativa {}) =
      [(-1 / 2097152, 0)] ∧
    ∃ p ∈ encontrarPuntosInterseccion (conDatos 1 1 restriccionesCotaNegativa {}),
      p.1 < 0 := by
  refine ⟨by decide!, by decide!, by decide!, by decide!, by decide!,
    (-1 / 2097152, 0), by decide!, by decide!⟩

/-! ## The session state machine -/

theorem validarRestriccion_iff (r : Restriccion) :
    validarRestriccion r = true ↔
      (r.coeficienteX1 ≠ 0 ∨ r.coeficienteX2 ≠ 0) ∧
      (r.operador = "<=" ∨ r.operador = ">=" ∨ r.operador = "=") := by
  unfold validarRestriccion
  by_cases h : r.coeficienteX1 = 0 ∧ r.coeficienteX2 = 0
  · rw [if_pos h]
    simp only [Bool.false_eq_true, false_iff, not_and]
    intro hno
    rcases hno with h1 | h2
    · exact absurd h.1 h1
    · exact absurd h.2 h2
  · rw [if_neg h, decide_eq_true_iff]
    constructor
    · intro hop
      refine ⟨?_, hop⟩
      by_contra hc
      push_neg at hc
      exact h hc
    · intro hv
      exact hv.2

theorem leerRestricciones_validas (entradas : List EntradaRestriccion) :
    ∀ (pendientes : ℕ) (acumuladas leidas : List Restriccion),
      (∀ r ∈ acumuladas, validarRestriccion r = true) →
      leerRestricciones entradas pendientes acumuladas = some leidas →
      ∀ r ∈ leidas, validarRestriccion r = true := by
  induction entradas with
  | nil =>
    intro pendientes acumuladas leidas hacc hleer
    cases pendientes with
    | zero =>
      simp only [leerRestricciones, Option.some.injEq] at hleer
      rw [← hleer]
      exact hacc
    | succ n => simp [leerRestricciones] at hleer
  | cons e es ih =>
    intro pendientes acumuladas leidas hacc hleer
    cases pendientes with
    | zero =>
      simp only [leerRestricciones, Option.some.injEq] at hleer
      rw [← hleer]
      exact hacc
    | succ n =>
      simp only [leerRestricciones] at hleer
      by_cases hv : validarRestriccion (restriccionLeida e) = true
      · rw [if_pos hv] at hleer
        refine ih n _ leidas ?_ hleer
        intro r hr
        rcases List.mem_append.mp hr with hr | hr
        · exact hacc r hr
        · rw [List.mem_singleton] at hr
          rw [hr]
          exact hv
      · rw [if_neg hv] at hleer
        exact ih (n + 1) acumuladas leidas hacc hleer

theorem ingresarRestricciones_validas (s t : SistemaOptimizacion) (opcion : Char)
    (numRestricciones : ℤ) (entradas : List EntradaRestriccion)
    (h : s.ingresarRestricciones opcion numRestricciones entradas = some t) :
    ∀ r ∈ t.restricciones, validarRestriccion r = true := by
  unfold ingresarRestricciones at h
  split_ifs at h with hop hnum
  · simp only [Option.some.injEq] at h
    rw [← h]
    have hflair : ∀ r ∈ restriccionesFlair, validarRestriccion r = true := by decide!
    exact hflair
  · simp only [Option.some.injEq] at h
    rw [← h]
    intro r hr
    simp at hr
  · cases hleer : leerRestricciones entradas numRestricciones.toNat [] with
    | none => rw [hleer] at h; simp at h
    | some leidas =>
      rw [hleer] at h
      simp only [Option.some.injEq] at h
      rw [← h]
      exact leerRestricciones_validas entradas _ [] leidas (by intro r hr; simp at hr) hleer

theorem alcanzable_conDatos_flair :
    Alcanzable (conDatos 7 5 restriccionesFlair {}) := by
  have h1 := Alcanzable.precios inicial 7 5 Alcanzable.inicial
  exact Alcanzable.restricciones (inicial.ingresarPrecios 7 5) _ 's' 0 [] h1 (by decide!)

/-- C21 (solution invalidation), evaluated on the reachable session that solved the Flair
Furniture problem with prices `(7, 5)`: `solucionEncontrada` is `true`; the user then runs
`ingresarRestricciones`, answers `n` and types `0` for the number of constraints. The run
ends in the `catch` branch with the stored constraint list changed (cleared) and
`restriccionesIngresadas = false`, but `solucionEncontrada` still `true`. -/
theorem ingresarRestricciones_deja_solucion_obsoleta :
    Alcanzable (calcularSolucionOptima (conDatos 7 5 restriccionesFlair {})).1 ∧
    (calcularSolucionOptima
      (conDatos 7 5 restriccionesFlair {})).1.solucion.solucionEncontrada = true ∧
    ∃ t, ingresarRestricciones (calcularSolucionOptima (conDatos 7 5 restriccionesFlair {})).1
          'n' 0 [] = some t ∧
      t.restricciones = [] ∧
      t.restricciones ≠
        (calcularSolucionOptima (conDatos 7 5 restriccionesFlair {})).1.restricciones ∧
      t.restriccionesIngresadas = false ∧
      t.solucion.solucionEncontrada = true := by
  refine ⟨Alcanzable.calcular _ alcanzable_conDatos_flair, by decide!, ?_⟩
  refine ⟨{ (calcularSolucionOptima (conDatos 7 5 restriccionesFlair {})).1 with
      restricciones := [], restriccionesIngresadas := false }, by decide!, rfl, ?_, rfl, ?_⟩
  · decide!
  · decide!

/-- C22 (constraint-set invariant). In every session state reachable from the constructor
through `ingresarPrecios`, `ingresarRestricciones` and `calcularSolucionOptima` with
arbitrary inputs, every stored constraint passes `validarRestriccion`: it has
`coeficienteX1 ≠ 0` or `coeficienteX2 ≠ 0`, and its operator is `<=`, `>=` or `=`. -/
theorem restricciones_almacenadas_validas (s : SistemaOptimizacion) (h : Alcanzable s) :
    ∀ r ∈ s.restricciones,
      validarRestriccion r = true ∧
      (r.coeficienteX1 ≠ 0 ∨ r.coeficienteX2 ≠ 0) ∧
      (r.operador = "<=" ∨ r.operador = ">=" ∨ r.operador = "=") := by
  have hval : ∀ r ∈ s.restricciones, validarRestriccion r = true := by
    induction h with
    | inicial => intro r hr; simp [inicial] at hr
    | precios s pm ps _ ih =>
      have hmismas : (s.ingresarPrecios pm ps).restricciones = s.restricciones := by
        unfold ingresarPrecios
        split_ifs <;> rfl
      rw [hmismas]
      exact ih
    | restricciones s t opcion num entradas _ hpaso _ =>
      exact ingresarRestricciones_validas s t opcion num entradas hpaso
    | calcular s _ ih =>
      have hmismas : s.calcularSolucionOptima.1.restricciones = s.restricciones := by
        unfold calcularSolucionOptima
        split_ifs <;> rfl
      rw [hmismas]
      exact ih
  intro r hr
  exact ⟨hval r hr, (validarRestriccion_iff r).mp (hval r hr)⟩

/-- Witness for C22: the reachable session with the Flair Furniture constraints, at its
stored constraint `4x1+3x2<=240`. -/
theorem restricciones_almacenadas_validas_witness :
    validarRestriccion (Restriccion.mk 4 3 240 "<=") = true ∧
    ((Restriccion.mk 4 3 240 "<=").coeficienteX1 ≠ 0 ∨
      (Restriccion.mk 4 3 240 "<=").coeficienteX2 ≠ 0) ∧
    ((Restriccion.mk 4 3 240 "<=").operador = "<=" ∨
      (Restriccion.mk 4 3 240 "<=").operador = ">=" ∨
      (Restriccion.mk 4 3 240 "<=").operador = "=") :=
  restricciones_almacenadas_validas (conDatos 7 5 restriccionesFlair {})
    alcanzable_conDatos_flair (Restriccion.mk 4 3 240 "<=") (by decide)

/-- C28 (the candidate list is never empty). For every session, the empty constraint list
included, `encontrarPuntosInterseccion` returns at least one point, so the test
`puntosInterseccion.empty()` of `calcularSolucionOptima` is never true and no run ends in
the error branch. -/
theorem candidatos_nunca_vacios (s : SistemaOptimizacion) :
    s.encontrarPuntosInterseccion ≠ [] ∧
    1 ≤ s.encontrarPuntosInterseccion.length ∧
    s.encontrarPuntosInterseccion.isEmpty = false ∧
    puntosInterseccionDe [] = [(0, 0)] ∧
    ∀ mensaje : String, s.calcularSolucionOptima.2 ≠ Desenlace.errorCalculo mensaje := by
  have hne : s.encontrarPuntosInterseccion ≠ [] := puntosInterseccionDe_ne_nil s.restricciones
  refine ⟨hne, ?_, ?_, by decide!, ?_⟩
  · exact Nat.succ_le_of_lt (List.length_pos.mpr hne)
  · cases hl : s.encontrarPuntosInterseccion with
    | nil => exact absurd hl hne
    | cons a resto => rfl
  · intro mensaje
    by_cases hprevios : s.verificarDatosPrevios = true
    · rw [calcularSolucionOptima_con_datos s hprevios]
      intro h
      cases h
    · have hsin : s.calcularSolucionOptima = (s, Desenlace.datosFaltantes) := by
        unfold calcularSolucionOptima
        simp [hprevios]
      rw [hsin]
      intro h
      cases h

/-! ## Constraints with operator `>=` -/

theorem interseccionPar_mayorIgual_izquierda (ri rj : Restriccion)
    (h : ri.operador = ">=") : interseccionPar ri rj = [] := by
  have h1 : ¬ (ri.operador = "<=" ∨ ri.operador = "=") := by
    rw [h]
    decide
  unfold interseccionPar
  rw [if_neg h1]

theorem interseccionPar_mayorIgual_derecha (ri rj : Restriccion)
    (h : rj.operador = ">=") : interseccionPar ri rj = [] := by
  have h1 : ¬ (rj.operador = "<=" ∨ rj.operador = "=") := by
    rw [h]
    decide
  unfold interseccionPar
  rw [if_neg h1]
  simp

theorem interseccionesEjes_mayorIgual (r : Restriccion) (h : r.operador = ">=") :
    interseccionesEjes r = [] := by
  have h1 : ¬ (r.operador = "<=" ∨ r.operador = "=") := by
    rw [h]
    decide
  unfold interseccionesEjes
  rw [if_neg h1]

theorem flatMap_filter_mayorIgual (f : Restriccion → List (ℚ × ℚ))
    (hf : ∀ r, r.operador = ">=" → f r = []) (l : List Restriccion) :
    (l.filter (fun r => decide (r.operador ≠ ">="))).flatMap f = l.flatMap f := by
  induction l with
  | nil => rfl
  | cons r resto ih =>
    by_cases h : r.operador = ">="
    · have hd : ¬ (decide (r.operador ≠ ">=") = true) := by simp [h]
      rw [List.filter_cons, if_neg hd, List.flatMap_cons, hf r h, ih]
      rfl
    · have hd : decide (r.operador ≠ ">=") = true := by simp [h]
      rw [List.filter_cons, if_pos hd, List.flatMap_cons, List.flatMap_cons, ih]

theorem interseccionesPares_filter_mayorIgual (l : List Restriccion) :
    interseccionesPares (l.filter (fun r => decide (r.operador ≠ ">="))) =
      interseccionesPares l := by
  induction l with
  | nil => rfl
  | cons r resto ih =>
    by_cases h : r.operador = ">="
    · have hd : ¬ (decide (r.operador ≠ ">=") = true) := by simp [h]
      have hvacio : resto.flatMap (interseccionPar r) = [] := by
        rw [List.flatMap_eq_nil_iff]
        intro rj _
        exact interseccionPar_mayorIgual_izquierda r rj h
      have hpaso : interseccionesPares (r :: resto) =
          resto.flatMap (interseccionPar r) ++ interseccionesPares resto := rfl
      rw [List.filter_cons, if_neg hd, ih, hpaso, hvacio]
      rfl
    · have hd : decide (r.operador ≠ ">=") = true := by simp [h]
      have hpaso : ∀ l : List Restriccion, interseccionesPares (r :: l) =
          l.flatMap (interseccionPar r) ++ interseccionesPares l := fun _ => rfl
      rw [List.filter_cons, if_pos hd, hpaso, hpaso, ih,
        flatMap_filter_mayorIgual (interseccionPar r)
          (fun rj hrj => interseccionPar_mayorIgual_derecha r rj hrj) resto]

/-- C29 (constraints with operator `>=` do not influence the candidates). For every
session, `encontrarPuntosInterseccion` returns the same list as on the session whose
constraint list has every constraint with operator `>=` removed: such a constraint pushes
no axis intercept and no pairwise intersection. -/
theorem encontrarPuntosInterseccion_sin_mayorIgual (s : SistemaOptimizacion) :
    (∀ ri rj : Restriccion, ri.operador = ">=" →
      interseccionesEjes ri = [] ∧ interseccionPar ri rj = [] ∧ interseccionPar rj ri = []) ∧
    s.encontrarPuntosInterseccion =
      encontrarPuntosInterseccion
        { s with restricciones :=
            s.restricciones.filter (fun r => decide (r.operador ≠ ">=")) } := by
  refine ⟨fun ri rj h => ⟨interseccionesEjes_mayorIgual ri h,
    interseccionPar_mayorIgual_izquierda ri rj h,
    interseccionPar_mayorIgual_derecha rj ri h⟩, ?_⟩
  unfold encontrarPuntosInterseccion puntosInterseccionDe puntosSinOrdenar
  simp only
  rw [interseccionesPares_filter_mayorIgual,
    flatMap_filter_mayorIgual interseccionesEjes interseccionesEjes_mayorIgual]

/-- Witness for C29: the Flair Furniture list, whose last two constraints have operator
`>=`; the first of them pushes no axis intercept. -/
theorem encontrarPuntosInterseccion_sin_mayorIgual_witness :
    interseccionesEjes (Restriccion.mk 1 0 0 ">=") = [] :=
  ((encontrarPuntosInterseccion_sin_mayorIgual (conDatos 7 5 restriccionesFlair {})).1
    (Restriccion.mk 1 0 0 ">=") (Restriccion.mk 0 1 0 ">=") rfl).1

/-! ## The bounding box of the plot -/

open VisualizadorGrafico

theorem foldl_maximo_generico (π : ℚ × ℚ → ℚ) (g : Restriccion → Prop) [DecidablePred g]
    (val : Restriccion → ℚ) (f : ℚ × ℚ → Restriccion → ℚ × ℚ)
    (hf : ∀ m r, π (f m r) = if g r then max (π m) (val r) else π m)
    (restricciones : List Restriccion) :
    ∀ m0 : ℚ × ℚ,
      π m0 ≤ π (restricciones.foldl f m0) ∧
      (∀ r ∈ restricciones, g r → val r ≤ π (restricciones.foldl f m0)) ∧
      (π (restricciones.foldl f m0) = π m0 ∨
        ∃ r ∈ restricciones, g r ∧ π (restricciones.foldl f m0) = val r) := by
  induction restricciones with
  | nil => intro m0; simp
  | cons r resto ih =>
    intro m0
    obtain ⟨hmono, hcota, hvalor⟩ := ih (f m0 r)
    have hpaso : π m0 ≤ π (f m0 r) := by
      rw [hf]
      split_ifs
      · exact le_max_left _ _
      · exact le_refl _
    simp only [List.foldl_cons]
    refine ⟨le_trans hpaso hmono, ?_, ?_⟩
    · intro q hq hg
      rcases List.mem_cons.mp hq with rfl | hq
      · refine le_trans ?_ hmono
        rw [hf, if_pos hg]
        exact le_max_right _ _
      · exact hcota q hq hg
    · rcases hvalor with h | ⟨q, hq, hg, h⟩
      · by_cases hg : g r
        · rw [hf, if_pos hg] at h
          rcases max_choice (π m0) (val r) with hm | hm
          · left
            rw [h, hm]
          · right
            exact ⟨r, List.mem_cons_self _ _, hg, by rw [h, hm]⟩
        · left
          rw [hf, if_neg hg] at h
          exact h
      · right
        exact ⟨q, List.mem_cons_of_mem _ hq, hg, h⟩

theorem pasoEscala_x (m : ℚ × ℚ) (r : Restriccion) :
    (pasoEscala m r).1 =
      if (r.operador = "<=" ∨ r.operador = "=") ∧ r.coeficienteX1 > 0 then
        max m.1 (r.valorConstante / r.coeficienteX1) else m.1 := by
  by_cases hop : r.operador = "<=" ∨ r.operador = "="
  · by_cases ha : r.coeficienteX1 > 0
    · simp only [pasoEscala, if_pos hop, if_pos ha, if_pos (And.intro hop ha)]
    · simp only [pasoEscala, if_pos hop, if_neg ha,
        if_neg (fun hc : (r.operador = "<=" ∨ r.operador = "=") ∧ r.coeficienteX1 > 0 => ha hc.2)]
  · simp only [pasoEscala, if_neg hop,
      if_neg (fun hc : (r.operador = "<=" ∨ r.operador = "=") ∧ r.coeficienteX1 > 0 => hop hc.1)]

theorem pasoEscala_y (m : ℚ × ℚ) (r : Restriccion) :
    (pasoEscala m r).2 =
      if (r.operador = "<=" ∨ r.operador = "=") ∧ r.coeficienteX2 > 0 then
        max m.2 (r.valorConstante / r.coeficienteX2) else m.2 := by
  by_cases hop : r.operador = "<=" ∨ r.operador = "="
  · by_cases hb : r.coeficienteX2 > 0
    · simp only [pasoEscala, if_pos hop, if_pos hb, if_pos (And.intro hop hb)]
    · simp only [pasoEscala, if_pos hop, if_neg hb,
        if_neg (fun hc : (r.operador = "<=" ∨ r.operador = "=") ∧ r.coeficienteX2 > 0 => hb hc.2)]
  · simp only [pasoEscala, if_neg hop,
      if_neg (fun hc : (r.operador = "<=" ∨ r.operador = "=") ∧ r.coeficienteX2 > 0 => hop hc.1)]

theorem escalaSinRedondear_minimo (restricciones : List Restriccion)
    (solucion : SolucionOptima) :
    10 ≤ (escalaSinRedondear restricciones solucion).1 ∧
    10 ≤ (escalaSinRedondear restricciones solucion).2 := by
  unfold escalaSinRedondear
  exact ⟨le_max_right _ _, le_max_right _ _⟩

theorem techo_por_diez (valor : ℚ) :
    valor ≤ (Int.ceil (valor / 10) : ℚ) * 10 ∧
    ∀ k : ℤ, valor ≤ 10 * (k : ℚ) → (Int.ceil (valor / 10) : ℚ) * 10 ≤ 10 * (k : ℚ) := by
  constructor
  · have h := Int.le_ceil (valor / 10)
    linarith
  · intro k hk
    have h1 : valor / 10 ≤ (k : ℚ) := by linarith
    have h2 : Int.ceil (valor / 10) ≤ k := Int.ceil_le.mpr h1
    have h3 : (Int.ceil (valor / 10) : ℚ) ≤ (k : ℚ) := by exact_mod_cast h2
    linarith

theorem componente_caracterizada (restricciones : List Restriccion)
    (g : Restriccion → Prop) (val : Restriccion → ℚ) (m optimo : ℚ) (encontrada : Bool)
    (hcota : ∀ r ∈ restricciones, g r → val r ≤ m)
    (hvalor : m = 0 ∨ ∃ r ∈ restricciones, g r ∧ m = val r) :
    10 ≤ max (if encontrada = true then max m (optimo * 1.2) else m) 10 ∧
    (∀ r ∈ restricciones, g r →
      val r ≤ max (if encontrada = true then max m (optimo * 1.2) else m) 10) ∧
    (encontrada = true →
      optimo * 1.2 ≤ max (if encontrada = true then max m (optimo * 1.2) else m) 10) ∧
    (max (if encontrada = true then max m (optimo * 1.2) else m) 10 = 10 ∨
      (∃ r ∈ restricciones, g r ∧
        max (if encontrada = true then max m (optimo * 1.2) else m) 10 = val r) ∨
      (encontrada = true ∧
        max (if encontrada = true then max m (optimo * 1.2) else m) 10 = optimo * 1.2)) := by
  have hm : m ≤ (if encontrada = true then max m (optimo * 1.2) else m) := by
    split_ifs
    · exact le_max_left _ _
    · exact le_refl _
  refine ⟨le_max_right _ _, ?_, ?_, ?_⟩
  · intro r hr hg
    exact le_trans (hcota r hr hg) (le_trans hm (le_max_left _ _))
  · intro he
    rw [if_pos he]
    exact le_trans (le_max_right _ _) (le_max_left _ _)
  · rcases max_choice (if encontrada = true then max m (optimo * 1.2) else m) 10 with h | h
    · have hdiez : (10 : ℚ) ≤ (if encontrada = true then max m (optimo * 1.2) else m) := by
        rw [← h]
        exact le_max_right _ _
      have hde_m : (if encontrada = true then max m (optimo * 1.2) else m) = m →
          max (if encontrada = true then max m (optimo * 1.2) else m) 10 = 10 ∨
          (∃ r ∈ restricciones, g r ∧
            max (if encontrada = true then max m (optimo * 1.2) else m) 10 = val r) ∨
          (encontrada = true ∧
            max (if encontrada = true then max m (optimo * 1.2) else m) 10 =
              optimo * 1.2) := by
        intro hig
        rcases hvalor with h0 | ⟨r, hr, hg, hmr⟩
        · exfalso
          rw [hig, h0] at hdiez
          norm_num at hdiez
        · right
          left
          exact ⟨r, hr, hg, by rw [h, hig, hmr]⟩
      by_cases he : encontrada = true
      · rcases max_choice m (optimo * 1.2) with hc | hc
        · apply hde_m
          rw [if_pos he, hc]
        · right
          right
          exact ⟨he, by rw [h, if_pos he, hc]⟩
      · apply hde_m
        rw [if_neg he]
    · left
      exact h

theorem escalaSinRedondear_x (restricciones : List Restriccion) (solucion : SolucionOptima) :
    (escalaSinRedondear restricciones solucion).1 =
      max (if solucion.solucionEncontrada = true then
            max (restricciones.foldl pasoEscala (0, 0)).1 (solucion.x1 * 1.2)
          else (restricciones.foldl pasoEscala (0, 0)).1) 10 := by
  unfold escalaSinRedondear
  by_cases h : solucion.solucionEncontrada = true
  · simp only [if_pos h]
  · simp only [if_neg h]

theorem escalaSinRedondear_y (restricciones : List Restriccion) (solucion : SolucionOptima) :
    (escalaSinRedondear restricciones solucion).2 =
      max (if solucion.solucionEncontrada = true then
            max (restricciones.foldl pasoEscala (0, 0)).2 (solucion.x2 * 1.2)
          else (restricciones.foldl pasoEscala (0, 0)).2) 10 := by
  unfold escalaSinRedondear
  by_cases h : solucion.solucionEncontrada = true
  · simp only [if_pos h]
  · simp only [if_neg h]

/-- Counterexample to C24 as stated: for the solved Flair Furniture session, the largest
x1 intercept is `240/4 = 60` (the others are `100/2 = 50` and the optimum `30`), so the
claim asks for `maxX ≥ 1.2 * 60 = 72`, that is `maxX = 80`; `configurarEscala` gives
`maxX = 60`. -/
theorem configurarEscala_margen_contraejemplo :
    (deSesion (calcularSolucionOptima (conDatos 7 5 restriccionesFlair {})).1).maxX = 60 ∧
    ¬ (max 10 (1.2 * max (max (240 / 4) (100 / 2)) 30) ≤
        (deSesion (calcularSolucionOptima (conDatos 7 5 restriccionesFlair {})).1).maxX) := by
  refine ⟨by decide!, by decide!⟩

/-! ## Lines and vertices of the plot -/

/-- Counterexample to C25 as stated: in the box of the solved Flair Furniture session
(`maxX = 60`, `maxY = 100`) the horizontal line `x2 <= 60` gives three points, the
intercept `(0, 60)`, the extended point `(60, 60)` and the intercept again, not the two
points `[(0, 60), (60, 60)]`. -/
theorem calcularPuntosRecta_horizontal_contraejemplo :
    (deSesion (calcularSolucionOptima (conDatos 7 5 restriccionesFlair {})).1).maxX = 60 ∧
    (deSesion (calcularSolucionOptima (conDatos 7 5 restriccionesFlair {})).1).maxY = 100 ∧
    (deSesion (calcularSolucionOptima (conDatos 7 5 restriccionesFlair {})).1).calcularPuntosRecta
        (Restriccion.mk 0 1 60 "<=") 0 60 =
      [PuntoGrafico.mk 0 60, PuntoGrafico.mk 60 60, PuntoGrafico.mk 0 60] ∧
    ¬ ((deSesion (calcularSolucionOptima
          (conDatos 7 5 restriccionesFlair {})).1).calcularPuntosRecta
        (Restriccion.mk 0 1 60 "<=") 0
        (deSesion (calcularSolucionOptima (conDatos 7 5 restriccionesFlair {})).1).maxX =
      [PuntoGrafico.mk 0 (60 / 1),
       PuntoGrafico.mk
        (deSesion (calcularSolucionOptima (conDatos 7 5 restriccionesFlair {})).1).maxX
        (60 / 1)]) := by
  refine ⟨by decide!, by decide!, by decide!, by decide!⟩

/-- C25 as amended (axis-aligned lines in `calcularPuntosRecta(r, 0, maxX)`). For a
vertical line (`b = 0`, `a ≠ 0`) with `0 ≤ c/a ≤ maxX` the result is exactly the two points
`[(c/a, 0), (c/a, maxY)]`. For a horizontal line (`a = 0`, `b ≠ 0`) with `0 ≤ c/b ≤ maxY`
the result is the three points `[(0, c/b), (maxX, c/b), (0, c/b)]`: the intercept, the
extended point at the axis maximum, and the intercept once more. -/
theorem calcularPuntosRecta_ejes (v : VisualizadorGrafico) (r : Restriccion) :
    (r.coeficienteX2 = 0 → r.coeficienteX1 ≠ 0 →
      0 ≤ r.valorConstante / r.coeficienteX1 → r.valorConstante / r.coeficienteX1 ≤ v.maxX →
      v.calcularPuntosRecta r 0 v.maxX =
        [PuntoGrafico.mk (r.valorConstante / r.coeficienteX1) 0,
         PuntoGrafico.mk (r.valorConstante / r.coeficienteX1) v.maxY]) ∧
    (r.coeficienteX1 = 0 → r.coeficienteX2 ≠ 0 →
      0 ≤ r.valorConstante / r.coeficienteX2 → r.valorConstante / r.coeficienteX2 ≤ v.maxY →
      v.calcularPuntosRecta r 0 v.maxX =
        [PuntoGrafico.mk 0 (r.valorConstante / r.coeficienteX2),
         PuntoGrafico.mk v.maxX (r.valorConstante / r.coeficienteX2),
         PuntoGrafico.mk 0 (r.valorConstante / r.coeficienteX2)]) := by
  constructor
  · intro hb ha h0 h1
    unfold calcularPuntosRecta
    have hnb : ¬ r.coeficienteX2 ≠ 0 := not_not.mpr hb
    rw [if_neg hnb, if_pos ha, if_pos ⟨h0, h1⟩]
  · intro ha hb h0 h1
    unfold calcularPuntosRecta
    have hna : ¬ r.coeficienteX1 ≠ 0 := not_not.mpr ha
    have hnum : ∀ x : ℚ, (r.valorConstante - r.coeficienteX1 * x) / r.coeficienteX2 =
        r.valorConstante / r.coeficienteX2 := by
      intro x
      rw [ha, zero_mul, sub_zero]
    rw [if_pos hb, hnum, hnum]
    simp only [if_pos (And.intro h0 h1), if_neg hna]
    rfl

/-- Witness for C25 as amended: the lines `x1 <= 40` (vertical) and `x2 <= 60`
(horizontal) in the box of the solved Flair Furniture session. -/
theorem calcularPuntosRecta_ejes_witness :
    (deSesion (calcularSolucionOptima (conDatos 7 5 restriccionesFlair {})).1).calcularPuntosRecta
        (Restriccion.mk 1 0 40 "<=") 0
        (deSesion (calcularSolucionOptima (conDatos 7 5 restriccionesFlair {})).1).maxX =
      [PuntoGrafico.mk ((Restriccion.mk 1 0 40 "<=").valorConstante /
          (Restriccion.mk 1 0 40 "<=").coeficienteX1) 0,
       PuntoGrafico.mk ((Restriccion.mk 1 0 40 "<=").valorConstante /
          (Restriccion.mk 1 0 40 "<=").coeficienteX1)
        (deSesion (calcularSolucionOptima (conDatos 7 5 restriccionesFlair {})).1).maxY] ∧
    (deSesion (calcularSolucionOptima (conDatos 7 5 restriccionesFlair {})).1).calcularPuntosRecta
        (Restriccion.mk 0 1 60 "<=") 0
        (deSesion (calcularSolucionOptima (conDatos 7 5 restriccionesFlair {})).1).maxX =
      [PuntoGrafico.mk 0 ((Restriccion.mk 0 1 60 "<=").valorConstante /
          (Restriccion.mk 0 1 60 "<=").coeficienteX2),
       PuntoGrafico.mk
        (deSesion (calcularSolucionOptima (conDatos 7 5 restriccionesFlair {})).1).maxX
        ((Restriccion.mk 0 1 60 "<=").valorConstante /
          (Restriccion.mk 0 1 60 "<=").coeficienteX2),
       PuntoGrafico.mk 0 ((Restriccion.mk 0 1 60 "<=").valorConstante /
          (Restriccion.mk 0 1 60 "<=").coeficienteX2)] :=
  ⟨(calcularPuntosRecta_ejes
      (deSesion (calcularSolucionOptima (conDatos 7 5 restriccionesFlair {})).1)
      (Restriccion.mk 1 0 40 "<=")).1 rfl (by decide!) (by decide!) (by decide!),
   (calcularPuntosRecta_ejes
      (deSesion (calcularSolucionOptima (conDatos 7 5 restriccionesFlair {})).1)
      (Restriccion.mk 0 1 60 "<=")).2 rfl (by decide!) (by decide!) (by decide!)⟩

/-- C26 (rendering vertices are feasible), evaluated on `[x1+x2<=10, x2>=5]` solved with
prices `(1, 1)`: both constraints pass `validarRestriccion`, the box is `10 × 20`, and
`encontrarVerticesAreaFactible` returns `[(0, 10), (10, 0)]`, whose vertex `(10, 0)` fails
the test of `puntoEsFactible` (it violates `x2 >= 5`). The feasibility loop of the axis
intercepts only looks at `<=` constraints. -/
theorem vertice_de_eje_no_factible :
    (∀ r ∈ restriccionesMinimoSillas, validarRestriccion r = true) ∧
    (deSesion (calcularSolucionOptima (conDatos 1 1 restriccionesMinimoSillas {})).1).maxX
      = 10 ∧
    (deSesion (calcularSolucionOptima (conDatos 1 1 restriccionesMinimoSillas {})).1).maxY
      = 20 ∧
    (deSesion (calcularSolucionOptima
        (conDatos 1 1 restriccionesMinimoSillas {})).1).encontrarVerticesAreaFactible
      restriccionesMinimoSillas = [PuntoGrafico.mk 0 10, PuntoGrafico.mk 10 0] ∧
    ∃ p ∈ (deSesion (calcularSolucionOptima
        (conDatos 1 1 restriccionesMinimoSillas {})).1).encontrarVerticesAreaFactible
          restriccionesMinimoSillas,
      (conDatos 1 1 restriccionesMinimoSillas {}).puntoEsFactible p.x p.y = false := by
  refine ⟨by decide!, by decide!, by decide!, by decide!, PuntoGrafico.mk 10 0, by decide!,
    by decide!⟩

/-! ## The order of the rendered vertices -/

theorem noDespues_iff (a b : PuntoGrafico) :
    noDespues a b ↔
      (|a.x - b.x| < 1e-6 ∧ a.y ≤ b.y) ∨ (¬ |a.x - b.x| < 1e-6 ∧ a.x ≤ b.x) := by
  unfold noDespues compararVertices
  rw [abs_sub_comm b.x a.x]
  by_cases h : |a.x - b.x| < 1e-6
  · rw [if_pos h, decide_eq_false_iff_not, not_lt]
    constructor
    · intro hy
      exact Or.inl ⟨h, hy⟩
    · rintro (⟨_, hy⟩ | ⟨hn, _⟩)
      · exact hy
      · exact absurd h hn
  · rw [if_neg h, decide_eq_false_iff_not, not_lt]
    constructor
    · intro hx
      exact Or.inr ⟨h, hx⟩
    · rintro (⟨hn, _⟩ | ⟨_, hx⟩)
      · exact absurd hn h
      · exact hx

theorem noDespues_total (a b : PuntoGrafico) : noDespues a b ∨ noDespues b a := by
  rw [noDespues_iff, noDespues_iff, abs_sub_comm b.x a.x]
  by_cases h : |a.x - b.x| < 1e-6
  · rcases le_total a.y b.y with hy | hy
    · exact Or.inl (Or.inl ⟨h, hy⟩)
    · exact Or.inr (Or.inl ⟨h, hy⟩)
  · rcases le_total a.x b.x with hx | hx
    · exact Or.inl (Or.inr ⟨h, hx⟩)
    · exact Or.inr (Or.inr ⟨h, hx⟩)

theorem noDespues_trans_en_clases (a b c : PuntoGrafico)
    (hclases : ∀ p q r : PuntoGrafico, (p = a ∨ p = b ∨ p = c) → (q = a ∨ q = b ∨ q = c) →
      (r = a ∨ r = b ∨ r = c) →
      |p.x - q.x| < 1e-6 → |q.x - r.x| < 1e-6 → |p.x - r.x| < 1e-6)
    (hab : noDespues a b) (hbc : noDespues b c) : noDespues a c := by
  rw [noDespues_iff] at hab hbc ⊢
  have hA : a = a ∨ a = b ∨ a = c := Or.inl rfl
  have hB : b = a ∨ b = b ∨ b = c := Or.inr (Or.inl rfl)
  have hC : c = a ∨ c = b ∨ c = c := Or.inr (Or.inr rfl)
  rcases hab with ⟨nab, yab⟩ | ⟨fab, xab⟩
  · rcases hbc with ⟨nbc, ybc⟩ | ⟨fbc, xbc⟩
    · exact Or.inl ⟨hclases a b c hA hB hC nab nbc, le_trans yab ybc⟩
    · right
      have hfac : ¬ |a.x - c.x| < 1e-6 := by
        intro nac
        have nba : |b.x - a.x| < 1e-6 := by rw [abs_sub_comm]; exact nab
        exact fbc (hclases b a c hB hA hC nba nac)
      refine ⟨hfac, ?_⟩
      have h1 := abs_lt.mp nab
      have h2 : (1e-6 : ℚ) ≤ c.x - b.x := by
        have := not_lt.mp fbc
        rw [abs_sub_comm, abs_of_nonneg (by linarith)] at this
        exact this
      linarith [h1.2]
  · rcases hbc with ⟨nbc, ybc⟩ | ⟨fbc, xbc⟩
    · right
      have hfac : ¬ |a.x - c.x| < 1e-6 := by
        intro nac
        have ncb : |c.x - b.x| < 1e-6 := by rw [abs_sub_comm]; exact nbc
        exact fab (hclases a c b hA hC hB nac ncb)
      refine ⟨hfac, ?_⟩
      have h1 := abs_lt.mp nbc
      have h2 : (1e-6 : ℚ) ≤ b.x - a.x := by
        have := not_lt.mp fab
        rw [abs_sub_comm, abs_of_nonneg (by linarith)] at this
        exact this
      linarith [h1.1]
    · right
      have h2 : (1e-6 : ℚ) ≤ b.x - a.x := by
        have := not_lt.mp fab
        rw [abs_sub_comm, abs_of_nonneg (by linarith)] at this
        exact this
      have h3 : (1e-6 : ℚ) ≤ c.x - b.x := by
        have := not_lt.mp fbc
        rw [abs_sub_comm, abs_of_nonneg (by linarith)] at this
        exact this
      refine ⟨?_, by linarith⟩
      intro nac
      have := abs_lt.mp nac
      linarith [this.1]

theorem orderedInsert_pairwise_local {α : Type} (r : α → α → Prop) [DecidableRel r]
    (a : α) (l : List α)
    (htotal : ∀ x y : α, r x y ∨ r y x)
    (htrans : ∀ x ∈ a :: l, ∀ y ∈ a :: l, ∀ z ∈ a :: l, r x y → r y z → r x z)
    (hl : l.Pairwise r) : (l.orderedInsert r a).Pairwise r := by
  induction l with
  | nil => simp
  | cons b resto ih =>
    obtain ⟨hb, hresto⟩ := List.pairwise_cons.mp hl
    have ha_mem : a ∈ a :: b :: resto := List.mem_cons_self _ _
    have hb_mem : b ∈ a :: b :: resto := List.mem_cons_of_mem _ (List.mem_cons_self _ _)
    by_cases hab : r a b
    · rw [List.orderedInsert, if_pos hab]
      refine List.pairwise_cons.mpr ⟨?_, hl⟩
      intro x hx
      rcases List.mem_cons.mp hx with rfl | hx
      · exact hab
      · exact htrans a ha_mem b hb_mem x
          (List.mem_cons_of_mem _ (List.mem_cons_of_mem _ hx)) hab (hb x hx)
    · rw [List.orderedInsert, if_neg hab]
      have hba : r b a := (htotal a b).resolve_left hab
      have hrec : (List.orderedInsert r a resto).Pairwise r := by
        apply ih _ hresto
        intro x hx y hy z hz
        have sube : ∀ w ∈ a :: resto, w ∈ a :: b :: resto := by
          intro w hw
          rcases List.mem_cons.mp hw with rfl | hw
          · exact List.mem_cons_self _ _
          · exact List.mem_cons_of_mem _ (List.mem_cons_of_mem _ hw)
        exact htrans x (sube x hx) y (sube y hy) z (sube z hz)
      refine List.pairwise_cons.mpr ⟨?_, hrec⟩
      intro x hx
      rcases (List.mem_orderedInsert r).mp hx with rfl | hx
      · exact hba
      · exact hb x hx

theorem insertionSort_pairwise_local {α : Type} (r : α → α → Prop) [DecidableRel r]
    (l : List α) (htotal : ∀ x y : α, r x y ∨ r y x)
    (htrans : ∀ x ∈ l, ∀ y ∈ l, ∀ z ∈ l, r x y → r y z → r x z) :
    (l.insertionSort r).Pairwise r := by
  induction l with
  | nil => simp
  | cons a resto ih =>
    rw [List.insertionSort]
    have hresto : (resto.insertionSort r).Pairwise r := by
      apply ih
      intro x hx y hy z hz
      exact htrans x (List.mem_cons_of_mem _ hx) y (List.mem_cons_of_mem _ hy) z
        (List.mem_cons_of_mem _ hz)
    apply orderedInsert_pairwise_local r a _ htotal _ hresto
    intro x hx y hy z hz
    have sube : ∀ w ∈ a :: resto.insertionSort r, w ∈ a :: resto := by
      intro w hw
      rcases List.mem_cons.mp hw with rfl | hw
      · exact List.mem_cons_self _ _
      · exact List.mem_cons_of_mem _ ((List.mem_insertionSort r).mp hw)
    exact htrans x (sube x hx) y (sube y hy) z (sube z hz)

theorem uniqueDesde_sublist {α : Type} (pred : α → α → Bool) (l : List α) :
    ∀ ultimo : α, (uniqueDesde pred ultimo l).Sublist l := by
  induction l with
  | nil => intro ultimo; exact List.Sublist.refl _
  | cons y ys ih =>
    intro ultimo
    unfold uniqueDesde
    split_ifs
    · exact List.Sublist.cons _ (ih ultimo)
    · exact List.Sublist.cons₂ _ (ih y)

theorem unique_sublist {α : Type} (pred : α → α → Bool) (l : List α) :
    (unique pred l).Sublist l := by
  cases l with
  | nil => exact List.Sublist.refl _
  | cons x xs =>
    unfold unique
    exact List.Sublist.cons₂ _ (uniqueDesde_sublist pred xs x)

/-- Counterexample to C27 as stated: for `[2^21*x1 + x2 <= 1, -2^21*x1 - x2 <= -1/2]`
(solved with prices `(1, 1)`, box `10 × 10`) the vertex list returned is
`[(2^-21, 0), (0, 1)]`: the first `x` is larger than the second, because the comparator
takes `x` coordinates less than `1e-6` apart as equal and orders by `y`. -/
theorem vertices_orden_contraejemplo :
    (deSesion (calcularSolucionOptima
        (conDatos 1 1 restriccionesBandaEstrecha {})).1).encontrarVerticesAreaFactible
      restriccionesBandaEstrecha = [PuntoGrafico.mk (1 / 2097152) 0, PuntoGrafico.mk 0 1] ∧
    ¬ ((deSesion (calcularSolucionOptima
        (conDatos 1 1 restriccionesBandaEstrecha {})).1).encontrarVerticesAreaFactible
      restriccionesBandaEstrecha).Chain'
        (fun p q => p.x < q.x ∨ (p.x = q.x ∧ p.y ≤ q.y)) := by
  have hlista : (deSesion (calcularSolucionOptima
        (conDatos 1 1 restriccionesBandaEstrecha {})).1).encontrarVerticesAreaFactible
      restriccionesBandaEstrecha = [PuntoGrafico.mk (1 / 2097152) 0, PuntoGrafico.mk 0 1] := by
    decide!
  refine ⟨hlista, ?_⟩
  rw [hlista]
  intro h
  have h2 := (List.chain'_cons.mp h).1
  simp only at h2
  norm_num at h2

/-- C27 as amended (ordered boundary up to the tolerance). For every visualiser and
constraint list such that, among the candidate vertices collected before the sort,
"the `x` coordinates differ by less than `1e-6`" is transitive (the `x` coordinates fall
into separated groups), the vertex list returned by `encontrarVerticesAreaFactible` is
sorted by `x` then `y` up to that tolerance: for consecutive vertices `p`, `q` either
`p.x + 1e-6 ≤ q.x`, or `|p.x - q.x| < 1e-6` and `p.y ≤ q.y`. -/
theorem vertices_orden_con_tolerancia (v : VisualizadorGrafico)
    (restricciones : List Restriccion)
    (hclases : ∀ a ∈ v.verticesSinOrdenar restricciones,
      ∀ b ∈ v.verticesSinOrdenar restricciones,
      ∀ c ∈ v.verticesSinOrdenar restricciones,
        |a.x - b.x| < 1e-6 → |b.x - c.x| < 1e-6 → |a.x - c.x| < 1e-6) :
    (v.encontrarVerticesAreaFactible restricciones).Chain'
      (fun p q => p.x + 1e-6 ≤ q.x ∨ (|p.x - q.x| < 1e-6 ∧ p.y ≤ q.y)) := by
  have hsorted : (ordenarVertices (v.verticesSinOrdenar restricciones)).Pairwise noDespues := by
    unfold ordenarVertices
    apply insertionSort_pairwise_local noDespues _ noDespues_total
    intro a ha b hb c hc hab hbc
    apply noDespues_trans_en_clases a b c _ hab hbc
    intro p q r hp hq hr
    have en : ∀ w : PuntoGrafico, (w = a ∨ w = b ∨ w = c) →
        w ∈ v.verticesSinOrdenar restricciones := by
      intro w hw
      rcases hw with rfl | rfl | rfl
      · exact ha
      · exact hb
      · exact hc
    exact hclases p (en p hp) q (en q hq) r (en r hr)
  have hres : (v.encontrarVerticesAreaFactible restricciones).Pairwise noDespues :=
    List.Pairwise.sublist (unique_sublist verticesCercanos _) hsorted
  have hfinal : (v.encontrarVerticesAreaFactible restricciones).Pairwise
      (fun p q => p.x + 1e-6 ≤ q.x ∨ (|p.x - q.x| < 1e-6 ∧ p.y ≤ q.y)) := by
    refine List.Pairwise.imp ?_ hres
    intro p q hpq
    rcases (noDespues_iff p q).mp hpq with ⟨hn, hy⟩ | ⟨hf, hx⟩
    · exact Or.inr ⟨hn, hy⟩
    · left
      have := not_lt.mp hf
      rw [abs_sub_comm, abs_of_nonneg (by linarith)] at this
      linarith
  exact List.Pairwise.chain' hfinal

/-- Witness for C27 as amended: the solved Flair Furniture session, whose candidate
vertices have `x` coordinates `0`, `15`, `30` and `50`. -/
theorem vertices_orden_con_tolerancia_witness :
    ((deSesion (calcularSolucionOptima
        (conDatos 7 5 restriccionesFlair {})).1).encontrarVerticesAreaFactible
      restriccionesFlair).Chain'
      (fun p q => p.x + 1e-6 ≤ q.x ∨ (|p.x - q.x| < 1e-6 ∧ p.y ≤ q.y)) :=
  vertices_orden_con_tolerancia
    (deSesion (calcularSolucionOptima (conDatos 7 5 restriccionesFlair {})).1)
    restriccionesFlair (by decide!)

/-- C30 (the comparator of the vertex sort), evaluated on the corners of
`[3*2^20*x1 + 2*x2 <= 6, 2^20*x1 + 2*x2 <= 4]`: both constraints pass `validarRestriccion`
and the candidate vertices are `(0,0)`, `b = (2^-20, 3/2)`, `a = (2^-19, 0)`, `c = (0, 2)`.
The comparator is irreflexive, but it puts `a` before `b` and `b` before `c` and not `a`
before `c` (it puts `c` before `a`): it is not transitive. Its incomparability is not
transitive either: `(0,0)` and `(2^-20, 0)` are incomparable, `(2^-20, 0)` and `(2^-19, 0)`
are incomparable, and `(0,0)` comes before `(2^-19, 0)`. -/
theorem compararVertices_no_transitivo :
    (∀ r ∈ restriccionesTresEsquinas, validarRestriccion r = true) ∧
    (deSesion (calcularSolucionOptima
        (conDatos 1 1 restriccionesTresEsquinas {})).1).verticesSinOrdenar
      restriccionesTresEsquinas =
      [PuntoGrafico.mk 0 0, PuntoGrafico.mk (1 / 1048576) (3 / 2),
       PuntoGrafico.mk (1 / 524288) 0, PuntoGrafico.mk 0 2] ∧
    (∀ p : PuntoGrafico, compararVertices p p = false) ∧
    compararVertices (PuntoGrafico.mk (1 / 524288) 0) (PuntoGrafico.mk (1 / 1048576) (3 / 2))
      = true ∧
    compararVertices (PuntoGrafico.mk (1 / 1048576) (3 / 2)) (PuntoGrafico.mk 0 2) = true ∧
    compararVertices (PuntoGrafico.mk (1 / 524288) 0) (PuntoGrafico.mk 0 2) = false ∧
    compararVertices (PuntoGrafico.mk 0 2) (PuntoGrafico.mk (1 / 524288) 0) = true ∧
    (compararVertices (PuntoGrafico.mk 0 0) (PuntoGrafico.mk (1 / 1048576) 0) = false ∧
      compararVertices (PuntoGrafico.mk (1 / 1048576) 0) (PuntoGrafico.mk 0 0) = false ∧
      compararVertices (PuntoGrafico.mk (1 / 1048576) 0) (PuntoGrafico.mk (1 / 524288) 0)
        = false ∧
      compararVertices (PuntoGrafico.mk (1 / 524288) 0) (PuntoGrafico.mk (1 / 1048576) 0)
        = false ∧
      compararVertices (PuntoGrafico.mk 0 0) (PuntoGrafico.mk (1 / 524288) 0) = true) := by
  refine ⟨by decide!, by decide!, ?_, by decide!, by decide!, by decide!, by decide!,
    by decide!, by decide!, by decide!, by decide!, by decide!⟩
  intro p
  unfold compararVertices
  have hcerca : |p.x - p.x| < (1e-6 : ℚ) := by
    rw [sub_self, abs_zero]
    norm_num
  rw [if_pos hcerca]
  exact decide_eq_false (lt_irrefl _)

/-! ## Doubles with overflow: basic facts -/

theorem umbral_pos : (0 : ℚ) < Doble.umbral := by
  unfold Doble.umbral
  norm_num

theorem umbral_grande : (2 : ℚ) ^ 53 + 10 < Doble.umbral := by
  unfold Doble.umbral
  norm_num

theorem redondear_finito (q : ℚ) (h : |q| < Doble.umbral) :
    Doble.redondear q = Doble.finito q := by
  unfold Doble.redondear
  have h1 := abs_lt.mp h
  rw [if_neg (not_le.mpr h1.2), if_neg (not_le.mpr h1.1)]

theorem redondear_casos (q : ℚ) :
    (Doble.umbral ≤ q ∧ Doble.redondear q = Doble.masInf) ∨
    (q ≤ -Doble.umbral ∧ Doble.redondear q = Doble.menosInf) ∨
    (|q| < Doble.umbral ∧ Doble.redondear q = Doble.finito q) := by
  by_cases h1 : Doble.umbral ≤ q
  · left
    refine ⟨h1, ?_⟩
    unfold Doble.redondear
    rw [if_pos h1]
  · by_cases h2 : q ≤ -Doble.umbral
    · right
      left
      refine ⟨h2, ?_⟩
      unfold Doble.redondear
      rw [if_neg h1, if_pos h2]
    · right
      right
      have h : |q| < Doble.umbral := abs_lt.mpr ⟨not_le.mp h2, not_le.mp h1⟩
      exact ⟨h, redondear_finito q h⟩

theorem cociente_nan (x : Doble) : Doble.cociente x Doble.nan = Doble.nan := by
  cases x <;> rfl

theorem cociente_finitos (c a : ℚ) (ha : a ≠ 0) :
    Doble.cociente (Doble.finito c) (Doble.finito a) = Doble.redondear (c / a) := by
  simp only [Doble.cociente, if_neg ha]

/-! ## A constraint against itself, with overflow -/

/-- Counterexample to C18 as stated: the constraint `2^600*x1 + 2^600*x2 <= 1` has finite
coefficients and passes `validarRestriccion`, yet the product `a*b = 2^1200` overflows to
`+∞`, the determinant `∞ - ∞` is NaN, the test `abs(determinante) < 1e-10` fails and
`interseccionRectas(r, r)` returns `(NaN, NaN)`, not the pair `(-1e9, -1e9)`. -/
theorem interseccionRectas_consigo_contraejemplo :
    validarRestriccion restriccionCoeficientesEnormes = true ∧
    interseccionRectasD restriccionCoeficientesEnormes restriccionCoeficientesEnormes =
      (Doble.nan, Doble.nan) ∧
    ¬ (interseccionRectasD restriccionCoeficientesEnormes restriccionCoeficientesEnormes =
      (Doble.finito (-1e9), Doble.finito (-1e9))) := by
  refine ⟨by decide!, by decide!, by decide!⟩

/-- C18 as amended (a constraint against itself, overflow apart). For every constraint `r`
with finite coefficients `a`, `b` and any operator: when the product `a*b` does not overflow
(`|a*b|` is below the overflow threshold of a double), `interseccionRectas(r, r)` takes the
parallel branch and returns `(-1e9, -1e9)`; when `a*b` overflows, the determinant is NaN and
`interseccionRectas(r, r)` returns `(NaN, NaN)`. -/
theorem interseccionRectasD_consigo (r : Restriccion) :
    (|r.coeficienteX1 * r.coeficienteX2| < Doble.umbral →
      interseccionRectasD r r = (Doble.finito (-1e9), Doble.finito (-1e9))) ∧
    (Doble.umbral ≤ |r.coeficienteX1 * r.coeficienteX2| →
      interseccionRectasD r r = (Doble.nan, Doble.nan)) := by
  constructor
  · intro h
    have hcero : Doble.redondear (0 : ℚ) = Doble.finito 0 :=
      redondear_finito 0 (by rw [abs_zero]; exact umbral_pos)
    have hdet : Doble.menor
        (Doble.absoluto
          (Doble.resta
            (Doble.producto (Doble.finito r.coeficienteX1) (Doble.finito r.coeficienteX2))
            (Doble.producto (Doble.finito r.coeficienteX1) (Doble.finito r.coeficienteX2))))
        (Doble.finito 1e-10) = true := by
      simp only [Doble.producto]
      rw [redondear_finito _ h]
      simp only [Doble.resta, sub_self]
      rw [hcero]
      simp only [Doble.absoluto, Doble.menor, abs_zero, decide_eq_true_eq]
      norm_num
    unfold interseccionRectasD
    rw [if_pos hdet]
  · intro h
    have hdet : Doble.resta
        (Doble.producto (Doble.finito r.coeficienteX1) (Doble.finito r.coeficienteX2))
        (Doble.producto (Doble.finito r.coeficienteX1) (Doble.finito r.coeficienteX2)) =
          Doble.nan := by
      simp only [Doble.producto]
      rcases redondear_casos (r.coeficienteX1 * r.coeficienteX2) with ⟨_, h1⟩ | ⟨_, h1⟩ | ⟨h0, _⟩
      · rw [h1]
        rfl
      · rw [h1]
        rfl
      · exact absurd h0 (not_lt.mpr h)
    unfold interseccionRectasD
    rw [hdet]
    have hno : ¬ (Doble.menor (Doble.absoluto Doble.nan) (Doble.finito 1e-10) = true) := by
      simp [Doble.absoluto, Doble.menor]
    rw [if_neg hno, cociente_nan, cociente_nan]

/-- Witness for C18 as amended: the Flair Furniture constraint `4*x1 + 3*x2 <= 240`, whose
product `4*3 = 12` does not overflow. -/
theorem interseccionRectasD_consigo_witness :
    |(Restriccion.mk 4 3 240 "<=").coeficienteX1 * (Restriccion.mk 4 3 240 "<=").coeficienteX2| <
      Doble.umbral ∧
    interseccionRectasD (Restriccion.mk 4 3 240 "<=") (Restriccion.mk 4 3 240 "<=") =
      (Doble.finito (-1e9), Doble.finito (-1e9)) :=
  ⟨by decide!, (interseccionRectasD_consigo (Restriccion.mk 4 3 240 "<=")).1 (by decide!)⟩

/-! ## Order of the candidate list, with overflow -/

theorem noMayorParD_comoDobles (a b : ℚ × ℚ) :
    noMayorParD (comoDobles a) (comoDobles b) ↔ noMayorPar a b := by
  unfold noMayorParD menorParD comoDobles noMayorPar menorPar
  simp only [Doble.menor]
  by_cases h1 : b.1 < a.1
  · simp [h1]
  · by_cases h2 : a.1 < b.1
    · simp [h1, h2]
    · simp [h1, h2]

theorem cercania_finitos (x y : ℚ) :
    Doble.menor (Doble.absoluto (Doble.resta (Doble.finito x) (Doble.finito y)))
      (Doble.finito 1e-6) = decide (|x - y| < 1e-6) := by
  have hu : (1e-6 : ℚ) < Doble.umbral := lt_trans (by norm_num) umbral_grande
  simp only [Doble.resta]
  rcases redondear_casos (x - y) with ⟨h0, h1⟩ | ⟨h0, h1⟩ | ⟨_, h1⟩
  · rw [h1]
    have hno : ¬ |x - y| < 1e-6 := by
      intro hc
      have := (abs_lt.mp hc).2
      linarith
    simp only [Doble.absoluto, Doble.menor, hno, decide_False]
  · rw [h1]
    have hno : ¬ |x - y| < 1e-6 := by
      intro hc
      have := (abs_lt.mp hc).1
      linarith
    simp only [Doble.absoluto, Doble.menor, hno, decide_False]
  · rw [h1]
    simp only [Doble.absoluto, Doble.menor]

theorem puntosCercanosD_comoDobles (a b : ℚ × ℚ) :
    puntosCercanosD (comoDobles a) (comoDobles b) = puntosCercanos a b := by
  unfold puntosCercanosD comoDobles puntosCercanos
  rw [cercania_finitos, cercania_finitos, Bool.decide_and]

theorem orderedInsert_comoDobles (a : ℚ × ℚ) (l : List (ℚ × ℚ)) :
    List.orderedInsert noMayorParD (comoDobles a) (l.map comoDobles) =
      (List.orderedInsert noMayorPar a l).map comoDobles := by
  induction l with
  | nil => rfl
  | cons b resto ih =>
    simp only [List.map_cons, List.orderedInsert]
    by_cases h : noMayorPar a b
    · rw [if_pos h, if_pos ((noMayorParD_comoDobles a b).mpr h)]
      rfl
    · rw [if_neg h, if_neg (fun hc => h ((noMayorParD_comoDobles a b).mp hc)), ih]
      rfl

theorem ordenarPuntosD_comoDobles (l : List (ℚ × ℚ)) :
    ordenarPuntosD (l.map comoDobles) = (ordenarPuntos l).map comoDobles := by
  induction l with
  | nil => rfl
  | cons a resto ih =>
    unfold ordenarPuntosD ordenarPuntos at *
    simp only [List.map_cons, List.insertionSort]
    rw [ih, orderedInsert_comoDobles]

theorem uniqueDesde_map {α β : Type} (f : α → β) (p : α → α → Bool) (q : β → β → Bool)
    (h : ∀ a b, q (f a) (f b) = p a b) (l : List α) :
    ∀ ultimo : α, uniqueDesde q (f ultimo) (l.map f) = (uniqueDesde p ultimo l).map f := by
  induction l with
  | nil => intro ultimo; rfl
  | cons y ys ih =>
    intro ultimo
    simp only [List.map_cons, uniqueDesde, h]
    by_cases hp : p ultimo y = true
    · rw [if_pos hp, if_pos hp]
      exact ih ultimo
    · rw [if_neg hp, if_neg hp, List.map_cons, ih y]

theorem unique_map {α β : Type} (f : α → β) (p : α → α → Bool) (q : β → β → Bool)
    (h : ∀ a b, q (f a) (f b) = p a b) (l : List α) :
    unique q (l.map f) = (unique p l).map f := by
  cases l with
  | nil => rfl
  | cons a resto =>
    simp only [List.map_cons, unique]
    rw [uniqueDesde_map f p q h resto a]

theorem comoDobles_comoRacionales (p : Doble × Doble)
    (h : p.1.esFinito = true ∧ p.2.esFinito = true) : comoDobles (comoRacionales p) = p := by
  obtain ⟨a, b⟩ := p
  cases a <;> cases b <;> simp_all [Doble.esFinito, comoDobles, comoRacionales, Doble.valor]

theorem finitos_son_imagen (l : List (Doble × Doble))
    (h : ∀ p ∈ l, p.1.esFinito = true ∧ p.2.esFinito = true) :
    l = (l.map comoRacionales).map comoDobles := by
  induction l with
  | nil => rfl
  | cons a resto ih =>
    simp only [List.map_cons]
    rw [comoDobles_comoRacionales a (h a (List.mem_cons_self _ _)),
      ← ih (fun p hp => h p (List.mem_cons_of_mem _ hp))]

theorem unique_ordenado_estricto (l : List (ℚ × ℚ)) :
    (unique puntosCercanos (ordenarPuntos l)).Pairwise menorLexicografico := by
  have hsorted := ordenarPuntos_sorted l
  cases hl : ordenarPuntos l with
  | nil => simp [unique]
  | cons a resto =>
    rw [hl] at hsorted
    unfold unique
    exact uniqueDesde_estricto resto a hsorted

theorem menorLexicograficoD_comoDobles (a b : ℚ × ℚ) (h : menorLexicografico a b) :
    menorLexicograficoD (comoDobles a) (comoDobles b) := by
  unfold menorLexicograficoD comoDobles
  unfold menorLexicografico at h
  simp only [Doble.menor, decide_eq_true_eq]
  rcases h with h | ⟨h1, h2⟩
  · exact Or.inl h
  · exact Or.inr ⟨by rw [h1], h2⟩

theorem uniqueDesde_conserva_o_cubre {α : Type} (pred : α → α → Bool) (l : List α) :
    ∀ (ultimo x : α), x ∈ l →
      pred ultimo x = true ∨ x ∈ uniqueDesde pred ultimo l ∨
        ∃ y ∈ uniqueDesde pred ultimo l, pred y x = true := by
  induction l with
  | nil => intro ultimo x h; simp at h
  | cons y ys ih =>
    intro ultimo x hx
    unfold uniqueDesde
    by_cases hp : pred ultimo y = true
    · rw [if_pos hp]
      rcases List.mem_cons.mp hx with rfl | hx
      · exact Or.inl hp
      · exact ih ultimo x hx
    · rw [if_neg hp]
      right
      rcases List.mem_cons.mp hx with rfl | hx
      · exact Or.inl (List.mem_cons_self _ _)
      · rcases ih y x hx with h | h | ⟨z, hz, hzx⟩
        · exact Or.inr ⟨y, List.mem_cons_self _ _, h⟩
        · exact Or.inl (List.mem_cons_of_mem _ h)
        · exact Or.inr ⟨z, List.mem_cons_of_mem _ hz, hzx⟩

theorem unique_conserva_o_cubre {α : Type} (pred : α → α → Bool) (l : List α) (x : α)
    (hx : x ∈ l) : x ∈ unique pred l ∨ ∃ y ∈ unique pred l, pred y x = true := by
  cases l with
  | nil => simp at hx
  | cons a resto =>
    unfold unique
    rcases List.mem_cons.mp hx with rfl | hx
    · exact Or.inl (List.mem_cons_self _ _)
    · rcases uniqueDesde_conserva_o_cubre pred resto a x hx with h | h | ⟨z, hz, hzx⟩
      · exact Or.inr ⟨a, List.mem_cons_self _ _, h⟩
      · exact Or.inl (List.mem_cons_of_mem _ h)
      · exact Or.inr ⟨z, List.mem_cons_of_mem _ hz, hzx⟩

theorem cercania_de_finito (a b : Doble) (ha : a.esFinito = true)
    (h : Doble.menor (Doble.absoluto (Doble.resta a b)) (Doble.finito 1e-6) = true) :
    b.esFinito = true := by
  cases a <;> cases b <;>
    simp_all [Doble.esFinito, Doble.resta, Doble.absoluto, Doble.menor]

theorem puntosCercanosD_de_finito (y x : Doble × Doble)
    (hy : y.1.esFinito = true ∧ y.2.esFinito = true) (h : puntosCercanosD y x = true) :
    x.1.esFinito = true ∧ x.2.esFinito = true := by
  unfold puntosCercanosD at h
  rw [Bool.and_eq_true] at h
  exact ⟨cercania_de_finito y.1 x.1 hy.1 h.1, cercania_de_finito y.2 x.2 hy.2 h.2⟩

theorem candidatos_finitos (restricciones : List Restriccion)
    (hfin : ∀ p ∈ unique puntosCercanosD (ordenarPuntosD (puntosSinOrdenarD restricciones)),
      p.1.esFinito = true ∧ p.2.esFinito = true) :
    ∀ p ∈ puntosSinOrdenarD restricciones, p.1.esFinito = true ∧ p.2.esFinito = true := by
  intro p hp
  have hord : p ∈ ordenarPuntosD (puntosSinOrdenarD restricciones) :=
    (List.perm_insertionSort noMayorParD _).mem_iff.mpr hp
  rcases unique_conserva_o_cubre puntosCercanosD _ p hord with h | ⟨y, hy, hyp⟩
  · exact hfin p h
  · exact puntosCercanosD_de_finito y p (hfin y hy) hyp

/-- Counterexample to C14 as stated: the list `[2^-600*x1 <= 2^600]` twice has finite
coefficients and passes `validarRestriccion`; the intercept `2^600 / 2^-600` overflows to
`+∞`, so `(∞, 0)` is pushed twice, and `std::unique` keeps both because `∞ - ∞` is NaN and
`abs(NaN) < 1e-6` is false. The list returned is `[(0, 0), (∞, 0), (∞, 0)]`, whose last two
entries are equal: it is not strictly increasing. -/
theorem encontrarPuntosInterseccion_orden_contraejemplo :
    (∀ r ∈ restriccionesInterceptoEnorme, validarRestriccion r = true) ∧
    (conDatos 7 5 restriccionesInterceptoEnorme {}).encontrarPuntosInterseccionD =
      [(Doble.finito 0, Doble.finito 0), (Doble.masInf, Doble.finito 0),
       (Doble.masInf, Doble.finito 0)] ∧
    ¬ (conDatos 7 5 restriccionesInterceptoEnorme {}).encontrarPuntosInterseccionD.Chain'
        menorLexicograficoD := by
  have hlista : (conDatos 7 5 restriccionesInterceptoEnorme {}).encontrarPuntosInterseccionD =
      [(Doble.finito 0, Doble.finito 0), (Doble.masInf, Doble.finito 0),
       (Doble.masInf, Doble.finito 0)] := by decide!
  refine ⟨by decide!, hlista, ?_⟩
  intro h
  rw [hlista] at h
  have hultimos : menorLexicograficoD (Doble.masInf, Doble.finito 0)
      (Doble.masInf, Doble.finito 0) := (List.chain'_cons.mp (List.chain'_cons.mp h).2).1
  exact absurd hultimos (by decide!)

/-- C14 as amended (deterministic order, overflow apart). For every session, if every point
of the list returned by `encontrarPuntosInterseccion` has finite coordinates (no candidate
coordinate overflowed to `±∞`), then that list is strictly increasing in the lexicographic
order on `(x1, x2)`: for consecutive entries `p`, `q` either `p.x1 < q.x1`, or
`p.x1 = q.x1` and `p.x2 < q.x2`; the same holds for any two entries in list order. -/
theorem encontrarPuntosInterseccionD_orden_estricto (s : SistemaOptimizacion)
    (hfin : ∀ p ∈ s.encontrarPuntosInterseccionD,
      p.1.esFinito = true ∧ p.2.esFinito = true) :
    s.encontrarPuntosInterseccionD.Chain' menorLexicograficoD ∧
    s.encontrarPuntosInterseccionD.Pairwise menorLexicograficoD := by
  unfold encontrarPuntosInterseccionD at *
  have hcand := candidatos_finitos s.restricciones hfin
  have himg := finitos_son_imagen (puntosSinOrdenarD s.restricciones) hcand
  have hpar : (unique puntosCercanosD
      (ordenarPuntosD (puntosSinOrdenarD s.restricciones))).Pairwise menorLexicograficoD := by
    rw [himg, ordenarPuntosD_comoDobles,
      unique_map comoDobles puntosCercanos puntosCercanosD puntosCercanosD_comoDobles]
    exact List.Pairwise.map comoDobles menorLexicograficoD_comoDobles
      (unique_ordenado_estricto _)
  exact ⟨List.Pairwise.chain' hpar, hpar⟩

/-- Witness for C14 as amended: the Flair Furniture session, whose candidates are all
finite. -/
theorem encontrarPuntosInterseccionD_orden_estricto_witness :
    (∀ p ∈ (conDatos 7 5 restriccionesFlair {}).encontrarPuntosInterseccionD,
      p.1.esFinito = true ∧ p.2.esFinito = true) ∧
    (conDatos 7 5 restriccionesFlair {}).encontrarPuntosInterseccionD.Chain'
      menorLexicograficoD :=
  ⟨by decide!,
    (encontrarPuntosInterseccionD_orden_estricto (conDatos 7 5 restriccionesFlair {})
      (by decide!)).1⟩

/-! ## The bounding box of the plot, with overflow -/

theorem maximo_redondear (d : Doble) (q x : ℚ) (hq : 0 ≤ q)
    (h : d = Doble.finito q ∨ d = Doble.masInf) :
    Doble.maximo d (Doble.redondear x) = Doble.finito (max q x) ∨
      Doble.maximo d (Doble.redondear x) = Doble.masInf := by
  rcases h with h | h
  · rw [h]
    rcases redondear_casos x with ⟨_, h1⟩ | ⟨h0, h1⟩ | ⟨_, h1⟩
    · right
      rw [h1]
      rfl
    · left
      rw [h1]
      have hx : x ≤ q := by
        have := umbral_pos
        linarith
      rw [max_eq_left hx]
      rfl
    · left
      rw [h1]
      unfold Doble.maximo
      simp only [Doble.menor]
      by_cases hlt : q < x
      · rw [if_pos (decide_eq_true hlt), max_eq_right (le_of_lt hlt)]
      · rw [if_neg (by simpa using hlt), max_eq_left (not_lt.mp hlt)]
  · right
    rw [h]
    cases Doble.redondear x <;> rfl

theorem pasoEscalaD_x (m : Doble × Doble) (r : Restriccion) :
    (pasoEscalaD m r).1 =
      if (r.operador = "<=" ∨ r.operador = "=") ∧ r.coeficienteX1 > 0 then
        Doble.maximo m.1 (Doble.redondear (r.valorConstante / r.coeficienteX1)) else m.1 := by
  by_cases hop : r.operador = "<=" ∨ r.operador = "="
  · by_cases ha : r.coeficienteX1 > 0
    · simp only [pasoEscalaD, if_pos hop, if_pos ha, if_pos (And.intro hop ha),
        cociente_finitos _ _ (ne_of_gt ha)]
    · simp only [pasoEscalaD, if_pos hop, if_neg ha,
        if_neg (fun hc : (r.operador = "<=" ∨ r.operador = "=") ∧ r.coeficienteX1 > 0 => ha hc.2)]
  · simp only [pasoEscalaD, if_neg hop,
      if_neg (fun hc : (r.operador = "<=" ∨ r.operador = "=") ∧ r.coeficienteX1 > 0 => hop hc.1)]

theorem pasoEscalaD_y (m : Doble × Doble) (r : Restriccion) :
    (pasoEscalaD m r).2 =
      if (r.operador = "<=" ∨ r.operador = "=") ∧ r.coeficienteX2 > 0 then
        Doble.maximo m.2 (Doble.redondear (r.valorConstante / r.coeficienteX2)) else m.2 := by
  by_cases hop : r.operador = "<=" ∨ r.operador = "="
  · by_cases hb : r.coeficienteX2 > 0
    · simp only [pasoEscalaD, if_pos hop, if_pos hb, if_pos (And.intro hop hb),
        cociente_finitos _ _ (ne_of_gt hb)]
    · simp only [pasoEscalaD, if_pos hop, if_neg hb,
        if_neg (fun hc : (r.operador = "<=" ∨ r.operador = "=") ∧ r.coeficienteX2 > 0 => hb hc.2)]
  · simp only [pasoEscalaD, if_neg hop,
      if_neg (fun hc : (r.operador = "<=" ∨ r.operador = "=") ∧ r.coeficienteX2 > 0 => hop hc.1)]

theorem foldl_pasoEscalaD_sigue (restricciones : List Restriccion) :
    ∀ (d : Doble × Doble) (m : ℚ × ℚ),
      (0 ≤ m.1 ∧ (d.1 = Doble.finito m.1 ∨ d.1 = Doble.masInf)) →
      (0 ≤ m.2 ∧ (d.2 = Doble.finito m.2 ∨ d.2 = Doble.masInf)) →
      (0 ≤ (restricciones.foldl pasoEscala m).1 ∧
        ((restricciones.foldl pasoEscalaD d).1 =
            Doble.finito (restricciones.foldl pasoEscala m).1 ∨
          (restricciones.foldl pasoEscalaD d).1 = Doble.masInf)) ∧
      (0 ≤ (restricciones.foldl pasoEscala m).2 ∧
        ((restricciones.foldl pasoEscalaD d).2 =
            Doble.finito (restricciones.foldl pasoEscala m).2 ∨
          (restricciones.foldl pasoEscalaD d).2 = Doble.masInf)) := by
  induction restricciones with
  | nil =>
    intro d m h1 h2
    exact ⟨h1, h2⟩
  | cons r resto ih =>
    intro d m h1 h2
    simp only [List.foldl_cons]
    apply ih
    · rw [pasoEscala_x, pasoEscalaD_x]
      by_cases hg : (r.operador = "<=" ∨ r.operador = "=") ∧ r.coeficienteX1 > 0
      · rw [if_pos hg, if_pos hg]
        exact ⟨le_trans h1.1 (le_max_left _ _), maximo_redondear _ _ _ h1.1 h1.2⟩
      · rw [if_neg hg, if_neg hg]
        exact h1
    · rw [pasoEscala_y, pasoEscalaD_y]
      by_cases hg : (r.operador = "<=" ∨ r.operador = "=") ∧ r.coeficienteX2 > 0
      · rw [if_pos hg, if_pos hg]
        exact ⟨le_trans h2.1 (le_max_left _ _), maximo_redondear _ _ _ h2.1 h2.2⟩
      · rw [if_neg hg, if_neg hg]
        exact h2

theorem componenteD_sigue (d : Doble) (q optimo : ℚ) (encontrada : Bool)
    (h : 0 ≤ q ∧ (d = Doble.finito q ∨ d = Doble.masInf)) :
    Doble.maximo
        (if encontrada = true then
          Doble.maximo d (Doble.producto (Doble.finito optimo) (Doble.finito 1.2)) else d)
        (Doble.finito 10) =
      Doble.finito (max (if encontrada = true then max q (optimo * 1.2) else q) 10) ∨
    Doble.maximo
        (if encontrada = true then
          Doble.maximo d (Doble.producto (Doble.finito optimo) (Doble.finito 1.2)) else d)
        (Doble.finito 10) = Doble.masInf := by
  have hdiez : Doble.finito 10 = Doble.redondear 10 := by
    rw [redondear_finito]
    rw [abs_of_pos (by norm_num)]
    exact lt_trans (by norm_num) umbral_grande
  have hprod : Doble.producto (Doble.finito optimo) (Doble.finito 1.2) =
      Doble.redondear (optimo * 1.2) := rfl
  rw [hdiez, hprod]
  by_cases he : encontrada = true
  · rw [if_pos he, if_pos he]
    rcases maximo_redondear d q (optimo * 1.2) h.1 h.2 with h1 | h1
    · exact maximo_redondear _ _ 10 (le_trans h.1 (le_max_left _ _)) (Or.inl h1)
    · exact maximo_redondear _ (max q (optimo * 1.2)) 10 (le_trans h.1 (le_max_left _ _))
        (Or.inr h1)
  · rw [if_neg he, if_neg he]
    exact maximo_redondear d q 10 h.1 h.2

theorem escalaSinRedondearD_x (restricciones : List Restriccion) (solucion : SolucionOptima) :
    (escalaSinRedondearD restricciones solucion).1 =
      Doble.maximo
        (if solucion.solucionEncontrada = true then
          Doble.maximo (restricciones.foldl pasoEscalaD (Doble.finito 0, Doble.finito 0)).1
            (Doble.producto (Doble.finito solucion.x1) (Doble.finito 1.2))
        else (restricciones.foldl pasoEscalaD (Doble.finito 0, Doble.finito 0)).1)
        (Doble.finito 10) := by
  unfold escalaSinRedondearD
  by_cases h : solucion.solucionEncontrada = true
  · simp only [if_pos h]
  · simp only [if_neg h]

theorem escalaSinRedondearD_y (restricciones : List Restriccion) (solucion : SolucionOptima) :
    (escalaSinRedondearD restricciones solucion).2 =
      Doble.maximo
        (if solucion.solucionEncontrada = true then
          Doble.maximo (restricciones.foldl pasoEscalaD (Doble.finito 0, Doble.finito 0)).2
            (Doble.producto (Doble.finito solucion.x2) (Doble.finito 1.2))
        else (restricciones.foldl pasoEscalaD (Doble.finito 0, Doble.finito 0)).2)
        (Doble.finito 10) := by
  unfold escalaSinRedondearD
  by_cases h : solucion.solucionEncontrada = true
  · simp only [if_pos h]
  · simp only [if_neg h]

theorem escalaSinRedondearD_sigue (restricciones : List Restriccion)
    (solucion : SolucionOptima) :
    ((escalaSinRedondearD restricciones solucion).1 =
        Doble.finito (escalaSinRedondear restricciones solucion).1 ∨
      (escalaSinRedondearD restricciones solucion).1 = Doble.masInf) ∧
    ((escalaSinRedondearD restricciones solucion).2 =
        Doble.finito (escalaSinRedondear restricciones solucion).2 ∨
      (escalaSinRedondearD restricciones solucion).2 = Doble.masInf) := by
  obtain ⟨hx, hy⟩ := foldl_pasoEscalaD_sigue restricciones (Doble.finito 0, Doble.finito 0)
    (0, 0) ⟨le_refl _, Or.inl rfl⟩ ⟨le_refl _, Or.inl rfl⟩
  rw [escalaSinRedondearD_x, escalaSinRedondearD_y, escalaSinRedondear_x,
    escalaSinRedondear_y]
  exact ⟨componenteD_sigue _ _ solucion.x1 solucion.solucionEncontrada hx,
    componenteD_sigue _ _ solucion.x2 solucion.solucionEncontrada hy⟩

theorem escalaSinRedondearD_finita (restricciones : List Restriccion)
    (solucion : SolucionOptima) (vx vy : ℚ)
    (hV : escalaSinRedondearD restricciones solucion = (Doble.finito vx, Doble.finito vy)) :
    vx = (escalaSinRedondear restricciones solucion).1 ∧
    vy = (escalaSinRedondear restricciones solucion).2 := by
  obtain ⟨hx, hy⟩ := escalaSinRedondearD_sigue restricciones solucion
  rw [hV] at hx hy
  constructor
  · rcases hx with h | h
    · exact Doble.finito.inj h
    · exact Doble.noConfusion h
  · rcases hy with h | h
    · exact Doble.finito.inj h
    · exact Doble.noConfusion h

theorem redondearADiez_finito (valor : ℚ) (h10 : 10 ≤ valor) (hv : valor < 2 ^ 53) :
    redondearADiez (Doble.finito valor) =
      Doble.finito ((Int.ceil (valor / 10) : ℚ) * 10) := by
  have hu := umbral_grande
  have hcoc : Doble.cociente (Doble.finito valor) (Doble.finito 10) =
      Doble.finito (valor / 10) := by
    rw [cociente_finitos _ _ (by norm_num), redondear_finito]
    rw [abs_of_nonneg (by linarith)]
    linarith
  have hinf := (techo_por_diez valor).1
  have hsup : (Int.ceil (valor / 10) : ℚ) < valor / 10 + 1 := Int.ceil_lt_add_one _
  unfold redondearADiez
  rw [hcoc]
  simp only [Doble.techo, Doble.producto]
  rw [redondear_finito]
  rw [abs_of_nonneg (by linarith)]
  linarith

/-- Counterexample to C23 as stated: the single constraint `2^-600*x1 <= 2^600` has finite
coefficients and passes `validarRestriccion`; its intercept `2^600 / 2^-600` overflows to
`+∞`, so `maxX` is `ceil(∞ / 10.0) * 10.0 = ∞` after `configurarEscala`, which is not an
integer multiple of `10`. -/
theorem configurarEscala_multiplos_contraejemplo :
    validarRestriccion (Restriccion.mk (1 / 2 ^ 600) 0 (2 ^ 600) "<=") = true ∧
    configurarEscalaD [Restriccion.mk (1 / 2 ^ 600) 0 (2 ^ 600) "<="] {} =
      (Doble.masInf, Doble.finito 10) ∧
    ¬ ∃ k : ℤ, (configurarEscalaD [Restriccion.mk (1 / 2 ^ 600) 0 (2 ^ 600) "<="] {}).1 =
      Doble.finito (10 * (k : ℚ)) := by
  have hcaja : configurarEscalaD [Restriccion.mk (1 / 2 ^ 600) 0 (2 ^ 600) "<="] {} =
      (Doble.masInf, Doble.finito 10) := by decide!
  refine ⟨by decide!, hcaja, ?_⟩
  rintro ⟨k, hk⟩
  rw [hcaja] at hk
  exact Doble.noConfusion hk

/-- C23 as amended (bounding box shape, overflow apart). For every constraint list and
every solution, if the values `maxX` and `maxY` hold just before the rounding statements
of `configurarEscala` are finite and below `2^53` (no intercept overflowed, and the
multiples of `10` in reach are exact doubles), then after `configurarEscala` both `maxX`
and `maxY` are finite integer multiples of `10` and are at least `10`. -/
theorem configurarEscalaD_multiplos_de_diez (restricciones : List Restriccion)
    (solucion : SolucionOptima) (vx vy : ℚ)
    (hV : escalaSinRedondearD restricciones solucion = (Doble.finito vx, Doble.finito vy))
    (hx : vx < 2 ^ 53) (hy : vy < 2 ^ 53) :
    ∃ kx ky : ℤ,
      configurarEscalaD restricciones solucion =
        (Doble.finito (10 * (kx : ℚ)), Doble.finito (10 * (ky : ℚ))) ∧
      (10 : ℚ) ≤ 10 * (kx : ℚ) ∧ (10 : ℚ) ≤ 10 * (ky : ℚ) := by
  obtain ⟨hvx, hvy⟩ := escalaSinRedondearD_finita restricciones solucion vx vy hV
  obtain ⟨hmx, hmy⟩ := escalaSinRedondear_minimo restricciones solucion
  rw [← hvx] at hmx
  rw [← hvy] at hmy
  refine ⟨Int.ceil (vx / 10), Int.ceil (vy / 10), ?_, ?_, ?_⟩
  · unfold configurarEscalaD
    rw [hV]
    simp only
    rw [redondearADiez_finito vx hmx hx, redondearADiez_finito vy hmy hy, mul_comm,
      mul_comm (Int.ceil (vy / 10) : ℚ)]
  · have := (techo_por_diez vx).1
    linarith
  · have := (techo_por_diez vy).1
    linarith

/-- Witness for C23 as amended: the solved Flair Furniture session, where the values before
rounding are `60` and `100`. -/
theorem configurarEscalaD_multiplos_de_diez_witness :
    escalaSinRedondearD restriccionesFlair
        (calcularSolucionOptima (conDatos 7 5 restriccionesFlair {})).1.solucion =
      (Doble.finito 60, Doble.finito 100) ∧
    ∃ kx ky : ℤ,
      configurarEscalaD restriccionesFlair
          (calcularSolucionOptima (conDatos 7 5 restriccionesFlair {})).1.solucion =
        (Doble.finito (10 * (kx : ℚ)), Doble.finito (10 * (ky : ℚ))) ∧
      (10 : ℚ) ≤ 10 * (kx : ℚ) ∧ (10 : ℚ) ≤ 10 * (ky : ℚ) :=
  ⟨by decide!,
    configurarEscalaD_multiplos_de_diez restriccionesFlair
      (calcularSolucionOptima (conDatos 7 5 restriccionesFlair {})).1.solucion 60 100
      (by decide!) (by norm_num) (by norm_num)⟩

/-- In the exact model, where neither the intercepts nor `ceil(V / 10) * 10` overflow or are
rounded: the value `V` held before rounding is the largest of `10`, the intercepts of the
`<=` and `=` constraints with a positive coefficient (not scaled) and `1.2` times the
optimum when a solution is stored, and `configurarEscala` stores the smallest multiple of
`10` that is at least `V`. -/
theorem configurarEscala_margen_exacto (v : VisualizadorGrafico)
    (restricciones : List Restriccion) (solucion : SolucionOptima) :
    (10 ≤ (escalaSinRedondear restricciones solucion).1 ∧
      (∀ r ∈ restricciones, (r.operador = "<=" ∨ r.operador = "=") ∧ r.coeficienteX1 > 0 →
        r.valorConstante / r.coeficienteX1 ≤ (escalaSinRedondear restricciones solucion).1) ∧
      (solucion.solucionEncontrada = true →
        solucion.x1 * 1.2 ≤ (escalaSinRedondear restricciones solucion).1) ∧
      ((escalaSinRedondear restricciones solucion).1 = 10 ∨
        (∃ r ∈ restricciones, ((r.operador = "<=" ∨ r.operador = "=") ∧ r.coeficienteX1 > 0) ∧
          (escalaSinRedondear restricciones solucion).1 =
            r.valorConstante / r.coeficienteX1) ∨
        (solucion.solucionEncontrada = true ∧
          (escalaSinRedondear restricciones solucion).1 = solucion.x1 * 1.2))) ∧
    (10 ≤ (escalaSinRedondear restricciones solucion).2 ∧
      (∀ r ∈ restricciones, (r.operador = "<=" ∨ r.operador = "=") ∧ r.coeficienteX2 > 0 →
        r.valorConstante / r.coeficienteX2 ≤ (escalaSinRedondear restricciones solucion).2) ∧
      (solucion.solucionEncontrada = true →
        solucion.x2 * 1.2 ≤ (escalaSinRedondear restricciones solucion).2) ∧
      ((escalaSinRedondear restricciones solucion).2 = 10 ∨
        (∃ r ∈ restricciones, ((r.operador = "<=" ∨ r.operador = "=") ∧ r.coeficienteX2 > 0) ∧
          (escalaSinRedondear restricciones solucion).2 =
            r.valorConstante / r.coeficienteX2) ∨
        (solucion.solucionEncontrada = true ∧
          (escalaSinRedondear restricciones solucion).2 = solucion.x2 * 1.2))) ∧
    ((∃ k : ℤ, (v.configurarEscala restricciones solucion).maxX = 10 * (k : ℚ)) ∧
      (escalaSinRedondear restricciones solucion).1 ≤
        (v.configurarEscala restricciones solucion).maxX ∧
      ∀ k : ℤ, (escalaSinRedondear restricciones solucion).1 ≤ 10 * (k : ℚ) →
        (v.configurarEscala restricciones solucion).maxX ≤ 10 * (k : ℚ)) ∧
    ((∃ k : ℤ, (v.configurarEscala restricciones solucion).maxY = 10 * (k : ℚ)) ∧
      (escalaSinRedondear restricciones solucion).2 ≤
        (v.configurarEscala restricciones solucion).maxY ∧
      ∀ k : ℤ, (escalaSinRedondear restricciones solucion).2 ≤ 10 * (k : ℚ) →
        (v.configurarEscala restricciones solucion).maxY ≤ 10 * (k : ℚ)) := by
  obtain ⟨_, hcx, hvx⟩ := foldl_maximo_generico Prod.fst
    (fun r => (r.operador = "<=" ∨ r.operador = "=") ∧ r.coeficienteX1 > 0)
    (fun r => r.valorConstante / r.coeficienteX1) pasoEscala pasoEscala_x restricciones (0, 0)
  obtain ⟨_, hcy, hvy⟩ := foldl_maximo_generico Prod.snd
    (fun r => (r.operador = "<=" ∨ r.operador = "=") ∧ r.coeficienteX2 > 0)
    (fun r => r.valorConstante / r.coeficienteX2) pasoEscala pasoEscala_y restricciones (0, 0)
  have hx := componente_caracterizada restricciones _ _ _ solucion.x1
    solucion.solucionEncontrada hcx hvx
  have hy := componente_caracterizada restricciones _ _ _ solucion.x2
    solucion.solucionEncontrada hcy hvy
  rw [← escalaSinRedondear_x] at hx
  rw [← escalaSinRedondear_y] at hy
  have htx := techo_por_diez (escalaSinRedondear restricciones solucion).1
  have hty := techo_por_diez (escalaSinRedondear restricciones solucion).2
  refine ⟨hx, hy, ⟨⟨Int.ceil ((escalaSinRedondear restricciones solucion).1 / 10), ?_⟩, ?_, ?_⟩,
    ⟨⟨Int.ceil ((escalaSinRedondear restricciones solucion).2 / 10), ?_⟩, ?_, ?_⟩⟩
  · simp only [configurarEscala]
    ring
  · exact htx.1
  · exact htx.2
  · simp only [configurarEscala]
    ring
  · exact hty.1
  · exact hty.2

/-- C24 as amended (the margin is applied to the optimum only; overflow apart). Let `V` be
the value `maxX` holds just before the rounding statement of `configurarEscala`. If `V` and
its counterpart for `maxY` are finite and below `2^53` (no intercept overflowed, and the
multiples of `10` in reach are exact doubles), then `V` is the largest of `10`, the x1
intercepts `c/a` of the `<=` and `=` constraints with `a > 0` (not scaled), and `1.2 * x1` of
the optimum when a solution is stored, and after `configurarEscala` `maxX` is the smallest
multiple of `10` that is at least `V`; likewise `maxY` with the x2 intercepts `c/b`
(`b > 0`) and `1.2 * x2`. -/
theorem configurarEscalaD_margen (restricciones : List Restriccion)
    (solucion : SolucionOptima) (vx vy : ℚ)
    (hV : escalaSinRedondearD restricciones solucion = (Doble.finito vx, Doble.finito vy))
    (hx : vx < 2 ^ 53) (hy : vy < 2 ^ 53) :
    (10 ≤ vx ∧
      (∀ r ∈ restricciones, (r.operador = "<=" ∨ r.operador = "=") ∧ r.coeficienteX1 > 0 →
        r.valorConstante / r.coeficienteX1 ≤ vx) ∧
      (solucion.solucionEncontrada = true → solucion.x1 * 1.2 ≤ vx) ∧
      (vx = 10 ∨
        (∃ r ∈ restricciones, ((r.operador = "<=" ∨ r.operador = "=") ∧ r.coeficienteX1 > 0) ∧
          vx = r.valorConstante / r.coeficienteX1) ∨
        (solucion.solucionEncontrada = true ∧ vx = solucion.x1 * 1.2))) ∧
    (10 ≤ vy ∧
      (∀ r ∈ restricciones, (r.operador = "<=" ∨ r.operador = "=") ∧ r.coeficienteX2 > 0 →
        r.valorConstante / r.coeficienteX2 ≤ vy) ∧
      (solucion.solucionEncontrada = true → solucion.x2 * 1.2 ≤ vy) ∧
      (vy = 10 ∨
        (∃ r ∈ restricciones, ((r.operador = "<=" ∨ r.operador = "=") ∧ r.coeficienteX2 > 0) ∧
          vy = r.valorConstante / r.coeficienteX2) ∨
        (solucion.solucionEncontrada = true ∧ vy = solucion.x2 * 1.2))) ∧
    (∃ kx : ℤ, (configurarEscalaD restricciones solucion).1 = Doble.finito (10 * (kx : ℚ)) ∧
      vx ≤ 10 * (kx : ℚ) ∧ ∀ k : ℤ, vx ≤ 10 * (k : ℚ) → 10 * (kx : ℚ) ≤ 10 * (k : ℚ)) ∧
    (∃ ky : ℤ, (configurarEscalaD restricciones solucion).2 = Doble.finito (10 * (ky : ℚ)) ∧
      vy ≤ 10 * (ky : ℚ) ∧ ∀ k : ℤ, vy ≤ 10 * (k : ℚ) → 10 * (ky : ℚ) ≤ 10 * (k : ℚ)) := by
  obtain ⟨hvx, hvy⟩ := escalaSinRedondearD_finita restricciones solucion vx vy hV
  obtain ⟨hcx, hcy, _, _⟩ := configurarEscala_margen_exacto nuevo restricciones solucion
  rw [← hvx] at hcx
  rw [← hvy] at hcy
  have htx := techo_por_diez vx
  have hty := techo_por_diez vy
  refine ⟨hcx, hcy, ⟨Int.ceil (vx / 10), ?_, ?_, ?_⟩, ⟨Int.ceil (vy / 10), ?_, ?_, ?_⟩⟩
  · unfold configurarEscalaD
    rw [hV]
    simp only
    rw [redondearADiez_finito vx hcx.1 hx, mul_comm]
  · linarith [htx.1]
  · intro k hk
    linarith [htx.2 k hk]
  · unfold configurarEscalaD
    rw [hV]
    simp only
    rw [redondearADiez_finito vy hcy.1 hy, mul_comm]
  · linarith [hty.1]
  · intro k hk
    linarith [hty.2 k hk]

/-- Witness for C24 as amended: the solved Flair Furniture session, where the optimum
`(30, 40)` is stored, the values before rounding are `60` and `100`, and `1.2 * 30 = 36` is
below `60`. -/
theorem configurarEscalaD_margen_witness :
    escalaSinRedondearD restriccionesFlair
        (calcularSolucionOptima (conDatos 7 5 restriccionesFlair {})).1.solucion =
      (Doble.finito 60, Doble.finito 100) ∧
    (calcularSolucionOptima (conDatos 7 5 restriccionesFlair {})).1.solucion.x1 * 1.2 ≤ 60 :=
  ⟨by decide!,
    (configurarEscalaD_margen restriccionesFlair
      (calcularSolucionOptima (conDatos 7 5 restriccionesFlair {})).1.solucion 60 100
      (by decide!) (by norm_num) (by norm_num)).1.2.2.1 (by decide!)⟩
